import Mathlib

/-! Hotones network session core.

A shallow embedding of `src/Hotones/src/include/server/Packets.hpp`,
`src/Hotones/src/include/server/NetworkManager.hpp` and
`src/Hotones/src/Headless/NetworkManager.cpp`.

Conventions of the embedding:

* `uint8_t`, `uint16_t` and `char` values are natural numbers; the one place
  where the source does arithmetic on them (`nextId++`) reduces modulo `256`.
* A `float` is its 32-bit pattern, a natural number below `2 ^ 32`; the code
  only ever copies floats.
* A fixed `char[n]` array is a list of `n` bytes.
* Multi-byte members are laid out least significant byte first (the layout of
  the little-endian hosts the program is built for); nothing converts byte
  order in the source.
* `SendRaw` and the user callbacks are recorded, in program order, as a list
  of `Effect`s returned next to the new state.
* Results of the operating system (socket creation, `bind`, name resolution,
  the clock, `recvfrom`) are arguments of the functions that consume them.
* The `std::cout` / `std::cerr` log lines are not modelled.
-/

namespace Hotones.Net

/-! ## Packets.hpp -/

namespace PacketType

abbrev CONNECT : Nat := 0x01
abbrev CONNECT_ACK : Nat := 0x02
abbrev DISCONNECT : Nat := 0x03
abbrev PLAYER_UPDATE : Nat := 0x10
abbrev PING : Nat := 0x20
abbrev PONG : Nat := 0x21
abbrev SERVER_INFO_REQ : Nat := 0x30
abbrev SERVER_INFO_RESP : Nat := 0x31

end PacketType

/-- Header shared by every packet: `type` is the raw tag byte. -/
structure PacketHeader where
  type : Nat := 0
  playerId : Nat := 0
deriving DecidableEq, Repr

structure ConnectPacket where
  header : PacketHeader := {}
  name : List Nat := List.replicate 16 0
deriving DecidableEq, Repr

structure ConnectAckPacket where
  header : PacketHeader := {}
  assignedId : Nat := 0
deriving DecidableEq, Repr

structure DisconnectPacket where
  header : PacketHeader := {}
deriving DecidableEq, Repr

structure PlayerUpdatePacket where
  header : PacketHeader := {}
  posX : Nat := 0
  posY : Nat := 0
  posZ : Nat := 0
  rotX : Nat := 0
  rotY : Nat := 0
deriving DecidableEq, Repr

structure ServerInfoReqPacket where
  header : PacketHeader := {}
deriving DecidableEq, Repr

/-- The members `Packets.hpp` declares for the server-info response. -/
structure ServerInfoRespPacket where
  header : PacketHeader := {}
  playerCount : Nat := 0
  maxPlayers : Nat := 0
  port : Nat := 0
  pakName : List Nat := List.replicate 32 0
  serverName : List Nat := List.replicate 32 0
deriving DecidableEq, Repr

/-! ### The packed (`#pragma pack(1)`) layout -/

/-- One `uint8_t` member. -/
def putU8 (v : Nat) : List Nat := [v % 256]

/-- One `uint16_t` member. -/
def putU16 (v : Nat) : List Nat := [v % 256, v / 256 % 256]

/-- One `float` member, given by its bit pattern. -/
def putU32 (v : Nat) : List Nat :=
  [v % 256, v / 256 % 256, v / 65536 % 256, v / 16777216 % 256]

/-- A `char[n]` member: exactly `n` bytes. -/
def putChars (n : Nat) (buf : List Nat) : List Nat :=
  (List.range n).map (fun i => buf.getD i 0 % 256)

/-- Byte `off` of a receive buffer; the buffer is zero-initialised, so a
position the list does not reach reads as `0`. -/
def getU8 (d : List Nat) (off : Nat) : Nat := d.getD off 0

def getU16 (d : List Nat) (off : Nat) : Nat :=
  d.getD off 0 + 256 * d.getD (off + 1) 0

def getU32 (d : List Nat) (off : Nat) : Nat :=
  d.getD off 0 + 256 * d.getD (off + 1) 0 + 65536 * d.getD (off + 2) 0
    + 16777216 * d.getD (off + 3) 0

def getChars (d : List Nat) (off n : Nat) : List Nat :=
  (List.range n).map (fun i => d.getD (off + i) 0)

/-- The first `n` bytes of a buffer, as `SendRaw(addr, data, n)` reads them. -/
def rawBytes (d : List Nat) (n : Nat) : List Nat := getChars d 0 n

abbrev sizeof_PacketHeader : Nat := 2
abbrev sizeof_ConnectPacket : Nat := 18
abbrev sizeof_ConnectAckPacket : Nat := 3
abbrev sizeof_DisconnectPacket : Nat := 2
abbrev sizeof_PlayerUpdatePacket : Nat := 22
abbrev sizeof_ServerInfoReqPacket : Nat := 2
abbrev sizeof_ServerInfoRespPacket : Nat := 70

def PacketHeader.toBytes (h : PacketHeader) : List Nat :=
  putU8 h.type ++ putU8 h.playerId

def PacketHeader.ofBytes (d : List Nat) : PacketHeader :=
  { type := getU8 d 0, playerId := getU8 d 1 }

def ConnectPacket.toBytes (p : ConnectPacket) : List Nat :=
  p.header.toBytes ++ putChars 16 p.name

def ConnectPacket.ofBytes (d : List Nat) : ConnectPacket :=
  { header := PacketHeader.ofBytes d, name := getChars d 2 16 }

def ConnectAckPacket.toBytes (p : ConnectAckPacket) : List Nat :=
  p.header.toBytes ++ putU8 p.assignedId

def ConnectAckPacket.ofBytes (d : List Nat) : ConnectAckPacket :=
  { header := PacketHeader.ofBytes d, assignedId := getU8 d 2 }

def DisconnectPacket.toBytes (p : DisconnectPacket) : List Nat :=
  p.header.toBytes

def DisconnectPacket.ofBytes (d : List Nat) : DisconnectPacket :=
  { header := PacketHeader.ofBytes d }

def PlayerUpdatePacket.toBytes (p : PlayerUpdatePacket) : List Nat :=
  p.header.toBytes ++ putU32 p.posX ++ putU32 p.posY ++ putU32 p.posZ
    ++ putU32 p.rotX ++ putU32 p.rotY

def PlayerUpdatePacket.ofBytes (d : List Nat) : PlayerUpdatePacket :=
  { header := PacketHeader.ofBytes d
    posX := getU32 d 2, posY := getU32 d 6, posZ := getU32 d 10
    rotX := getU32 d 14, rotY := getU32 d 18 }

def ServerInfoReqPacket.toBytes (p : ServerInfoReqPacket) : List Nat :=
  p.header.toBytes

def ServerInfoReqPacket.ofBytes (d : List Nat) : ServerInfoReqPacket :=
  { header := PacketHeader.ofBytes d }

def ServerInfoRespPacket.toBytes (p : ServerInfoRespPacket) : List Nat :=
  p.header.toBytes ++ putU8 p.playerCount ++ putU8 p.maxPlayers ++ putU16 p.port
    ++ putChars 32 p.pakName ++ putChars 32 p.serverName

def ServerInfoRespPacket.ofBytes (d : List Nat) : ServerInfoRespPacket :=
  { header := PacketHeader.ofBytes d
    playerCount := getU8 d 2, maxPlayers := getU8 d 3, port := getU16 d 4
    pakName := getChars d 6 32, serverName := getChars d 38 32 }

/-- A `char[n]` value: `n` bytes. -/
def IsChars (n : Nat) (buf : List Nat) : Prop :=
  buf.length = n ∧ ∀ c ∈ buf, c < 256

instance (n : Nat) (buf : List Nat) : Decidable (IsChars n buf) :=
  inferInstanceAs (Decidable (buf.length = n ∧ ∀ c ∈ buf, c < 256))

/-- Both members of the header are bytes. -/
def PacketHeader.Valid (h : PacketHeader) : Prop :=
  h.type < 256 ∧ h.playerId < 256

instance (h : PacketHeader) : Decidable h.Valid :=
  inferInstanceAs (Decidable (h.type < 256 ∧ h.playerId < 256))

/-! ### C strings -/

/-- The C string a character buffer holds: the bytes before the first NUL. -/
def cstr (buf : List Nat) : List Nat := buf.takeWhile (fun c => c != 0)

/-- The call `std::strncpy(dst, src, n)`: the first `n` bytes of `dst` become
the characters of the C string at `src`, at most `n` of them, padded with NUL
up to `n`; the rest of `dst` is kept. -/
def strncpy (dst src : List Nat) (n : Nat) : List Nat :=
  let s := (cstr src).take n
  s ++ List.replicate (n - s.length) 0 ++ dst.drop n

/-- The characters `s` followed by NUL bytes up to the width `n` of a buffer. -/
def padNul (n : Nat) (s : List Nat) : List Nat := s ++ List.replicate (n - s.length) 0

/-! ## NetworkManager.hpp -/

abbrev DEFAULT_PORT : Nat := 27015
abbrev MAX_PLAYERS : Nat := 16

structure RemotePlayer where
  id : Nat := 0
  name : List Nat := List.replicate 16 0
  posX : Nat := 0
  posY : Nat := 0
  posZ : Nat := 0
  rotX : Nat := 0
  rotY : Nat := 0
  active : Bool := false
deriving DecidableEq, Repr

inductive Mode
  | None
  | Server
  | Client
deriving DecidableEq, Repr

/-! ## NetworkManager.cpp: internal types -/

structure sockaddr_in where
  sin_family : Nat := 0
  sin_port : Nat := 0
  sin_addr : Nat := 0
deriving DecidableEq, Repr

structure ClientSlot where
  addr : sockaddr_in := {}
  id : Nat := 0
  name : List Nat := List.replicate 16 0
  active : Bool := false
deriving DecidableEq, Repr

/-- A queued datagram; `from_` is the member `from` of the source. -/
structure RawPacket where
  data : List Nat := List.replicate 512 0
  len : Nat := 0
  from_ : sockaddr_in := {}
deriving DecidableEq, Repr

structure PingResult where
  host : List Nat := []
  port : Nat := 0
  playerCount : Nat := 0
  maxPlayers : Nat := 0
  pakName : List Nat := List.replicate 32 0
  gameVersion : List Nat := List.replicate 16 0
  pakVersion : List Nat := List.replicate 16 0
deriving DecidableEq, Repr

/-- What the program does to the outside, in program order. `sendInfo` is the
`SendRaw` of the server-info response: `NetworkManager.cpp` also fills a
`gameVersion` member that the `Packets.hpp` at hand does not declare, so that
datagram is kept as the declared members plus the bytes copied into
`gameVersion`, not as wire bytes. -/
inductive Effect
  | send (addr : sockaddr_in) (data : List Nat)
  | sendInfo (addr : sockaddr_in) (resp : ServerInfoRespPacket) (gameVersion : List Nat)
  | playerJoined (id : Nat) (name : List Nat)
  | playerLeft (id : Nat)
  | serverInfo (r : PingResult)
deriving DecidableEq, Repr

/-- Destination of a datagram, `none` for a callback. -/
def Effect.dest : Effect → Option sockaddr_in
  | Effect.send a _ => some a
  | Effect.sendInfo a _ _ => some a
  | _ => none

def Effect.isSend (e : Effect) : Bool := e.dest.isSome

abbrev MAX_CONNECT_ATTEMPTS : Nat := 15
abbrev CONNECT_RETRY_MS : Int := 500

/-- Ticks of `std::chrono::steady_clock` per millisecond (nanosecond ticks). -/
abbrev TICKS_PER_MS : Int := 1000000

/-- The session state `NetworkManager::Impl`. `socket` is the handle
(`none` for `INVALID_SOCK_VAL`); `remotePlayers` is the `unordered_map` as an
association list with at most one entry per key; time points are tick counts.
-/
structure Impl where
  socket : Option Nat := none
  mode : Mode := Mode.None
  running : Bool := false
  recvQueue : List RawPacket := []
  clients : List ClientSlot := List.replicate MAX_PLAYERS {}
  nextId : Nat := 1
  serverAddr : sockaddr_in := {}
  localId : Nat := 0
  connected : Bool := false
  localName : List Nat := [80, 108, 97, 121, 101, 114, 0, 0, 0, 0, 0, 0, 0, 0, 0, 0]
  remotePlayers : List (Nat × RemotePlayer) := []
  lastConnectAttempt : Int := 0
  connectAttempts : Nat := 0
  hostedPakName : List Nat := List.replicate 32 0
  boundPort : Nat := 0
  pingResults : List PingResult := []
deriving DecidableEq, Repr

/-- The public object: the state and whether each `std::function` callback is
set. -/
structure NetworkManager where
  m_impl : Impl := {}
  OnPlayerJoined : Bool := false
  OnPlayerLeft : Bool := false
  OnServerInfo : Bool := false
deriving DecidableEq, Repr

/-! ## NetworkManager.cpp: `Impl` -/

/-- The member access `remotePlayers[k]` followed by assignments `f` to the
entry: an absent key is first inserted with a value-initialised entry. -/
def upsert (m : List (Nat × RemotePlayer)) (k : Nat) (f : RemotePlayer → RemotePlayer) :
    List (Nat × RemotePlayer) :=
  match m with
  | [] => [(k, f {})]
  | (k', v) :: rest => if k' = k then (k', f v) :: rest else (k', v) :: upsert rest k f

/-- The call `remotePlayers.erase(k)`. -/
def erase (m : List (Nat × RemotePlayer)) (k : Nat) : List (Nat × RemotePlayer) :=
  m.filter (fun e => e.1 != k)

/-- The entry stored under `k`, if any. -/
def lookup (m : List (Nat × RemotePlayer)) (k : Nat) : Option RemotePlayer :=
  (m.find? (fun e => e.1 == k)).map (fun e => e.2)

def Impl.CloseSocket (self : Impl) : Impl :=
  { self with socket := none }

/-- `InitSocket`; `sock` is what `::socket` returned and `bindOk` whether
`bind` succeeded. -/
def Impl.InitSocket (self : Impl) (bindPort : Nat) (sock : Option Nat) (bindOk : Bool) :
    Impl × Bool :=
  match sock with
  | none => ({ self with socket := none }, false)
  | some fd =>
    if !bindOk then (({ self with socket := some fd } : Impl).CloseSocket, false)
    else ({ self with socket := some fd, boundPort := bindPort }, true)

/-- `Server_Broadcast(data, len, excludeId)`, `data` being the `len` bytes. -/
def Impl.Server_Broadcast (self : Impl) (data : List Nat) (excludeId : Nat := 0xFF) :
    List Effect :=
  (self.clients.filter (fun slot => slot.active && slot.id != excludeId)).map
    (fun slot => Effect.send slot.addr data)

/-- `Server_HandleServerInfoReq`; `GAME_VERSION` is the constant of that name,
whose definition is not in the sources at hand. -/
def Impl.Server_HandleServerInfoReq (GAME_VERSION : List Nat) (self : Impl)
    (from_ : sockaddr_in) : Impl × List Effect :=
  let count := (self.clients.filter (fun s => s.active)).length % 256
  let resp : ServerInfoRespPacket :=
    { header := { type := PacketType.SERVER_INFO_RESP, playerId := 0 }
      playerCount := count
      maxPlayers := MAX_PLAYERS
      port := self.boundPort
      pakName := rawBytes self.hostedPakName 32 }
  (self, [Effect.sendInfo from_ resp GAME_VERSION])

def Impl.Server_HandleConnect (self : Impl) (pkt : ConnectPacket) (from_ : sockaddr_in)
    (nm : NetworkManager) : Impl × List Effect :=
  match self.clients.find? (fun slot => slot.active
      && slot.addr.sin_addr == from_.sin_addr && slot.addr.sin_port == from_.sin_port) with
  | some slot =>
    let ack : ConnectAckPacket :=
      { header := { type := PacketType.CONNECT_ACK, playerId := slot.id }
        assignedId := slot.id }
    (self, [Effect.send from_ ack.toBytes])
  | none =>
    match self.clients.findIdx? (fun s => !s.active) with
    | none => (self, [])
    | some i =>
      let old := self.clients.getD i {}
      let slot : ClientSlot :=
        { active := true, addr := from_, id := self.nextId
          name := (strncpy old.name pkt.name 15).set 15 0 }
      let self1 : Impl :=
        { self with clients := self.clients.set i slot, nextId := (self.nextId + 1) % 256 }
      let ack : ConnectAckPacket :=
        { header := { type := PacketType.CONNECT_ACK, playerId := slot.id }
          assignedId := slot.id }
      let intro : PlayerUpdatePacket :=
        { header := { type := PacketType.PLAYER_UPDATE, playerId := slot.id } }
      (self1, [Effect.send from_ ack.toBytes]
        ++ self1.Server_Broadcast intro.toBytes slot.id
        ++ (if nm.OnPlayerJoined then [Effect.playerJoined slot.id slot.name] else []))

def Impl.Server_HandleDisconnect (self : Impl) (_pkt : DisconnectPacket)
    (from_ : sockaddr_in) (nm : NetworkManager) : Impl × List Effect :=
  match self.clients.findIdx? (fun slot => slot.active
      && slot.addr.sin_addr == from_.sin_addr && slot.addr.sin_port == from_.sin_port) with
  | none => (self, [])
  | some i =>
    let slot := self.clients.getD i {}
    let dc : DisconnectPacket :=
      { header := { type := PacketType.DISCONNECT, playerId := slot.id } }
    ({ self with clients := self.clients.set i { slot with active := false } },
      self.Server_Broadcast dc.toBytes slot.id
        ++ (if nm.OnPlayerLeft then [Effect.playerLeft slot.id] else []))

/-- `Server_HandlePlayerUpdate`; `data` is the receive buffer that the
reference `pkt` of the source points into, and the broadcast sends
`sizeof(pkt)` bytes of that very buffer. -/
def Impl.Server_HandlePlayerUpdate (self : Impl) (data : List Nat) (from_ : sockaddr_in) :
    Impl × List Effect :=
  let pkt := PlayerUpdatePacket.ofBytes data
  match self.clients.find? (fun slot => slot.active && slot.id == pkt.header.playerId
      && slot.addr.sin_addr == from_.sin_addr) with
  | some _ =>
    let store : RemotePlayer → RemotePlayer := fun rp =>
      { rp with id := pkt.header.playerId,
                posX := pkt.posX, posY := pkt.posY, posZ := pkt.posZ,
                rotX := pkt.rotX, rotY := pkt.rotY, active := true }
    ({ self with remotePlayers := upsert self.remotePlayers pkt.header.playerId store },
      self.Server_Broadcast (rawBytes data sizeof_PlayerUpdatePacket) pkt.header.playerId)
  | none => (self, [])

def Impl.Client_HandleConnectAck (self : Impl) (pkt : ConnectAckPacket)
    (nm : NetworkManager) : Impl × List Effect :=
  let self1 : Impl := { self with localId := pkt.assignedId, connected := true }
  (self1, if nm.OnPlayerJoined then [Effect.playerJoined self1.localId self1.localName] else [])

def Impl.Client_HandleDisconnect (self : Impl) (pkt : DisconnectPacket)
    (nm : NetworkManager) : Impl × List Effect :=
  let id := pkt.header.playerId
  if id == self.localId then
    ({ self with connected := false, remotePlayers := [] },
      if nm.OnPlayerLeft then [Effect.playerLeft self.localId] else [])
  else
    ({ self with remotePlayers := erase self.remotePlayers id },
      if nm.OnPlayerLeft then [Effect.playerLeft id] else [])

def Impl.Client_HandlePlayerUpdate (self : Impl) (pkt : PlayerUpdatePacket) :
    Impl × List Effect :=
  let id := pkt.header.playerId
  if id == self.localId then (self, [])
  else
    let store : RemotePlayer → RemotePlayer := fun rp =>
      { rp with id := id,
                posX := pkt.posX, posY := pkt.posY, posZ := pkt.posZ,
                rotX := pkt.rotX, rotY := pkt.rotY, active := true }
    ({ self with remotePlayers := upsert self.remotePlayers id store }, [])

def Impl.DispatchPacket (GAME_VERSION : List Nat) (self : Impl) (rp : RawPacket)
    (nm : NetworkManager) : Impl × List Effect :=
  let hdr := PacketHeader.ofBytes rp.data
  if self.mode == Mode.Server then
    if hdr.type == PacketType.SERVER_INFO_REQ then
      self.Server_HandleServerInfoReq GAME_VERSION rp.from_
    else if hdr.type == PacketType.CONNECT then
      if rp.len ≥ sizeof_ConnectPacket then
        self.Server_HandleConnect (ConnectPacket.ofBytes rp.data) rp.from_ nm
      else (self, [])
    else if hdr.type == PacketType.DISCONNECT then
      if rp.len ≥ sizeof_DisconnectPacket then
        self.Server_HandleDisconnect (DisconnectPacket.ofBytes rp.data) rp.from_ nm
      else (self, [])
    else if hdr.type == PacketType.PLAYER_UPDATE then
      if rp.len ≥ sizeof_PlayerUpdatePacket then
        self.Server_HandlePlayerUpdate rp.data rp.from_
      else (self, [])
    else (self, [])
  else if self.mode == Mode.Client then
    if hdr.type == PacketType.CONNECT_ACK then
      if rp.len ≥ sizeof_ConnectAckPacket then
        self.Client_HandleConnectAck (ConnectAckPacket.ofBytes rp.data) nm
      else (self, [])
    else if hdr.type == PacketType.DISCONNECT then
      if rp.len ≥ sizeof_DisconnectPacket then
        self.Client_HandleDisconnect (DisconnectPacket.ofBytes rp.data) nm
      else (self, [])
    else if hdr.type == PacketType.PLAYER_UPDATE then
      if rp.len ≥ sizeof_PlayerUpdatePacket then
        self.Client_HandlePlayerUpdate (PlayerUpdatePacket.ofBytes rp.data)
      else (self, [])
    else (self, [])
  else (self, [])

/-- The connect-retry block at the head of one `RecvLoop` iteration; `now` is
the reading of the steady clock. -/
def Impl.RecvLoop_retry (self : Impl) (now : Int) : Impl × List Effect :=
  if self.mode == Mode.Client && !self.connected
      && decide (self.connectAttempts < MAX_CONNECT_ATTEMPTS) then
    let elapsed := Int.tdiv (now - self.lastConnectAttempt) TICKS_PER_MS
    if elapsed ≥ CONNECT_RETRY_MS then
      let pkt : ConnectPacket :=
        { header := { type := PacketType.CONNECT, playerId := 0 }
          name := (strncpy (List.replicate 16 0) self.localName 15).set 15 0 }
      ({ self with lastConnectAttempt := now, connectAttempts := self.connectAttempts + 1 },
        [Effect.send self.serverAddr pkt.toBytes])
    else (self, [])
  else (self, [])

/-- The receive half of one `RecvLoop` iteration; `n`, `buf` and `from_` are
what `recvfrom` returned and filled in. -/
def Impl.RecvLoop_recv (self : Impl) (n : Int) (buf : List Nat) (from_ : sockaddr_in) : Impl :=
  if n ≤ 0 then self
  else if n < sizeof_PacketHeader then self
  else
    let len : Nat := if n < 512 then n.toNat else 512
    let rp : RawPacket := { data := rawBytes buf len, len := len, from_ := from_ }
    { self with recvQueue := self.recvQueue ++ [rp] }

/-- One iteration of the `while (running.load())` loop of `RecvLoop`. -/
def Impl.RecvLoop_iter (self : Impl) (now : Int) (n : Int) (buf : List Nat)
    (from_ : sockaddr_in) : Impl × List Effect :=
  if self.running then
    let r := self.RecvLoop_retry now
    (r.1.RecvLoop_recv n buf from_, r.2)
  else (self, [])

/-! ## NetworkManager.cpp: public methods -/

/-- `StartServer(port)`; `sock` and `bindOk` are the results `InitSocket`
gets from the operating system. -/
def NetworkManager.StartServer (nm : NetworkManager) (port : Nat) (sock : Option Nat)
    (bindOk : Bool) : NetworkManager × Bool :=
  if nm.m_impl.running then (nm, false)
  else
    let r := nm.m_impl.InitSocket port sock bindOk
    if !r.2 then ({ nm with m_impl := r.1 }, false)
    else
      ({ nm with m_impl :=
          { r.1 with mode := Mode.Server, nextId := 1
                     clients := List.replicate MAX_PLAYERS {}, running := true } }, true)

def NetworkManager.StopServer (nm : NetworkManager) : NetworkManager :=
  if !nm.m_impl.running then nm
  else
    { nm with m_impl :=
        { ({ nm.m_impl with running := false } : Impl).CloseSocket with mode := Mode.None } }

def NetworkManager.IsServerRunning (nm : NetworkManager) : Bool :=
  nm.m_impl.mode == Mode.Server && nm.m_impl.running

/-- The first part of `Connect(host, port, playerName)`, through the line that
starts the receive thread; `resolved` is the address `getaddrinfo` returned for
`host` and `port` (`none` when it failed). On success the thread is running
`RecvLoop` when this returns, and the initial `Connect` packet has not been
sent yet. -/
def NetworkManager.Connect_begin (nm : NetworkManager) (sock : Option Nat) (bindOk : Bool)
    (resolved : Option sockaddr_in) (playerName : List Nat) : NetworkManager × Bool :=
  if nm.m_impl.running then (nm, false)
  else
    let r := nm.m_impl.InitSocket 0 sock bindOk
    if !r.2 then ({ nm with m_impl := r.1 }, false)
    else
      match resolved with
      | none => ({ nm with m_impl := r.1.CloseSocket }, false)
      | some addr =>
        ({ nm with m_impl :=
            { r.1 with serverAddr := addr
                       localName := (strncpy r.1.localName playerName 15).set 15 0
                       mode := Mode.Client, running := true } }, true)

/-- The whole of `Connect(host, port, playerName)` in the schedule in which
the receive thread executes no statement of its retry block between the line
that starts it and the return of `Connect()`; `now` is the clock reading of the
assignment to `lastConnectAttempt`. The source starts the thread before the
initial send, so this is one schedule among several: the others are the runs
of `ConnectSys` below, and `Connect_eq_begin_then_main` relates the two. -/
def NetworkManager.Connect (nm : NetworkManager) (sock : Option Nat) (bindOk : Bool)
    (resolved : Option sockaddr_in) (playerName : List Nat) (now : Int) :
    NetworkManager × Bool × List Effect :=
  if nm.m_impl.running then (nm, false, [])
  else
    let r := nm.m_impl.InitSocket 0 sock bindOk
    if !r.2 then ({ nm with m_impl := r.1 }, false, [])
    else
      match resolved with
      | none => ({ nm with m_impl := r.1.CloseSocket }, false, [])
      | some addr =>
        let localName := (strncpy r.1.localName playerName 15).set 15 0
        let pkt : ConnectPacket :=
          { header := { type := PacketType.CONNECT, playerId := 0 }
            name := (strncpy (List.replicate 16 0) localName 15).set 15 0 }
        ({ nm with m_impl :=
            { r.1 with serverAddr := addr, localName := localName, mode := Mode.Client
                       running := true, lastConnectAttempt := now, connectAttempts := 1 } },
          true, [Effect.send addr pkt.toBytes])

def NetworkManager.Disconnect (nm : NetworkManager) : NetworkManager × List Effect :=
  if !nm.m_impl.running then (nm, [])
  else
    let pkt : DisconnectPacket :=
      { header := { type := PacketType.DISCONNECT, playerId := nm.m_impl.localId } }
    let sent := if nm.m_impl.connected then [Effect.send nm.m_impl.serverAddr pkt.toBytes] else []
    let s1 : Impl :=
      { nm.m_impl with running := false, connected := false, localId := 0, connectAttempts := 0 }
    ({ nm with m_impl := { s1.CloseSocket with remotePlayers := [], mode := Mode.None } }, sent)

def NetworkManager.IsConnected (nm : NetworkManager) : Bool := nm.m_impl.connected

def NetworkManager.SendPlayerUpdate (nm : NetworkManager) (px py pz rotX rotY : Nat) :
    NetworkManager × List Effect :=
  let pkt : PlayerUpdatePacket :=
    { header := { type := PacketType.PLAYER_UPDATE }
      posX := px, posY := py, posZ := pz, rotX := rotX, rotY := rotY }
  if nm.m_impl.mode == Mode.Client && nm.m_impl.connected then
    let pkt1 := { pkt with header := { pkt.header with playerId := nm.m_impl.localId } }
    (nm, [Effect.send nm.m_impl.serverAddr pkt1.toBytes])
  else if nm.m_impl.mode == Mode.Server then
    let pkt1 := { pkt with header := { pkt.header with playerId := 0 } }
    (nm, nm.m_impl.Server_Broadcast pkt1.toBytes)
  else (nm, [])

/-- The `while (!local.empty())` loop of `Update()` over the swapped-out queue. -/
def Impl.dispatchAll (GAME_VERSION : List Nat) (self : Impl) (nm : NetworkManager) :
    List RawPacket → Impl × List Effect
  | [] => (self, [])
  | rp :: rest =>
    let r := self.DispatchPacket GAME_VERSION rp nm
    let r2 := Impl.dispatchAll GAME_VERSION r.1 nm rest
    (r2.1, r.2 ++ r2.2)

def NetworkManager.Update (GAME_VERSION : List Nat) (nm : NetworkManager) :
    NetworkManager × List Effect :=
  let local_ := nm.m_impl.recvQueue
  let r := ({ nm.m_impl with recvQueue := [] } : Impl).dispatchAll GAME_VERSION nm local_
  if nm.OnServerInfo then
    ({ nm with m_impl := { r.1 with pingResults := [] } },
      r.2 ++ r.1.pingResults.map Effect.serverInfo)
  else ({ nm with m_impl := r.1 }, r.2)

def NetworkManager.GetMode (nm : NetworkManager) : Mode := nm.m_impl.mode

def NetworkManager.GetLocalId (nm : NetworkManager) : Nat := nm.m_impl.localId

def NetworkManager.GetRemotePlayers (nm : NetworkManager) : List (Nat × RemotePlayer) :=
  nm.m_impl.remotePlayers

/-- `SetHostedPakName(name)`; `none` is the null pointer. -/
def NetworkManager.SetHostedPakName (nm : NetworkManager) (name : Option (List Nat)) :
    NetworkManager :=
  match name with
  | none => { nm with m_impl := { nm.m_impl with hostedPakName := nm.m_impl.hostedPakName.set 0 0 } }
  | some n =>
    { nm with m_impl :=
        { nm.m_impl with hostedPakName := (strncpy nm.m_impl.hostedPakName n 31).set 31 0 } }

/-! ## A client session after `Connect()` -/

/-- What happens to a client session once `Connect()` has returned: an
iteration of the receive thread (with the clock reading and the result of
`recvfrom`), or the main thread dispatching one queued packet. -/
inductive ClientEvent
  | iter (now : Int) (n : Int) (buf : List Nat) (from_ : sockaddr_in)
  | dispatch (rp : RawPacket)
deriving DecidableEq, Repr

/-- The event dispatches a `ConnectAck` that the dispatcher accepts. -/
def ClientEvent.isAck : ClientEvent → Bool
  | ClientEvent.dispatch rp =>
    getU8 rp.data 0 == PacketType.CONNECT_ACK && decide (sizeof_ConnectAckPacket ≤ rp.len)
  | ClientEvent.iter _ _ _ _ => false

def Impl.clientStep (GAME_VERSION : List Nat) (nm : NetworkManager) (self : Impl) :
    ClientEvent → Impl × List Effect
  | ClientEvent.iter now n buf from_ => self.RecvLoop_iter now n buf from_
  | ClientEvent.dispatch rp => self.DispatchPacket GAME_VERSION rp nm

/-- State and effects after a sequence of events. -/
def Impl.clientRun (GAME_VERSION : List Nat) (nm : NetworkManager) (self : Impl) :
    List ClientEvent → Impl × List Effect
  | [] => (self, [])
  | e :: es =>
    let r := self.clientStep GAME_VERSION nm e
    let r2 := Impl.clientRun GAME_VERSION nm r.1 es
    (r2.1, r.2 ++ r2.2)

/-- The clock readings of the iterations that sent a datagram, in order. -/
def Impl.sendTimes (GAME_VERSION : List Nat) (nm : NetworkManager) (self : Impl) :
    List ClientEvent → List Int
  | [] => []
  | ClientEvent.iter now n buf from_ :: es =>
    let r := self.RecvLoop_iter now n buf from_
    if r.2.any Effect.isSend then now :: Impl.sendTimes GAME_VERSION nm r.1 es
    else Impl.sendTimes GAME_VERSION nm r.1 es
  | ClientEvent.dispatch rp :: es =>
    Impl.sendTimes GAME_VERSION nm (self.DispatchPacket GAME_VERSION rp nm).1 es

/-- The number of iterations that observed at least `CONNECT_RETRY_MS` since
the last connect attempt. -/
def Impl.ripeIters (GAME_VERSION : List Nat) (nm : NetworkManager) (self : Impl) :
    List ClientEvent → Nat
  | [] => 0
  | ClientEvent.iter now n buf from_ :: es =>
    (if Int.tdiv (now - self.lastConnectAttempt) TICKS_PER_MS ≥ CONNECT_RETRY_MS then 1 else 0)
      + Impl.ripeIters GAME_VERSION nm (self.RecvLoop_iter now n buf from_).1 es
  | ClientEvent.dispatch rp :: es =>
    Impl.ripeIters GAME_VERSION nm (self.DispatchPacket GAME_VERSION rp nm).1 es

/-- The datagram a receiver gets for `data` sent from `from_`: what
`RecvLoop_recv` enqueues for it. -/
def RawPacket.ofDatagram (data : List Nat) (from_ : sockaddr_in) : RawPacket :=
  let len : Nat := if (data.length : Int) < 512 then (data.length : Int).toNat else 512
  { data := rawBytes data len, len := len, from_ := from_ }

/-! ## `Connect()` and the receive thread it starts

`Connect()` starts the receive thread and only then sends the initial packet,
stamps `lastConnectAttempt` and sets `connectAttempts`; these members are plain
(not atomic, not under a mutex), and the retry block of `RecvLoop` reads and
writes the last two. The statements of the two threads therefore interleave.
Each statement is one step here, and the increment `++connectAttempts` is
two: the load and the store. A step sees the writes of all steps before it
(the interleaving is sequentially consistent). -/

/-- The statement of `Connect()` the main thread executes next, after the
thread was started: the `SendRaw`, the assignment to `lastConnectAttempt`, the
assignment to `connectAttempts`; or `Connect()` has returned. -/
inductive ConnectPc
  | send
  | stamp
  | count
  | returned
deriving DecidableEq, Repr

/-- Where the receive thread is in the body of `RecvLoop`: at the loop test,
inside the retry block (about to read the clock, to send, to stamp, to load
the counter, to store `v + 1` into it; `now` is the local variable and `v` the
value loaded), or at `recvfrom`. -/
inductive LoopPc
  | top
  | clock
  | send (now : Int)
  | stamp (now : Int)
  | incr
  | store (v : Nat)
  | recv
deriving DecidableEq, Repr

/-- The session between the start of the receive thread and any later point:
the shared state and the position of each thread. -/
structure ConnectSys where
  impl : Impl
  main : ConnectPc
  loop : LoopPc
deriving DecidableEq, Repr

/-- One statement of one thread. `now` is the reading of the steady clock at
that moment; a `loop` step also carries what `recvfrom` returns if the step is
the receive. -/
inductive ConnectStep
  | main (now : Int)
  | loop (now : Int) (n : Int) (buf : List Nat) (from_ : sockaddr_in)
deriving DecidableEq, Repr

def ConnectStep.clock : ConnectStep → Int
  | ConnectStep.main now => now
  | ConnectStep.loop now _ _ _ => now

/-- The state right after `Connect_begin` succeeded: the main thread is about
to send the initial packet, the new thread about to test `running`. -/
def ConnectSys.start (self : Impl) : ConnectSys :=
  { impl := self, main := ConnectPc.send, loop := LoopPc.top }

def ConnectSys.step (sys : ConnectSys) : ConnectStep → ConnectSys × List Effect
  | ConnectStep.main now =>
    match sys.main with
    | ConnectPc.send =>
      let pkt : ConnectPacket :=
        { header := { type := PacketType.CONNECT, playerId := 0 }
          name := (strncpy (List.replicate 16 0) sys.impl.localName 15).set 15 0 }
      ({ sys with main := ConnectPc.stamp }, [Effect.send sys.impl.serverAddr pkt.toBytes])
    | ConnectPc.stamp =>
      ({ sys with impl := { sys.impl with lastConnectAttempt := now }, main := ConnectPc.count },
        [])
    | ConnectPc.count =>
      ({ sys with impl := { sys.impl with connectAttempts := 1 }, main := ConnectPc.returned },
        [])
    | ConnectPc.returned => (sys, [])
  | ConnectStep.loop now n buf from_ =>
    match sys.loop with
    | LoopPc.top =>
      if sys.impl.running then
        if sys.impl.mode == Mode.Client && !sys.impl.connected
            && decide (sys.impl.connectAttempts < MAX_CONNECT_ATTEMPTS) then
          ({ sys with loop := LoopPc.clock }, [])
        else ({ sys with loop := LoopPc.recv }, [])
      else (sys, [])
    | LoopPc.clock =>
      let elapsed := Int.tdiv (now - sys.impl.lastConnectAttempt) TICKS_PER_MS
      if elapsed ≥ CONNECT_RETRY_MS then ({ sys with loop := LoopPc.send now }, [])
      else ({ sys with loop := LoopPc.recv }, [])
    | LoopPc.send t =>
      let pkt : ConnectPacket :=
        { header := { type := PacketType.CONNECT, playerId := 0 }
          name := (strncpy (List.replicate 16 0) sys.impl.localName 15).set 15 0 }
      ({ sys with loop := LoopPc.stamp t }, [Effect.send sys.impl.serverAddr pkt.toBytes])
    | LoopPc.stamp t =>
      ({ sys with impl := { sys.impl with lastConnectAttempt := t }, loop := LoopPc.incr }, [])
    | LoopPc.incr => ({ sys with loop := LoopPc.store sys.impl.connectAttempts }, [])
    | LoopPc.store v =>
      ({ sys with impl := { sys.impl with connectAttempts := v + 1 }, loop := LoopPc.recv }, [])
    | LoopPc.recv =>
      ({ sys with impl := sys.impl.RecvLoop_recv n buf from_, loop := LoopPc.top }, [])

/-- State and datagrams sent after a schedule of steps. -/
def ConnectSys.run (sys : ConnectSys) : List ConnectStep → ConnectSys × List Effect
  | [] => (sys, [])
  | st :: rest =>
    let r := sys.step st
    let r2 := ConnectSys.run r.1 rest
    (r2.1, r.2 ++ r2.2)

/-- The clock readings of the steps of a schedule that sent a datagram. -/
def ConnectSys.sendClocks (sys : ConnectSys) : List ConnectStep → List Int
  | [] => []
  | st :: rest =>
    if (sys.step st).2.any Effect.isSend then st.clock :: ConnectSys.sendClocks (sys.step st).1 rest
    else ConnectSys.sendClocks (sys.step st).1 rest

/-- A server just started on the default port by a new `NetworkManager`. -/
def freshServer : Impl := (NetworkManager.StartServer {} DEFAULT_PORT (some 3) true).1.m_impl

/-- Two clients on one host: same IP address, different source ports. -/
def addrA : sockaddr_in := { sin_family := 2, sin_port := 1000, sin_addr := 1 }

def addrB : sockaddr_in := { sin_family := 2, sin_port := 2000, sin_addr := 1 }

/-- A full-size `Connect` datagram arriving from `a`. -/
def connectFrom (a : sockaddr_in) : RawPacket :=
  { data := ConnectPacket.toBytes { header := { type := PacketType.CONNECT } }
    len := sizeof_ConnectPacket, from_ := a }

/-- A `Disconnect` datagram arriving from `a`. -/
def disconnectFrom (a : sockaddr_in) : RawPacket :=
  { data := DisconnectPacket.toBytes { header := { type := PacketType.DISCONNECT } }
    len := sizeof_DisconnectPacket, from_ := a }

/-- Client B joining and leaving `n` times. -/
def churn : Nat → List RawPacket
  | 0 => []
  | n + 1 => connectFrom addrB :: disconnectFrom addrB :: churn n

/-- Client A joins and stays; B joins and leaves 255 times, then joins again. -/
def duplicateIdTrace : List RawPacket :=
  [connectFrom addrA] ++ (churn 255 ++ [connectFrom addrB])

/-- Client A joins and stays; B joins and leaves 254 times, then joins again. -/
def zeroIdTrace : List RawPacket :=
  [connectFrom addrA] ++ (churn 254 ++ [connectFrom addrB])

/-- The server after A joined. -/
def afterA : Impl :=
  { freshServer with
    clients := { addr := addrA, id := 1, active := true } :: List.replicate 15 {}
    nextId := 2 }

/-- The server with A connected under id 1 and B's slot released, last used
under id `n`. -/
def churnState (n : Nat) : Impl :=
  { freshServer with
    clients := { addr := addrA, id := 1, active := true }
      :: { addr := addrB, id := n, active := false } :: List.replicate 14 {}
    nextId := (n + 1) % 256 }

/-- The server with A connected under id 1 and B connected under id `n`. -/
def churnMid (n : Nat) : Impl :=
  { freshServer with
    clients := { addr := addrA, id := 1, active := true }
      :: { addr := addrB, id := n, active := true } :: List.replicate 14 {}
    nextId := (n + 1) % 256 }

/-- A source that never connected, on the same host as A and B. -/
def addrC : sockaddr_in := { sin_family := 2, sin_port := 3000, sin_addr := 1 }

/-- A full-size `PlayerUpdate` that names player 1 (client A) as its sender. -/
def updateAs1 : PlayerUpdatePacket :=
  { header := { type := PacketType.PLAYER_UPDATE, playerId := 1 }
    posX := 7, posY := 8, posZ := 9, rotX := 10, rotY := 11 }

/-- The datagram `updateAs1` arriving from `a`. -/
def updateAs1From (a : sockaddr_in) : RawPacket :=
  { data := updateAs1.toBytes, len := sizeof_PlayerUpdatePacket, from_ := a }

/-- The bytes of the `Connect` packet a client whose stored name is
`localName` sends, from `Connect()` and from the retry block of `RecvLoop`. -/
def connectDatagram (localName : List Nat) : List Nat :=
  ConnectPacket.toBytes
    { header := { type := PacketType.CONNECT, playerId := 0 }
      name := (strncpy (List.replicate 16 0) localName 15).set 15 0 }

/-- The address of the server the clients of the scenarios talk to. -/
def addrS : sockaddr_in := { sin_family := 2, sin_port := 27015, sin_addr := 1 }

/-- The player name "Alice". -/
def alice : List Nat := [65, 108, 105, 99, 101]

/-- A `Connect` packet whose name fills the buffer: 15 characters
("ABCDEFGHIJKLMNO") and the terminating NUL. -/
def fullNameConnect : ConnectPacket :=
  { header := { type := PacketType.CONNECT, playerId := 0 }
    name := [65, 66, 67, 68, 69, 70, 71, 72, 73, 74, 75, 76, 77, 78, 79, 0] }

/-- Client A of the scenarios, connected under id 1. -/
def clientA : NetworkManager :=
  { m_impl := { socket := some 4, mode := Mode.Client, running := true, connected := true
                localId := 1, serverAddr := addrS, connectAttempts := 1 } }

/-- Client B of the scenarios, connected under id 2. -/
def clientB : NetworkManager :=
  { m_impl := { socket := some 5, mode := Mode.Client, running := true, connected := true
                localId := 2, serverAddr := addrS, connectAttempts := 1 } }

/-- The slots the server of `churnMid 2` holds for A and B. -/
def slotOfA : ClientSlot := { addr := addrA, id := 1, active := true }

def slotOfB : ClientSlot := { addr := addrB, id := 2, active := true }

/-- The bit patterns of the floats 1, 2, 3, 0.1 and 0.2. -/
def f32_1 : Nat := 0x3F800000

def f32_2 : Nat := 0x40000000

def f32_3 : Nat := 0x40400000

def f32_0_1 : Nat := 0x3DCCCCCD

def f32_0_2 : Nat := 0x3E4CCCCD

/-- The pack name "MyPak". -/
def myPak : List Nat := [77, 121, 80, 97, 107]

/-- A two-byte `ServerInfoReq` datagram arriving from `a`. -/
def infoReqFrom (a : sockaddr_in) : RawPacket :=
  { data := ServerInfoReqPacket.toBytes { header := { type := PacketType.SERVER_INFO_REQ } }
    len := sizeof_ServerInfoReqPacket, from_ := a }

/-- The server of `churnMid 2` as the public object. -/
def serverAB : NetworkManager := { m_impl := churnMid 2 }

/-! ## Packet sizes by type tag -/

abbrev sizeof_PingPacket : Nat := 6

/-- The fixed size of the struct `Packets.hpp` declares for a type tag
(`PingPacket` for both `PING` and `PONG`); `none` for a byte that is no tag. -/
def sizeofPacketType (t : Nat) : Option Nat :=
  if t = PacketType.CONNECT then some sizeof_ConnectPacket
  else if t = PacketType.CONNECT_ACK then some sizeof_ConnectAckPacket
  else if t = PacketType.DISCONNECT then some sizeof_DisconnectPacket
  else if t = PacketType.PLAYER_UPDATE then some sizeof_PlayerUpdatePacket
  else if t = PacketType.PING then some sizeof_PingPacket
  else if t = PacketType.PONG then some sizeof_PingPacket
  else if t = PacketType.SERVER_INFO_REQ then some sizeof_ServerInfoReqPacket
  else if t = PacketType.SERVER_INFO_RESP then some sizeof_ServerInfoRespPacket
  else none

/-! ## Further scenarios -/

/-- Client A joins and stays; B joins and leaves 253 times, then joins again:
B is the 255th client to be given an id. -/
def hostSkipTrace : List RawPacket :=
  [connectFrom addrA] ++ (churn 253 ++ [connectFrom addrB])

/-- A server all of whose 16 slots are active, for clients on ports 1 to 16
of one host. -/
def fullServer : Impl :=
  { freshServer with
    clients := (List.range 16).map
      (fun i => { addr := { sin_family := 2, sin_port := i + 1, sin_addr := 1 }
                  id := i + 1, active := true })
    nextId := 17 }

/-- A `Connect` datagram cut to 10 bytes, arriving from `a`. -/
def shortConnectFrom (a : sockaddr_in) : RawPacket :=
  { data := rawBytes (ConnectPacket.toBytes { header := { type := PacketType.CONNECT } }) 10
    len := 10, from_ := a }

/-! ## The dispatch loop as a fold -/

/-- The left fold of `DispatchPacket` over a batch of packets, from state `s`:
the state after the last packet and the effects of all of them, in order. -/
def foldDispatch (GAME_VERSION : List Nat) (nm : NetworkManager) (s : Impl)
    (q : List RawPacket) : Impl × List Effect :=
  q.foldl (fun acc rp =>
    ((acc.1.DispatchPacket GAME_VERSION rp nm).1,
      acc.2 ++ (acc.1.DispatchPacket GAME_VERSION rp nm).2)) (s, [])

/-- A new client object after `Connect()` to the server as "Alice", at clock
reading 0. -/
def connectingClient : NetworkManager :=
  (({} : NetworkManager).Connect (some 4) true (some addrS) alice 0).1

/-- The `ConnectAck` datagram granting id 1. -/
def ack1 : List Nat :=
  ConnectAckPacket.toBytes
    { header := { type := PacketType.CONNECT_ACK, playerId := 1 }, assignedId := 1 }

/-- The client of `connectingClient` after its receive thread got the
`ConnectAck` for id 1 and `Update()` dispatched it, and after the owner then
called `StopServer()` on it. -/
def stoppedClient : NetworkManager :=
  (({ connectingClient with
      m_impl := (connectingClient.m_impl.RecvLoop_iter 1 3 ack1 addrS).1 } :
    NetworkManager).Update []).1.StopServer

/-- A result of `PingServer`. -/
def pingOfS : PingResult :=
  { host := [49, 50, 55, 46, 48, 46, 48, 46, 49], port := 27015, playerCount := 2
    maxPlayers := 16 }

/-- An idle object with one ping result waiting and no `OnServerInfo` set. -/
def pingWaiting : NetworkManager :=
  { m_impl := { pingResults := [pingOfS] }, OnServerInfo := false }

/-- The ping result an effect delivers to `OnServerInfo`, if it is such a call. -/
def Effect.asServerInfo : Effect → Option PingResult
  | Effect.serverInfo r => some r
  | _ => none

/-! ## The two threads around the inbound queue

The receive thread and `Update()` touch the queue only inside their
`queueMutex` critical sections, so an execution is a sequence of the atomic
steps below, interleaved in any order the program allows. -/

/-- The packet the receive half of a `RecvLoop` iteration pushes, if it pushes
one. -/
def RawPacket.received (n : Int) (buf : List Nat) (from_ : sockaddr_in) : Option RawPacket :=
  if n ≤ 0 then none
  else if n < sizeof_PacketHeader then none
  else
    let len : Nat := if n < 512 then n.toNat else 512
    some { data := rawBytes buf len, len := len, from_ := from_ }

/-- The shared session state together with the main thread's position inside
`Update()`: `local_` is the swapped-out queue `local` still to be dispatched
(empty between two calls), `dispatched` and `effects` record the packets
handed to `DispatchPacket` so far and what dispatching them did. -/
structure QueueSys where
  impl : Impl := {}
  local_ : List RawPacket := []
  dispatched : List RawPacket := []
  effects : List Effect := []
deriving DecidableEq, Repr

/-- One atomic step of either thread. -/
inductive QueueStep
  | recv (n : Int) (buf : List Nat) (from_ : sockaddr_in)
  | swap
  | dispatchFront
deriving DecidableEq, Repr

/-- The effect of a step, `none` when the program cannot take it: `recv` is the
receive thread's `recvfrom` result followed by the locked `push`; `swap` is the
locked `std::swap(local, recvQueue)` that opens an `Update()` call, possible
only when the previous call has emptied its `local`; `dispatchFront` is one
turn of the `while (!local.empty())` loop. -/
def QueueSys.step (GAME_VERSION : List Nat) (nm : NetworkManager) (sys : QueueSys) :
    QueueStep → Option QueueSys
  | QueueStep.recv n buf from_ => some { sys with impl := sys.impl.RecvLoop_recv n buf from_ }
  | QueueStep.swap =>
    match sys.local_ with
    | [] => some { sys with local_ := sys.impl.recvQueue
                            impl := { sys.impl with recvQueue := [] } }
    | _ :: _ => none
  | QueueStep.dispatchFront =>
    match sys.local_ with
    | [] => none
    | rp :: rest =>
      some { impl := (sys.impl.DispatchPacket GAME_VERSION rp nm).1
             local_ := rest
             dispatched := sys.dispatched ++ [rp]
             effects := sys.effects ++ (sys.impl.DispatchPacket GAME_VERSION rp nm).2 }

/-- Running an interleaving from `sys`; `none` if it is not an execution. -/
def QueueSys.run (GAME_VERSION : List Nat) (nm : NetworkManager) :
    QueueSys → List QueueStep → Option QueueSys
  | sys, [] => some sys
  | sys, st :: rest =>
    match sys.step GAME_VERSION nm st with
    | none => none
    | some sys1 => QueueSys.run GAME_VERSION nm sys1 rest

/-- The packets an interleaving enqueues, in the order of their pushes. -/
def enqueuedBy : List QueueStep → List RawPacket
  | [] => []
  | QueueStep.recv n buf from_ :: rest =>
    match RawPacket.received n buf from_ with
    | none => enqueuedBy rest
    | some rp => rp :: enqueuedBy rest
  | _ :: rest => enqueuedBy rest

/-- The steps of one `Update()` call that dispatches `k` packets with no push
in between. -/
def updateSteps (k : Nat) : List QueueStep :=
  QueueStep.swap :: List.replicate k QueueStep.dispatchFront

/-- An interleaving: two datagrams arrive, `Update()` starts, a third arrives
while the first is being dispatched, then the loop finishes. -/
def sampleInterleaving : List QueueStep :=
  [QueueStep.recv 18 (connectFrom addrA).data addrA,
   QueueStep.recv 18 (connectFrom addrB).data addrB,
   QueueStep.swap, QueueStep.dispatchFront,
   QueueStep.recv 22 updateAs1.toBytes addrA,
   QueueStep.dispatchFront]

/-- Client A joins and stays; B joins and leaves 255 times: the id counter is
back at 1 while A still holds id 1. -/
def wrappedTrace : List RawPacket :=
  [connectFrom addrA] ++ churn 255

/-- A client that sent its `Connect` and is waiting for the answer. -/
def waitingClient : Impl := connectingClient.m_impl

/-- The `ConnectAck` for id 1 as it sits in the queue, received from the
server. -/
def ack1Packet : RawPacket := RawPacket.ofDatagram ack1 addrS

/-- A `Disconnect` naming player `id`, as received from the server. -/
def disconnectOf (id : Nat) : RawPacket :=
  RawPacket.ofDatagram
    (DisconnectPacket.toBytes { header := { type := PacketType.DISCONNECT, playerId := id } })
    addrS

/-- Client B of the scenarios knowing two other players, 1 and 3. -/
def clientBWithPeers : Impl :=
  { clientB.m_impl with
    remotePlayers := [(1, { id := 1, posX := 7, active := true }),
                      (3, { id := 3, posX := 5, active := true })] }

/-- A `PlayerUpdate` naming player 3, as client B receives it from the server. -/
def updateOf3 : RawPacket :=
  RawPacket.ofDatagram
    (PlayerUpdatePacket.toBytes
      { header := { type := PacketType.PLAYER_UPDATE, playerId := 3 }
        posX := 21, posY := 22, posZ := 23, rotX := 24, rotY := 25 })
    addrS

/-- A 600-byte buffer content, longer than a queue element. -/
def longDatagram : List Nat := List.replicate 600 9

/-! ## Slot table invariant -/

/-- Two slots are not both active and bound to one (IP address, port). -/
def NoSharedEndpoint (a b : ClientSlot) : Prop :=
  ¬ (a.active = true ∧ b.active = true
      ∧ a.addr.sin_addr = b.addr.sin_addr ∧ a.addr.sin_port = b.addr.sin_port)

instance (a b : ClientSlot) : Decidable (NoSharedEndpoint a b) :=
  inferInstanceAs (Decidable (¬ (a.active = true ∧ b.active = true
      ∧ a.addr.sin_addr = b.addr.sin_addr ∧ a.addr.sin_port = b.addr.sin_port)))

/-- A receive-loop iteration that observes less than `CONNECT_RETRY_MS` since
the attempt made at `last`. -/
def ClientEvent.isEarlyIter (last : Int) : ClientEvent → Bool
  | ClientEvent.iter now _ _ _ => decide (Int.tdiv (now - last) TICKS_PER_MS < CONNECT_RETRY_MS)
  | ClientEvent.dispatch _ => false

/-- Two iterations 100 ms and 300 ms after clock reading 0, each with a
receive that timed out. -/
def earlyIters : List ClientEvent :=
  [ClientEvent.iter 100000000 (-1) [] {}, ClientEvent.iter 300000000 (-1) [] {}]

/-! ## Scenarios: the thread started by `Connect()` runs first -/

/-- A new object in the middle of `Connect()` to the server as "Alice": the
receive thread has just been started, the initial packet is not sent yet. -/
def racingConnect : ConnectSys :=
  ConnectSys.start (({} : NetworkManager).Connect_begin (some 4) true (some addrS) alice).1.m_impl

/-- The new thread runs its retry block first, reading the clock at `t`; then
`Connect()` executes its three remaining statements, reading the clock one
millisecond later; then the thread's `recvfrom` times out. -/
def threadFirst (t : Int) : List ConnectStep :=
  List.replicate 6 (ConnectStep.loop t (-1) [] {})
    ++ (List.replicate 3 (ConnectStep.main (t + TICKS_PER_MS))
    ++ [ConnectStep.loop (t + TICKS_PER_MS) (-1) [] {}])

/-- The receive thread alone for `k` half seconds after `t`: seven of its
steps at each clock reading, every `recvfrom` timing out. Seven steps are one
whole iteration when it sends. -/
def laterIterations (t : Int) : Nat → List ConnectStep
  | 0 => []
  | k + 1 => List.replicate 7 (ConnectStep.loop (t + 500 * TICKS_PER_MS) (-1) [] {})
      ++ laterIterations (t + 500 * TICKS_PER_MS) k

/-- The object of `stoppedClient` in the middle of a new `Connect()`, the
receive thread just started. -/
def reconnectingStopped : ConnectSys :=
  ConnectSys.start (stoppedClient.Connect_begin (some 5) true (some addrS) alice).1.m_impl

/-- Counts 1 once `Connect()` has sent its initial packet. -/
def ConnectPc.sent : ConnectPc → Nat
  | ConnectPc.send => 0
  | _ => 1

/-- Client B after `Connect()` to the server, not yet acknowledged. -/
def waitingB : NetworkManager :=
  { m_impl := { socket := some 5, mode := Mode.Client, running := true, serverAddr := addrS
                connectAttempts := 1 } }

/-- Client B once it has dispatched the `ConnectAck` for id 1, which is what
the server sends it at the end of `duplicateIdTrace`. -/
def clientBAs1 : NetworkManager :=
  { waitingB with m_impl := (waitingB.m_impl.DispatchPacket [] ack1Packet waitingB).1 }

/-- The datagram of `SendPlayerUpdate(1, 2, 3, 0.1, 0.2)` by a client whose
local id is 1. -/
def updateOfA : List Nat :=
  PlayerUpdatePacket.toBytes
    { header := { type := PacketType.PLAYER_UPDATE, playerId := 1 }
      posX := f32_1, posY := f32_2, posZ := f32_3, rotX := f32_0_1, rotY := f32_0_2 }

/-! ## Dispatch: which handler runs -/

theorem DispatchPacket_server_connect (GV : List Nat) (s : Impl) (rp : RawPacket)
    (nm : NetworkManager) (hm : s.mode = Mode.Server)
    (ht : getU8 rp.data 0 = PacketType.CONNECT) (hl : sizeof_ConnectPacket ≤ rp.len) :
    s.DispatchPacket GV rp nm
      = s.Server_HandleConnect (ConnectPacket.ofBytes rp.data) rp.from_ nm := by
  simp [Impl.DispatchPacket, hm, PacketHeader.ofBytes, ht, hl]

theorem DispatchPacket_server_disconnect (GV : List Nat) (s : Impl) (rp : RawPacket)
    (nm : NetworkManager) (hm : s.mode = Mode.Server)
    (ht : getU8 rp.data 0 = PacketType.DISCONNECT) (hl : sizeof_DisconnectPacket ≤ rp.len) :
    s.DispatchPacket GV rp nm
      = s.Server_HandleDisconnect (DisconnectPacket.ofBytes rp.data) rp.from_ nm := by
  simp [Impl.DispatchPacket, hm, PacketHeader.ofBytes, ht, hl]

theorem DispatchPacket_server_playerUpdate (GV : List Nat) (s : Impl) (rp : RawPacket)
    (nm : NetworkManager) (hm : s.mode = Mode.Server)
    (ht : getU8 rp.data 0 = PacketType.PLAYER_UPDATE) (hl : sizeof_PlayerUpdatePacket ≤ rp.len) :
    s.DispatchPacket GV rp nm = s.Server_HandlePlayerUpdate rp.data rp.from_ := by
  simp [Impl.DispatchPacket, hm, PacketHeader.ofBytes, ht, hl]

theorem DispatchPacket_server_infoReq (GV : List Nat) (s : Impl) (rp : RawPacket)
    (nm : NetworkManager) (hm : s.mode = Mode.Server)
    (ht : getU8 rp.data 0 = PacketType.SERVER_INFO_REQ) :
    s.DispatchPacket GV rp nm = s.Server_HandleServerInfoReq GV rp.from_ := by
  simp [Impl.DispatchPacket, hm, PacketHeader.ofBytes, ht]

theorem DispatchPacket_client_connectAck (GV : List Nat) (s : Impl) (rp : RawPacket)
    (nm : NetworkManager) (hm : s.mode = Mode.Client)
    (ht : getU8 rp.data 0 = PacketType.CONNECT_ACK) (hl : sizeof_ConnectAckPacket ≤ rp.len) :
    s.DispatchPacket GV rp nm
      = s.Client_HandleConnectAck (ConnectAckPacket.ofBytes rp.data) nm := by
  simp [Impl.DispatchPacket, hm, PacketHeader.ofBytes, ht, hl]

theorem DispatchPacket_client_playerUpdate (GV : List Nat) (s : Impl) (rp : RawPacket)
    (nm : NetworkManager) (hm : s.mode = Mode.Client)
    (ht : getU8 rp.data 0 = PacketType.PLAYER_UPDATE) (hl : sizeof_PlayerUpdatePacket ≤ rp.len) :
    s.DispatchPacket GV rp nm
      = s.Client_HandlePlayerUpdate (PlayerUpdatePacket.ofBytes rp.data) := by
  simp [Impl.DispatchPacket, hm, PacketHeader.ofBytes, ht, hl]

/-! ## The dispatch loop over a batch -/

theorem dispatchAll_append (GV : List Nat) (nm : NetworkManager) (xs ys : List RawPacket)
    (s : Impl) :
    s.dispatchAll GV nm (xs ++ ys)
      = (((s.dispatchAll GV nm xs).1.dispatchAll GV nm ys).1,
         (s.dispatchAll GV nm xs).2 ++ ((s.dispatchAll GV nm xs).1.dispatchAll GV nm ys).2) := by
  induction xs generalizing s with
  | nil => simp [Impl.dispatchAll]
  | cons x xs ih => simp [Impl.dispatchAll, ih, List.append_assoc]

theorem dispatchAll_append_fst (GV : List Nat) (nm : NetworkManager) (xs ys : List RawPacket)
    (s : Impl) :
    (s.dispatchAll GV nm (xs ++ ys)).1 = ((s.dispatchAll GV nm xs).1.dispatchAll GV nm ys).1 := by
  rw [dispatchAll_append]

theorem dispatchAll_append_snd (GV : List Nat) (nm : NetworkManager) (xs ys : List RawPacket)
    (s : Impl) :
    (s.dispatchAll GV nm (xs ++ ys)).2
      = (s.dispatchAll GV nm xs).2 ++ ((s.dispatchAll GV nm xs).1.dispatchAll GV nm ys).2 := by
  rw [dispatchAll_append]

theorem dispatchAll_single (GV : List Nat) (nm : NetworkManager) (s : Impl) (a : RawPacket) :
    s.dispatchAll GV nm [a] = ((s.DispatchPacket GV a nm).1, (s.DispatchPacket GV a nm).2 ++ []) :=
  rfl

theorem dispatchAll_pair_fst (GV : List Nat) (nm : NetworkManager) (s : Impl) (a b : RawPacket) :
    (s.dispatchAll GV nm [a, b]).1 = ((s.DispatchPacket GV a nm).1.DispatchPacket GV b nm).1 :=
  rfl

/-! ## Server handlers on a known slot table -/

theorem Server_HandleConnect_fresh (s : Impl) (pkt : ConnectPacket) (a : sockaddr_in)
    (nm : NetworkManager) (i : Nat)
    (hb : s.clients.find? (fun slot => slot.active
      && slot.addr.sin_addr == a.sin_addr && slot.addr.sin_port == a.sin_port) = none)
    (hf : s.clients.findIdx? (fun s => !s.active) = some i) :
    s.Server_HandleConnect pkt a nm
      = (let slot : ClientSlot :=
          { active := true, addr := a, id := s.nextId
            name := (strncpy (s.clients.getD i {}).name pkt.name 15).set 15 0 }
         let self1 : Impl :=
          { s with clients := s.clients.set i slot, nextId := (s.nextId + 1) % 256 }
         (self1, [Effect.send a (ConnectAckPacket.toBytes
              { header := { type := PacketType.CONNECT_ACK, playerId := s.nextId }
                assignedId := s.nextId })]
            ++ self1.Server_Broadcast (PlayerUpdatePacket.toBytes
                { header := { type := PacketType.PLAYER_UPDATE, playerId := s.nextId } }) s.nextId
            ++ (if nm.OnPlayerJoined then [Effect.playerJoined slot.id slot.name] else []))) := by
  simp only [Impl.Server_HandleConnect, hb, hf]

theorem Server_HandleDisconnect_bound (s : Impl) (pkt : DisconnectPacket) (a : sockaddr_in)
    (nm : NetworkManager) (i : Nat)
    (hb : s.clients.findIdx? (fun slot => slot.active
      && slot.addr.sin_addr == a.sin_addr && slot.addr.sin_port == a.sin_port) = some i) :
    (s.Server_HandleDisconnect pkt a nm).1
      = { s with clients := s.clients.set i { s.clients.getD i {} with active := false } } := by
  simp only [Impl.Server_HandleDisconnect, hb]

/-! ## The id counter wraps: connect/disconnect churn -/

theorem freshServer_connectA (GV : List Nat) (nm : NetworkManager) :
    (freshServer.DispatchPacket GV (connectFrom addrA) nm).1 = afterA := by
  rw [DispatchPacket_server_connect GV _ _ _ rfl (by decide) (by decide)]
  rw [Server_HandleConnect_fresh _ _ _ _ 0 (by rfl) (by rfl)]
  rfl

theorem afterA_connectB (GV : List Nat) (nm : NetworkManager) :
    (afterA.DispatchPacket GV (connectFrom addrB) nm).1 = churnMid 2 := by
  rw [DispatchPacket_server_connect GV _ _ _ rfl (by decide) (by decide)]
  rw [Server_HandleConnect_fresh _ _ _ _ 1 (by rfl) (by rfl)]
  rfl

theorem churnState_connectB (GV : List Nat) (nm : NetworkManager) (n : Nat) :
    (churnState n).DispatchPacket GV (connectFrom addrB) nm
      = (churnMid ((n + 1) % 256),
          [Effect.send addrB (ConnectAckPacket.toBytes
              { header := { type := PacketType.CONNECT_ACK, playerId := (n + 1) % 256 }
                assignedId := (n + 1) % 256 })]
            ++ (churnMid ((n + 1) % 256)).Server_Broadcast (PlayerUpdatePacket.toBytes
                { header := { type := PacketType.PLAYER_UPDATE, playerId := (n + 1) % 256 } })
                ((n + 1) % 256)
            ++ (if nm.OnPlayerJoined then
                  [Effect.playerJoined ((n + 1) % 256) (List.replicate 16 0)] else [])) := by
  rw [DispatchPacket_server_connect GV _ _ _ rfl (by decide) (by decide)]
  rw [Server_HandleConnect_fresh _ _ _ _ 1 (by rfl) (by rfl)]
  rfl

theorem churnMid_disconnectB (GV : List Nat) (nm : NetworkManager) (n : Nat) :
    ((churnMid n).DispatchPacket GV (disconnectFrom addrB) nm).1 = churnState n := by
  rw [DispatchPacket_server_disconnect GV _ _ _ rfl (by decide) (by decide)]
  rw [Server_HandleDisconnect_bound _ _ _ _ 1 (by rfl)]
  rfl

theorem churnState_step (GV : List Nat) (nm : NetworkManager) (n : Nat) :
    ((churnState n).dispatchAll GV nm [connectFrom addrB, disconnectFrom addrB]).1
      = churnState ((n + 1) % 256) := by
  rw [dispatchAll_pair_fst, churnState_connectB, churnMid_disconnectB]

theorem churnState_churn (GV : List Nat) (nm : NetworkManager) (k n : Nat) :
    ((churnState n).dispatchAll GV nm (churn (k + 1))).1 = churnState ((n + k + 1) % 256) := by
  induction k generalizing n with
  | zero => exact churnState_step GV nm n
  | succ k ih =>
    have h : churn (k + 1 + 1) = [connectFrom addrB, disconnectFrom addrB] ++ churn (k + 1) := rfl
    rw [h, dispatchAll_append_fst, churnState_step, ih]
    congr 1
    omega

theorem afterA_churn (GV : List Nat) (nm : NetworkManager) (k : Nat) :
    (afterA.dispatchAll GV nm (churn (k + 2))).1 = churnState ((k + 3) % 256) := by
  have h : churn (k + 2) = [connectFrom addrB, disconnectFrom addrB] ++ churn (k + 1) := rfl
  rw [h, dispatchAll_append_fst, dispatchAll_pair_fst, afterA_connectB, churnMid_disconnectB,
    churnState_churn]
  congr 1
  omega

theorem freshServer_churn (GV : List Nat) (nm : NetworkManager) (k : Nat) :
    (freshServer.dispatchAll GV nm ([connectFrom addrA] ++ churn (k + 2))).1
      = churnState ((k + 3) % 256) := by
  rw [dispatchAll_append_fst, dispatchAll_single, freshServer_connectA, afterA_churn]

/-- C1 (the code breaks it): on a server started by `StartServer`, after client
A joins and client B joins and leaves 255 times and then joins again, the
one-byte id counter has wrapped and the two active slots, A's and B's, both
carry id 1. -/
theorem C1_duplicate_id_after_counter_wrap (GV : List Nat) (nm : NetworkManager) :
    ((freshServer.dispatchAll GV nm duplicateIdTrace).1.clients.filter (fun s => s.active)).map
        (fun s => (s.addr.sin_port, s.id))
      = [(1000, 1), (2000, 1)] := by
  have h : duplicateIdTrace = ([connectFrom addrA] ++ churn (253 + 2)) ++ [connectFrom addrB] := rfl
  rw [h, dispatchAll_append_fst, freshServer_churn, dispatchAll_single, churnState_connectB]
  rfl

/-- C2 (the code breaks it): on a server started by `StartServer`, after client
A joins and client B joins and leaves 254 times and then joins again, the id
counter has wrapped to 0: the last `ConnectAck` sent to B carries
`assignedId = 0`, and B's slot is active with id 0. -/
theorem C2_zero_id_after_counter_wrap (GV : List Nat) (nm : NetworkManager) :
    Effect.send addrB (ConnectAckPacket.toBytes
        { header := { type := PacketType.CONNECT_ACK, playerId := 0 }, assignedId := 0 })
      ∈ (freshServer.dispatchAll GV nm zeroIdTrace).2
    ∧ ((freshServer.dispatchAll GV nm zeroIdTrace).1.clients.filter (fun s => s.active)).map
        (fun s => (s.addr.sin_port, s.id))
      = [(1000, 1), (2000, 0)] := by
  have h : zeroIdTrace = ([connectFrom addrA] ++ churn (252 + 2)) ++ [connectFrom addrB] := rfl
  refine ⟨?_, ?_⟩
  · rw [h, dispatchAll_append_snd, freshServer_churn, dispatchAll_single, churnState_connectB]
    apply List.mem_append_right
    simp
  · rw [h, dispatchAll_append_fst, freshServer_churn, dispatchAll_single, churnState_connectB]
    rfl
/-! ## Connect from an address that is already registered -/

/-- C3: in server mode, when some active slot is bound to the source
(IP address, port) of a full-size `Connect`, dispatching it leaves the whole
session state as it was and does exactly one thing: it sends one `ConnectAck`
to the source, whose header id and `assignedId` are the id held by the active
slot bound to that source (the first such slot of the table); no callback is
invoked. -/
theorem C3_reconnect_resends_ack (GV : List Nat) (s : Impl) (rp : RawPacket)
    (nm : NetworkManager) (hm : s.mode = Mode.Server)
    (ht : getU8 rp.data 0 = PacketType.CONNECT) (hl : sizeof_ConnectPacket ≤ rp.len)
    (hb : ∃ slot ∈ s.clients, slot.active = true
      ∧ slot.addr.sin_addr = rp.from_.sin_addr ∧ slot.addr.sin_port = rp.from_.sin_port) :
    ∃ slot ∈ s.clients, slot.active = true
      ∧ slot.addr.sin_addr = rp.from_.sin_addr ∧ slot.addr.sin_port = rp.from_.sin_port
      ∧ s.clients.find? (fun slot => slot.active && slot.addr.sin_addr == rp.from_.sin_addr
          && slot.addr.sin_port == rp.from_.sin_port) = some slot
      ∧ s.DispatchPacket GV rp nm
          = (s, [Effect.send rp.from_ (ConnectAckPacket.toBytes
              { header := { type := PacketType.CONNECT_ACK, playerId := slot.id }
                assignedId := slot.id })]) := by
  obtain ⟨t, ht_mem, ht_act, ht_ip, ht_port⟩ := hb
  cases hfind : s.clients.find? (fun slot => slot.active
      && slot.addr.sin_addr == rp.from_.sin_addr && slot.addr.sin_port == rp.from_.sin_port) with
  | none =>
    have := List.find?_eq_none.mp hfind t ht_mem
    simp [ht_act, ht_ip, ht_port] at this
  | some slot =>
    have hp := List.find?_some hfind
    simp only [Bool.and_eq_true, beq_iff_eq] at hp
    refine ⟨slot, List.mem_of_find?_eq_some hfind, hp.1.1, hp.1.2, hp.2, rfl, ?_⟩
    rw [DispatchPacket_server_connect GV s rp nm hm ht hl]
    simp only [Impl.Server_HandleConnect, hfind]

theorem C3_reconnect_resends_ack_witness :
    afterA.mode = Mode.Server
    ∧ getU8 (connectFrom addrA).data 0 = PacketType.CONNECT
    ∧ sizeof_ConnectPacket ≤ (connectFrom addrA).len
    ∧ ∃ slot ∈ afterA.clients, slot.active = true
      ∧ slot.addr.sin_addr = (connectFrom addrA).from_.sin_addr
      ∧ slot.addr.sin_port = (connectFrom addrA).from_.sin_port
      ∧ afterA.clients.find? (fun slot => slot.active
          && slot.addr.sin_addr == (connectFrom addrA).from_.sin_addr
          && slot.addr.sin_port == (connectFrom addrA).from_.sin_port) = some slot
      ∧ afterA.DispatchPacket [] (connectFrom addrA) {}
          = (afterA, [Effect.send (connectFrom addrA).from_ (ConnectAckPacket.toBytes
              { header := { type := PacketType.CONNECT_ACK, playerId := slot.id }
                assignedId := slot.id })]) :=
  ⟨rfl, by decide, by decide,
    C3_reconnect_resends_ack [] afterA (connectFrom addrA) {} rfl (by decide) (by decide)
      ⟨{ addr := addrA, id := 1, active := true }, by decide, rfl, rfl, rfl⟩⟩

/-! ## A `PlayerUpdate` is matched on the IP address only -/

/-- C4 (the code breaks it): with A (id 1, port 1000) and B (id 2, port 2000)
connected from one IP address, a full-size `PlayerUpdate` naming sender 1 is
accepted both when it comes from B's address, whose slot has id 2, and when it
comes from port 3000, to which no slot is registered: each time the server
stores a snapshot for player 1 and sends the packet on, to B. -/
theorem C4_update_from_other_port_accepted :
    (churnMid 2).clients.filter (fun s => s.active && s.addr.sin_addr == addrB.sin_addr
        && s.addr.sin_port == addrB.sin_port)
      = [{ addr := addrB, id := 2, active := true }]
    ∧ (churnMid 2).clients.filter (fun s => s.active && s.addr.sin_addr == addrC.sin_addr
        && s.addr.sin_port == addrC.sin_port) = []
    ∧ (churnMid 2).remotePlayers = []
    ∧ ((churnMid 2).DispatchPacket [] (updateAs1From addrB) {}).2
        = [Effect.send addrB updateAs1.toBytes]
    ∧ ((churnMid 2).DispatchPacket [] (updateAs1From addrB) {}).1.remotePlayers
        = [(1, { id := 1, posX := 7, posY := 8, posZ := 9, rotX := 10, rotY := 11,
                 active := true })]
    ∧ ((churnMid 2).DispatchPacket [] (updateAs1From addrC) {}).2
        = [Effect.send addrB updateAs1.toBytes]
    ∧ ((churnMid 2).DispatchPacket [] (updateAs1From addrC) {}).1.remotePlayers
        = [(1, { id := 1, posX := 7, posY := 8, posZ := 9, rotX := 10, rotY := 11,
                 active := true })] := by
  decide

/-- C5 (the code breaks it): in the state reached from `StartServer` by the
joins of A (id 1) and B (id 2), a `PlayerUpdate` that arrives from B's address
and names sender 1 is broadcast to every active slot but A's, so the one
datagram the server sends goes back to B, the (IP address, port) the packet
came from. -/
theorem C5_update_echoed_to_its_source :
    ((freshServer.dispatchAll [] {} [connectFrom addrA, connectFrom addrB]).1.DispatchPacket []
        (updateAs1From addrB) {}).2.map Effect.dest
      = [some (updateAs1From addrB).from_] := by
  decide
/-! ## Client connect retry -/

theorem client_dispatch_keeps (GV : List Nat) (s : Impl) (rp : RawPacket) (nm : NetworkManager)
    (hm : s.mode = Mode.Client) (hc : s.connected = false)
    (hna : (ClientEvent.dispatch rp).isAck = false) :
    (s.DispatchPacket GV rp nm).1.mode = Mode.Client
    ∧ (s.DispatchPacket GV rp nm).1.connected = false
    ∧ (s.DispatchPacket GV rp nm).1.running = s.running
    ∧ (s.DispatchPacket GV rp nm).1.serverAddr = s.serverAddr
    ∧ (s.DispatchPacket GV rp nm).1.localName = s.localName
    ∧ (s.DispatchPacket GV rp nm).1.connectAttempts = s.connectAttempts
    ∧ (s.DispatchPacket GV rp nm).1.lastConnectAttempt = s.lastConnectAttempt
    ∧ (s.DispatchPacket GV rp nm).2.filter Effect.isSend = [] := by
  simp only [ClientEvent.isAck, Bool.and_eq_false_iff, beq_eq_false_iff_ne,
    decide_eq_false_iff_not] at hna
  unfold Impl.DispatchPacket
  simp only [hm, PacketHeader.ofBytes]
  split_ifs <;>
    simp_all [Impl.Client_HandleConnectAck, Impl.Client_HandleDisconnect,
      Impl.Client_HandlePlayerUpdate, Effect.isSend, Effect.dest] <;>
    (try split_ifs) <;>
    simp_all [Effect.isSend, Effect.dest]

theorem elapsed_ge_retry (x : Int) (h : CONNECT_RETRY_MS ≤ Int.tdiv x TICKS_PER_MS) :
    500 * TICKS_PER_MS ≤ x := by
  simp only [CONNECT_RETRY_MS, TICKS_PER_MS] at *
  rcases lt_or_le x 0 with hx | hx
  · have h2 := Int.tdiv_nonneg (a := -x) (b := 1000000) (by omega) (by omega)
    rw [Int.neg_tdiv] at h2
    omega
  · rw [Int.tdiv_eq_ediv hx (by omega)] at h
    omega

theorem RecvLoop_recv_keeps (s : Impl) (n : Int) (buf : List Nat) (a : sockaddr_in) :
    (s.RecvLoop_recv n buf a).mode = s.mode
    ∧ (s.RecvLoop_recv n buf a).connected = s.connected
    ∧ (s.RecvLoop_recv n buf a).running = s.running
    ∧ (s.RecvLoop_recv n buf a).serverAddr = s.serverAddr
    ∧ (s.RecvLoop_recv n buf a).localName = s.localName
    ∧ (s.RecvLoop_recv n buf a).connectAttempts = s.connectAttempts
    ∧ (s.RecvLoop_recv n buf a).lastConnectAttempt = s.lastConnectAttempt := by
  unfold Impl.RecvLoop_recv
  split_ifs <;> simp

theorem RecvLoop_iter_send (s : Impl) (now n : Int) (buf : List Nat) (a : sockaddr_in)
    (hm : s.mode = Mode.Client) (hc : s.connected = false) (hr : s.running = true)
    (hlt : s.connectAttempts < MAX_CONNECT_ATTEMPTS)
    (hel : CONNECT_RETRY_MS ≤ Int.tdiv (now - s.lastConnectAttempt) TICKS_PER_MS) :
    s.RecvLoop_iter now n buf a
      = (({ s with lastConnectAttempt := now, connectAttempts := s.connectAttempts + 1 }
            : Impl).RecvLoop_recv n buf a,
          [Effect.send s.serverAddr (connectDatagram s.localName)]) := by
  simp [Impl.RecvLoop_iter, Impl.RecvLoop_retry, hm, hc, hr, hlt, hel, connectDatagram]

theorem RecvLoop_iter_idle (s : Impl) (now n : Int) (buf : List Nat) (a : sockaddr_in)
    (hr : s.running = true)
    (h : ¬ (s.connectAttempts < MAX_CONNECT_ATTEMPTS
      ∧ CONNECT_RETRY_MS ≤ Int.tdiv (now - s.lastConnectAttempt) TICKS_PER_MS)) :
    s.RecvLoop_iter now n buf a = (s.RecvLoop_recv n buf a, []) := by
  unfold Impl.RecvLoop_iter Impl.RecvLoop_retry
  simp only [hr, if_true]
  split_ifs with h1 h2
  · exfalso
    apply h
    simp only [Bool.and_eq_true, decide_eq_true_eq] at h1
    exact ⟨h1.2, h2⟩
  · rfl
  · rfl

/-- The retry behaviour of an unacknowledged client from any state of its
session, by induction on the events. -/
theorem retry_run (GV : List Nat) (nm : NetworkManager) (events : List ClientEvent) :
    ∀ s : Impl, s.mode = Mode.Client → s.connected = false → s.running = true →
      s.connectAttempts ≤ MAX_CONNECT_ATTEMPTS → (∀ e ∈ events, e.isAck = false) →
      (s.clientRun GV nm events).2.filter Effect.isSend
          = (s.sendTimes GV nm events).map
              (fun _ => Effect.send s.serverAddr (connectDatagram s.localName))
      ∧ s.connectAttempts + (s.sendTimes GV nm events).length
          = min MAX_CONNECT_ATTEMPTS (s.connectAttempts + s.ripeIters GV nm events)
      ∧ List.Chain (fun a b => 500 * TICKS_PER_MS ≤ b - a) s.lastConnectAttempt
          (s.sendTimes GV nm events)
      ∧ (s.clientRun GV nm events).1.connected = false
      ∧ (s.clientRun GV nm events).1.mode = Mode.Client
      ∧ (s.clientRun GV nm events).1.running = true
      ∧ (s.clientRun GV nm events).1.serverAddr = s.serverAddr
      ∧ (s.clientRun GV nm events).1.localName = s.localName
      ∧ (s.clientRun GV nm events).1.connectAttempts
          = s.connectAttempts + (s.sendTimes GV nm events).length := by
  induction events with
  | nil =>
    intro s hm hc hr hle _
    refine ⟨rfl, ?_, List.Chain.nil, hc, hm, hr, rfl, rfl, rfl⟩
    simp only [Impl.sendTimes, Impl.ripeIters, List.length_nil, MAX_CONNECT_ATTEMPTS] at hle ⊢
    omega
  | cons e es ih =>
    intro s hm hc hr hle hack
    have hack_e := hack e (List.mem_cons_self _ _)
    have hack_es : ∀ x ∈ es, x.isAck = false := fun x hx => hack x (List.mem_cons_of_mem _ hx)
    cases e with
    | dispatch rp =>
      obtain ⟨k1, k2, k3, k4, k5, k6, k7, k8⟩ := client_dispatch_keeps GV s rp nm hm hc hack_e
      obtain ⟨i1, i2, i3, i4, i5, i6, i7, i8, i9⟩ :=
        ih (s.DispatchPacket GV rp nm).1 k1 k2 (k3.trans hr) (k6 ▸ hle) hack_es
      simp only [Impl.clientRun, Impl.clientStep, Impl.sendTimes, Impl.ripeIters,
        List.filter_append, k8, List.nil_append]
      rw [k4, k5] at i1
      rw [k6] at i2 i9
      rw [k7] at i3
      exact ⟨i1, i2, i3, i4, i5, i6, i7.trans k4, i8.trans k5, i9⟩
    | iter now n buf a =>
      by_cases hsend : s.connectAttempts < MAX_CONNECT_ATTEMPTS
          ∧ CONNECT_RETRY_MS ≤ Int.tdiv (now - s.lastConnectAttempt) TICKS_PER_MS
      · have hstep := RecvLoop_iter_send s now n buf a hm hc hr hsend.1 hsend.2
        obtain ⟨r1, r2, r3, r4, r5, r6, r7⟩ := RecvLoop_recv_keeps
          ({ s with lastConnectAttempt := now, connectAttempts := s.connectAttempts + 1 } : Impl)
          n buf a
        simp only at r1 r2 r3 r4 r5 r6 r7
        obtain ⟨i1, i2, i3, i4, i5, i6, i7, i8, i9⟩ :=
          ih (s.RecvLoop_iter now n buf a).1 (by rw [hstep]; exact r1.trans hm)
            (by rw [hstep]; exact r2.trans hc) (by rw [hstep]; exact r3.trans hr)
            (by rw [hstep]; simp only [r6, MAX_CONNECT_ATTEMPTS] at hsend ⊢; omega) hack_es
        have e4 : (s.RecvLoop_iter now n buf a).1.serverAddr = s.serverAddr := by
          rw [hstep]; exact r4
        have e5 : (s.RecvLoop_iter now n buf a).1.localName = s.localName := by
          rw [hstep]; exact r5
        have e6 : (s.RecvLoop_iter now n buf a).1.connectAttempts = s.connectAttempts + 1 := by
          rw [hstep]; exact r6
        have e7 : (s.RecvLoop_iter now n buf a).1.lastConnectAttempt = now := by
          rw [hstep]; exact r7
        have e8 : (s.RecvLoop_iter now n buf a).2
            = [Effect.send s.serverAddr (connectDatagram s.localName)] := by
          rw [hstep]
        rw [e4, e5] at i1
        rw [e6] at i2 i9
        rw [e7] at i3
        simp only [Impl.clientRun, Impl.clientStep, Impl.sendTimes, Impl.ripeIters, e8,
          List.filter_append, hsend.2, if_true]
        refine ⟨?_, ?_, ?_, i4, i5, i6, i7.trans e4, i8.trans e5, ?_⟩
        · simp [Effect.isSend, Effect.dest, i1]
        · simp only [List.any_cons, Effect.isSend, Effect.dest, Option.isSome_some,
            Bool.true_or, if_true, List.length_cons, MAX_CONNECT_ATTEMPTS] at i2 ⊢
          omega
        · simp only [List.any_cons, Effect.isSend, Effect.dest, Option.isSome_some,
            Bool.true_or, if_true]
          exact List.Chain.cons (elapsed_ge_retry _ hsend.2) i3
        · simp only [List.any_cons, Effect.isSend, Effect.dest, Option.isSome_some,
            Bool.true_or, if_true, List.length_cons]
          rw [i9]
          omega
      · have hstep := RecvLoop_iter_idle s now n buf a hr hsend
        obtain ⟨r1, r2, r3, r4, r5, r6, r7⟩ := RecvLoop_recv_keeps s n buf a
        obtain ⟨i1, i2, i3, i4, i5, i6, i7, i8, i9⟩ :=
          ih (s.RecvLoop_iter now n buf a).1 (by rw [hstep]; exact r1.trans hm)
            (by rw [hstep]; exact r2.trans hc) (by rw [hstep]; exact r3.trans hr)
            (by rw [hstep]; exact r6 ▸ hle) hack_es
        have e4 : (s.RecvLoop_iter now n buf a).1.serverAddr = s.serverAddr := by
          rw [hstep]; exact r4
        have e5 : (s.RecvLoop_iter now n buf a).1.localName = s.localName := by
          rw [hstep]; exact r5
        have e6 : (s.RecvLoop_iter now n buf a).1.connectAttempts = s.connectAttempts := by
          rw [hstep]; exact r6
        have e7 : (s.RecvLoop_iter now n buf a).1.lastConnectAttempt = s.lastConnectAttempt := by
          rw [hstep]; exact r7
        have e8 : (s.RecvLoop_iter now n buf a).2 = [] := by
          rw [hstep]
        rw [e4, e5] at i1
        rw [e6] at i2 i9
        rw [e7] at i3
        simp only [Impl.clientRun, Impl.clientStep, Impl.sendTimes, Impl.ripeIters, e8,
          List.filter_append, List.any_nil, List.filter_nil, List.nil_append,
          Bool.false_eq_true, if_false]
        refine ⟨i1, ?_, i3, i4, i5, i6, i7.trans e4, i8.trans e5, i9⟩
        simp only [MAX_CONNECT_ATTEMPTS] at i2 hsend hle ⊢
        split_ifs with hel
        · have : s.connectAttempts = 15 := by
            by_contra hne
            exact hsend ⟨by omega, hel⟩
          omega
        · omega

/-- What a successful `Connect()` leaves behind. -/
theorem Connect_ok (nm0 : NetworkManager) (sock : Option Nat) (bindOk : Bool)
    (resolved : Option sockaddr_in) (name : List Nat) (t0 : Int)
    (h : (nm0.Connect sock bindOk resolved name t0).2.1 = true) :
    ∃ addr, resolved = some addr
      ∧ (nm0.Connect sock bindOk resolved name t0).2.2
          = [Effect.send addr
              (connectDatagram (nm0.Connect sock bindOk resolved name t0).1.m_impl.localName)]
      ∧ (nm0.Connect sock bindOk resolved name t0).1.m_impl.mode = Mode.Client
      ∧ (nm0.Connect sock bindOk resolved name t0).1.m_impl.running = true
      ∧ (nm0.Connect sock bindOk resolved name t0).1.m_impl.connected = nm0.m_impl.connected
      ∧ (nm0.Connect sock bindOk resolved name t0).1.m_impl.localId = nm0.m_impl.localId
      ∧ (nm0.Connect sock bindOk resolved name t0).1.m_impl.connectAttempts = 1
      ∧ (nm0.Connect sock bindOk resolved name t0).1.m_impl.lastConnectAttempt = t0
      ∧ (nm0.Connect sock bindOk resolved name t0).1.m_impl.serverAddr = addr
      ∧ (nm0.Connect sock bindOk resolved name t0).1.m_impl.localName
          = (strncpy nm0.m_impl.localName name 15).set 15 0 := by
  unfold NetworkManager.Connect at h ⊢
  by_cases hr : nm0.m_impl.running = true
  · simp [hr] at h
  · simp only [hr, if_false] at h ⊢
    cases sock with
    | none => simp [Impl.InitSocket] at h
    | some fd =>
      cases bindOk with
      | false => simp [Impl.InitSocket] at h
      | true =>
        cases resolved with
        | none => simp [Impl.InitSocket] at h
        | some addr =>
          refine ⟨addr, rfl, ?_⟩
          simp [Impl.InitSocket, connectDatagram]

/-- The retry cap in the schedules in which the receive thread executes
nothing of its retry block before `Connect()` has returned, on an object that
is not connected (as a new one is): through any sequence of receive-loop
iterations and dispatched packets none of which is a `ConnectAck`, every
datagram sent, the initial one included, is the same `Connect` packet to the
server; their number is at most `MAX_CONNECT_ATTEMPTS = 15` and equals
`min 15 (1 + r)`, `r` being the number of iterations that observed at least
500 ms since the last attempt; consecutive sends are at least 500 ms of clock
ticks apart; once 15 were sent no further event sends anything; and the
session is not connected. The other schedules, and an object left connected,
are the subject of `ConnectSys`. -/
theorem retry_cap_when_thread_starts_late (GV : List Nat) (nm nm0 : NetworkManager) (sock : Option Nat)
    (bindOk : Bool) (resolved : Option sockaddr_in) (name : List Nat) (t0 : Int)
    (events : List ClientEvent)
    (hok : (nm0.Connect sock bindOk resolved name t0).2.1 = true)
    (hc : nm0.IsConnected = false)
    (hack : ∀ e ∈ events, e.isAck = false) :
    ((nm0.Connect sock bindOk resolved name t0).2.2
        ++ ((nm0.Connect sock bindOk resolved name t0).1.m_impl.clientRun GV nm events).2).filter
          Effect.isSend
      = (t0 :: (nm0.Connect sock bindOk resolved name t0).1.m_impl.sendTimes GV nm events).map
          (fun _ => Effect.send (nm0.Connect sock bindOk resolved name t0).1.m_impl.serverAddr
            (connectDatagram ((strncpy nm0.m_impl.localName name 15).set 15 0)))
    ∧ (t0 :: (nm0.Connect sock bindOk resolved name t0).1.m_impl.sendTimes GV nm events).length
        ≤ MAX_CONNECT_ATTEMPTS
    ∧ (t0 :: (nm0.Connect sock bindOk resolved name t0).1.m_impl.sendTimes GV nm events).length
        = min MAX_CONNECT_ATTEMPTS
            (1 + (nm0.Connect sock bindOk resolved name t0).1.m_impl.ripeIters GV nm events)
    ∧ List.Chain' (fun a b => CONNECT_RETRY_MS * TICKS_PER_MS ≤ b - a)
        (t0 :: (nm0.Connect sock bindOk resolved name t0).1.m_impl.sendTimes GV nm events)
    ∧ ((t0 :: (nm0.Connect sock bindOk resolved name t0).1.m_impl.sendTimes GV nm events).length
          = MAX_CONNECT_ATTEMPTS →
        ∀ more : List ClientEvent, (∀ e ∈ more, e.isAck = false) →
          ((((nm0.Connect sock bindOk resolved name t0).1.m_impl.clientRun GV nm events).1.clientRun
            GV nm more).2.filter Effect.isSend = []))
    ∧ (nm0.Connect sock bindOk resolved name t0).1.IsConnected = false
    ∧ ((nm0.Connect sock bindOk resolved name t0).1.m_impl.clientRun GV nm events).1.connected
        = false := by
  obtain ⟨addr, _, c1, c2, c3, c4, _, c6, c7, c8, c9⟩ :=
    Connect_ok nm0 sock bindOk resolved name t0 hok
  have hc' : (nm0.Connect sock bindOk resolved name t0).1.m_impl.connected = false :=
    c4.trans hc
  obtain ⟨i1, i2, i3, i4, i5, i6, i7, i8, i9⟩ :=
    retry_run GV nm events (nm0.Connect sock bindOk resolved name t0).1.m_impl c2 hc' c3
      (by rw [c6]; decide) hack
  rw [c6] at i2 i9
  rw [c7] at i3
  rw [c9] at i1
  refine ⟨?_, ?_, ?_, ?_, ?_, hc', i4⟩
  · rw [List.filter_append, i1, c1, c8, c9]
    simp [Effect.isSend, Effect.dest]
  · simp only [List.length_cons, MAX_CONNECT_ATTEMPTS] at i2 ⊢
    omega
  · simp only [List.length_cons, MAX_CONNECT_ATTEMPTS] at i2 ⊢
    omega
  · exact i3
  · intro hlen more hmore
    obtain ⟨j1, j2, _⟩ :=
      retry_run GV nm more
        ((nm0.Connect sock bindOk resolved name t0).1.m_impl.clientRun GV nm events).1
        i5 i4 i6 (by rw [i9]; simp only [List.length_cons, MAX_CONNECT_ATTEMPTS] at hlen ⊢; omega)
        hmore
    rw [i9] at j2
    simp only [List.length_cons, MAX_CONNECT_ATTEMPTS] at hlen j2
    have hz : (((nm0.Connect sock bindOk resolved name t0).1.m_impl.clientRun GV nm events).1.sendTimes
        GV nm more).length = 0 := by omega
    rw [j1, List.length_eq_zero.mp hz]
    rfl
/-! ## `Connect()` interleaved with the receive thread -/

theorem ConnectSys_run_append (sys : ConnectSys) (s1 s2 : List ConnectStep) :
    sys.run (s1 ++ s2)
      = ((((sys.run s1).1).run s2).1, (sys.run s1).2 ++ (((sys.run s1).1).run s2).2) := by
  induction s1 generalizing sys with
  | nil => simp [ConnectSys.run]
  | cons st rest ih =>
    rw [List.cons_append]
    simp only [ConnectSys.run]
    rw [ih]
    simp only [List.append_assoc]

/-- The three remaining statements of `Connect()` with no step of the thread in
between give what `NetworkManager.Connect` returns. -/
theorem Connect_eq_begin_then_main (nm : NetworkManager) (sock : Option Nat) (bindOk : Bool)
    (resolved : Option sockaddr_in) (name : List Nat) (now : Int) :
    nm.Connect sock bindOk resolved name now
      = if (nm.Connect_begin sock bindOk resolved name).2 then
          ({ (nm.Connect_begin sock bindOk resolved name).1 with
              m_impl := ((ConnectSys.start
                (nm.Connect_begin sock bindOk resolved name).1.m_impl).run
                  (List.replicate 3 (ConnectStep.main now))).1.impl },
            true,
            ((ConnectSys.start (nm.Connect_begin sock bindOk resolved name).1.m_impl).run
              (List.replicate 3 (ConnectStep.main now))).2)
        else ((nm.Connect_begin sock bindOk resolved name).1, false, []) := by
  unfold NetworkManager.Connect NetworkManager.Connect_begin
  by_cases hr : nm.m_impl.running = true
  · simp [hr]
  · simp only [hr, if_false]
    cases sock with
    | none => simp [Impl.InitSocket]
    | some fd =>
      cases bindOk with
      | false => simp [Impl.InitSocket]
      | true =>
        cases resolved with
        | none => simp [Impl.InitSocket]
        | some addr =>
          simp [Impl.InitSocket, ConnectSys.start, ConnectSys.run, ConnectSys.step,
            List.replicate]

set_option maxRecDepth 100000 in
/-- C6 (the code breaks it): `Connect()` starts the receive thread before it
sends the initial packet and sets `lastConnectAttempt` and `connectAttempts`.
On a new object the successful first part of `Connect()` leaves the counter at
0 and the time point at its default, so when the thread's retry block runs
first at clock reading 600 ms it sends a `Connect` packet and counts 1; the
rest of `Connect()`, at 601 ms, sends again and sets the counter back to 1:
two packets one millisecond apart. With 20 further half seconds of the thread
alone and no `ConnectAck`, 16 packets are sent in all, one more than
`MAX_CONNECT_ATTEMPTS`, and the session is never connected. Second run: on the
object of `stoppedClient`, which a `StopServer()` left with `connected` set, a
successful `Connect()` sends its one packet and the thread never retries, so
exactly one packet is sent and `connected` is true throughout. -/
theorem C6_sixteen_connects_when_thread_runs_first :
    (({} : NetworkManager).Connect_begin (some 4) true (some addrS) alice).2 = true
    ∧ (racingConnect.run (threadFirst (600 * TICKS_PER_MS))).2
        = [Effect.send addrS (connectDatagram alice), Effect.send addrS (connectDatagram alice)]
    ∧ racingConnect.sendClocks (threadFirst (600 * TICKS_PER_MS))
        = [600 * TICKS_PER_MS, 601 * TICKS_PER_MS]
    ∧ (racingConnect.run (threadFirst (600 * TICKS_PER_MS))).1.main = ConnectPc.returned
    ∧ (racingConnect.run (threadFirst (600 * TICKS_PER_MS))).1.impl.connectAttempts = 1
    ∧ (racingConnect.run
        (threadFirst (600 * TICKS_PER_MS) ++ laterIterations (601 * TICKS_PER_MS) 20)).2
        = List.replicate 16 (Effect.send addrS (connectDatagram alice))
    ∧ MAX_CONNECT_ATTEMPTS
        < ((racingConnect.run
            (threadFirst (600 * TICKS_PER_MS) ++ laterIterations (601 * TICKS_PER_MS) 20)).2.filter
            Effect.isSend).length
    ∧ (racingConnect.run
        (threadFirst (600 * TICKS_PER_MS)
          ++ laterIterations (601 * TICKS_PER_MS) 20)).1.impl.connected = false
    ∧ (stoppedClient.Connect_begin (some 5) true (some addrS) alice).2 = true
    ∧ (reconnectingStopped.run (List.replicate 3 (ConnectStep.main 0) ++ laterIterations 0 20)).2
        = [Effect.send addrS (connectDatagram alice)]
    ∧ (reconnectingStopped.run
        (List.replicate 3 (ConnectStep.main 0) ++ laterIterations 0 20)).1.impl.connected
        = true := by
  decide
/-! ## The wire layout: writing then reading a packet -/

theorem getChars_length (d : List Nat) (off n : Nat) : (getChars d off n).length = n := by
  simp [getChars]

theorem putChars_length (n : Nat) (buf : List Nat) : (putChars n buf).length = n := by
  simp [putChars]

theorem getChars_cons_succ (x : Nat) (d : List Nat) (off n : Nat) :
    getChars (x :: d) (off + 1) n = getChars d off n := by
  simp only [getChars]
  apply List.map_congr_left
  intro i _
  have h : off + 1 + i = (off + i) + 1 := by omega
  rw [h]
  simp [List.getD_cons_succ]

theorem getChars_append_right (pre d : List Nat) (n : Nat) :
    getChars (pre ++ d) pre.length n = getChars d 0 n := by
  induction pre with
  | nil => rfl
  | cons x xs ih =>
    rw [List.cons_append, List.length_cons, getChars_cons_succ]
    exact ih

theorem getChars_putChars (n : Nat) (buf post : List Nat) (h : IsChars n buf) :
    getChars (putChars n buf ++ post) 0 n = buf := by
  obtain ⟨hlen, hlt⟩ := h
  apply List.ext_getElem
  · rw [getChars_length, hlen]
  · intro i h1 h2
    have hi : i < n := by rw [getChars_length] at h1; exact h1
    have hb : buf.getD i 0 = buf[i] := by
      rw [List.getD_eq_getElem?_getD, List.getElem?_eq_getElem h2]
      rfl
    have hi2 : i < (putChars n buf).length := by rw [putChars_length]; exact hi
    have hp : (putChars n buf)[i] = buf[i] := by
      simp only [putChars, List.getElem_map, List.getElem_range, hb]
      exact Nat.mod_eq_of_lt (hlt _ (List.getElem_mem _))
    simp only [getChars, List.getElem_map, List.getElem_range, Nat.zero_add]
    rw [List.getD_eq_getElem?_getD,
      List.getElem?_append_left (by rw [putChars_length]; exact hi),
      List.getElem?_eq_getElem (by rw [putChars_length]; exact hi), hp]
    rfl

theorem rawBytes_of_bytes (d : List Nat) : rawBytes d d.length = d := by
  apply List.ext_getElem
  · simp [rawBytes, getChars]
  · intro i h1 h2
    simp only [rawBytes, getChars, List.getElem_map, List.getElem_range, Nat.zero_add]
    rw [List.getD_eq_getElem?_getD, List.getElem?_eq_getElem h2]
    rfl

theorem ofDatagram_short (d : List Nat) (a : sockaddr_in) (h : d.length < 512) :
    RawPacket.ofDatagram d a = { data := d, len := d.length, from_ := a } := by
  have h1 : ((d.length : Int) < 512) := by omega
  simp only [RawPacket.ofDatagram, h1, if_true, Int.toNat_ofNat, rawBytes_of_bytes]

theorem roundtrip_header (h : PacketHeader) (hv : h.Valid) (rest : List Nat) :
    PacketHeader.ofBytes (h.toBytes ++ rest) = h := by
  obtain ⟨h1, h2⟩ := hv
  cases h with
  | mk t i =>
    simp only at h1 h2
    simp [PacketHeader.ofBytes, PacketHeader.toBytes, putU8, getU8, Nat.mod_eq_of_lt h1,
      Nat.mod_eq_of_lt h2]

theorem header_toBytes_length (h : PacketHeader) : h.toBytes.length = 2 := rfl

theorem roundtrip_connect (p : ConnectPacket) (hv : p.header.Valid) (hn : IsChars 16 p.name) :
    p.toBytes.length = sizeof_ConnectPacket ∧ ConnectPacket.ofBytes p.toBytes = p := by
  cases p with
  | mk h name =>
    simp only at hv hn
    refine ⟨by simp [ConnectPacket.toBytes, header_toBytes_length, putChars_length], ?_⟩
    simp only [ConnectPacket.ofBytes, ConnectPacket.toBytes, roundtrip_header h hv]
    have e : getChars (h.toBytes ++ putChars 16 name) 2 16 = name := by
      have := getChars_append_right h.toBytes (putChars 16 name ++ []) 16
      rw [header_toBytes_length, List.append_nil] at this
      rw [this]
      have h2 := getChars_putChars 16 name [] hn
      rw [List.append_nil] at h2
      exact h2
    rw [e]

theorem roundtrip_connectAck (p : ConnectAckPacket) (hv : p.header.Valid)
    (hi : p.assignedId < 256) :
    p.toBytes.length = sizeof_ConnectAckPacket ∧ ConnectAckPacket.ofBytes p.toBytes = p := by
  cases p with
  | mk h i =>
    simp only at hv hi
    refine ⟨rfl, ?_⟩
    simp only [ConnectAckPacket.ofBytes, ConnectAckPacket.toBytes, roundtrip_header h hv]
    simp [PacketHeader.toBytes, putU8, getU8, Nat.mod_eq_of_lt hi]

theorem roundtrip_disconnect (p : DisconnectPacket) (hv : p.header.Valid) :
    p.toBytes.length = sizeof_DisconnectPacket ∧ DisconnectPacket.ofBytes p.toBytes = p := by
  cases p with
  | mk h =>
    simp only at hv
    refine ⟨rfl, ?_⟩
    have := roundtrip_header h hv []
    rw [List.append_nil] at this
    simp only [DisconnectPacket.ofBytes, DisconnectPacket.toBytes, this]

theorem roundtrip_serverInfoReq (p : ServerInfoReqPacket) (hv : p.header.Valid) :
    p.toBytes.length = sizeof_ServerInfoReqPacket
      ∧ ServerInfoReqPacket.ofBytes p.toBytes = p := by
  cases p with
  | mk h =>
    simp only at hv
    refine ⟨rfl, ?_⟩
    have := roundtrip_header h hv []
    rw [List.append_nil] at this
    simp only [ServerInfoReqPacket.ofBytes, ServerInfoReqPacket.toBytes, this]

theorem getU32_putU32 (v : Nat) (hv : v < 2 ^ 32) :
    v % 256 + 256 * (v / 256 % 256) + 65536 * (v / 65536 % 256)
      + 16777216 * (v / 16777216 % 256) = v := by
  omega

theorem roundtrip_playerUpdate (p : PlayerUpdatePacket) (hv : p.header.Valid)
    (h1 : p.posX < 2 ^ 32) (h2 : p.posY < 2 ^ 32) (h3 : p.posZ < 2 ^ 32)
    (h4 : p.rotX < 2 ^ 32) (h5 : p.rotY < 2 ^ 32) :
    p.toBytes.length = sizeof_PlayerUpdatePacket
      ∧ PlayerUpdatePacket.ofBytes p.toBytes = p := by
  cases p with
  | mk h x y z rx ry =>
    simp only at hv h1 h2 h3 h4 h5
    refine ⟨rfl, ?_⟩
    have hh : PacketHeader.ofBytes
        (h.toBytes ++ putU32 x ++ putU32 y ++ putU32 z ++ putU32 rx ++ putU32 ry) = h := by
      have := roundtrip_header h hv (putU32 x ++ putU32 y ++ putU32 z ++ putU32 rx ++ putU32 ry)
      simpa only [List.append_assoc] using this
    simp only [PlayerUpdatePacket.ofBytes, PlayerUpdatePacket.toBytes, hh]
    simp only [PacketHeader.toBytes, putU8, putU32, getU32, List.cons_append, List.nil_append,
      List.getD_cons_succ, List.getD_cons_zero, getU32_putU32 x h1, getU32_putU32 y h2,
      getU32_putU32 z h3, getU32_putU32 rx h4, getU32_putU32 ry h5]

theorem roundtrip_serverInfoResp (p : ServerInfoRespPacket) (hv : p.header.Valid)
    (h1 : p.playerCount < 256) (h2 : p.maxPlayers < 256) (h3 : p.port < 65536)
    (h4 : IsChars 32 p.pakName) (h5 : IsChars 32 p.serverName) :
    p.toBytes.length = sizeof_ServerInfoRespPacket
      ∧ ServerInfoRespPacket.ofBytes p.toBytes = p := by
  cases p with
  | mk h pc mp port pak srv =>
    simp only at hv h1 h2 h3 h4 h5
    refine ⟨by simp [ServerInfoRespPacket.toBytes, header_toBytes_length, putChars_length,
      putU8, putU16], ?_⟩
    have hh : PacketHeader.ofBytes
        (h.toBytes ++ putU8 pc ++ putU8 mp ++ putU16 port ++ putChars 32 pak
          ++ putChars 32 srv) = h := by
      have := roundtrip_header h hv
        (putU8 pc ++ putU8 mp ++ putU16 port ++ putChars 32 pak ++ putChars 32 srv)
      simpa only [List.append_assoc] using this
    have hpak : getChars (h.toBytes ++ putU8 pc ++ putU8 mp ++ putU16 port ++ putChars 32 pak
          ++ putChars 32 srv) 6 32 = pak := by
      have e := getChars_append_right (h.toBytes ++ putU8 pc ++ putU8 mp ++ putU16 port)
        (putChars 32 pak ++ putChars 32 srv) 32
      have hl : (h.toBytes ++ putU8 pc ++ putU8 mp ++ putU16 port).length = 6 := rfl
      rw [hl, ← List.append_assoc] at e
      rw [e]
      exact getChars_putChars 32 pak _ h4
    have hsrv : getChars (h.toBytes ++ putU8 pc ++ putU8 mp ++ putU16 port ++ putChars 32 pak
          ++ putChars 32 srv) 38 32 = srv := by
      have e := getChars_append_right
        (h.toBytes ++ putU8 pc ++ putU8 mp ++ putU16 port ++ putChars 32 pak)
        (putChars 32 srv ++ []) 32
      have hl : (h.toBytes ++ putU8 pc ++ putU8 mp ++ putU16 port ++ putChars 32 pak).length
          = 38 := by
        simp [header_toBytes_length, putChars_length, putU8, putU16]
      rw [hl, List.append_nil] at e
      rw [e]
      have h2 := getChars_putChars 32 srv [] h5
      rw [List.append_nil] at h2
      exact h2
    simp only [ServerInfoRespPacket.ofBytes, ServerInfoRespPacket.toBytes, hh, hpak, hsrv]
    have hport : port % 256 + 256 * (port / 256 % 256) = port := by omega
    simp only [PacketHeader.toBytes, putU8, putU16, getU8, getU16, List.cons_append,
      List.nil_append, List.append_assoc, List.getD_cons_succ, List.getD_cons_zero,
      Nat.mod_eq_of_lt h1, Nat.mod_eq_of_lt h2, hport]

/-- C7: for each of the six packet variants of `Packets.hpp` and every value
of its members (each within the range of its C type: bytes below 256, the port
below 65536, a float any 32-bit pattern, a `char[n]` member any `n` bytes),
the packed bytes have the size of the struct and reading them back, member by
member at the packed offsets, as `DispatchPacket` does on the buffer, gives
the packet back unchanged. -/
theorem C7_wire_roundtrip :
    (∀ p : ConnectPacket, p.header.Valid → IsChars 16 p.name →
      p.toBytes.length = sizeof_ConnectPacket ∧ ConnectPacket.ofBytes p.toBytes = p)
    ∧ (∀ p : ConnectAckPacket, p.header.Valid → p.assignedId < 256 →
      p.toBytes.length = sizeof_ConnectAckPacket ∧ ConnectAckPacket.ofBytes p.toBytes = p)
    ∧ (∀ p : DisconnectPacket, p.header.Valid →
      p.toBytes.length = sizeof_DisconnectPacket ∧ DisconnectPacket.ofBytes p.toBytes = p)
    ∧ (∀ p : PlayerUpdatePacket, p.header.Valid → p.posX < 2 ^ 32 → p.posY < 2 ^ 32 →
      p.posZ < 2 ^ 32 → p.rotX < 2 ^ 32 → p.rotY < 2 ^ 32 →
      p.toBytes.length = sizeof_PlayerUpdatePacket ∧ PlayerUpdatePacket.ofBytes p.toBytes = p)
    ∧ (∀ p : ServerInfoReqPacket, p.header.Valid →
      p.toBytes.length = sizeof_ServerInfoReqPacket
        ∧ ServerInfoReqPacket.ofBytes p.toBytes = p)
    ∧ (∀ p : ServerInfoRespPacket, p.header.Valid → p.playerCount < 256 →
      p.maxPlayers < 256 → p.port < 65536 → IsChars 32 p.pakName → IsChars 32 p.serverName →
      p.toBytes.length = sizeof_ServerInfoRespPacket
        ∧ ServerInfoRespPacket.ofBytes p.toBytes = p) :=
  ⟨roundtrip_connect, roundtrip_connectAck, roundtrip_disconnect, roundtrip_playerUpdate,
    roundtrip_serverInfoReq, roundtrip_serverInfoResp⟩

theorem C7_wire_roundtrip_witness :
    (fullNameConnect.header.Valid ∧ IsChars 16 fullNameConnect.name)
    ∧ fullNameConnect.toBytes.length = sizeof_ConnectPacket
    ∧ ConnectPacket.ofBytes fullNameConnect.toBytes = fullNameConnect :=
  ⟨⟨by decide, by decide⟩,
    C7_wire_roundtrip.1 fullNameConnect (by decide) (by decide)⟩
/-! ## C strings in fixed buffers -/

theorem cstr_no_nul (l : List Nat) : ∀ c ∈ cstr l, c ≠ 0 := by
  intro c hc
  have := List.mem_takeWhile_imp hc
  simpa using this

theorem cstr_take_no_nul (l : List Nat) (n : Nat) : ∀ c ∈ (cstr l).take n, c ≠ 0 :=
  fun c hc => cstr_no_nul l c (List.mem_of_mem_take hc)

theorem cstr_append_nul (t rest : List Nat) (h : ∀ c ∈ t, c ≠ 0) :
    cstr (t ++ 0 :: rest) = t := by
  induction t with
  | nil => simp [cstr]
  | cons x xs ih =>
    have hx : x ≠ 0 := h x (List.mem_cons_self _ _)
    have := ih (fun c hc => h c (List.mem_cons_of_mem _ hc))
    simp only [cstr] at this ⊢
    simp [List.takeWhile_cons, hx, this]

theorem cstr_padNul (n : Nat) (t : List Nat) (h : ∀ c ∈ t, c ≠ 0) (hl : t.length < n) :
    cstr (padNul n t) = t := by
  have e : n - t.length = (n - t.length - 1) + 1 := by omega
  rw [padNul, e, List.replicate_succ]
  exact cstr_append_nul t _ h

theorem strncpy_set (dst src : List Nat) (n : Nat) (hd : dst.length = n + 1) :
    (strncpy dst src n).set n 0 = padNul (n + 1) ((cstr src).take n) := by
  have hl : ((cstr src).take n).length ≤ n := by
    rw [List.length_take]; exact Nat.min_le_left _ _
  obtain ⟨x, hx⟩ : ∃ x, dst.drop n = [x] := by
    have : (dst.drop n).length = 1 := by rw [List.length_drop]; omega
    match hdr : dst.drop n, this with
    | [x], _ => exact ⟨x, rfl⟩
  simp only [strncpy, hx, padNul]
  have e : n + 1 - ((cstr src).take n).length = (n - ((cstr src).take n).length) + 1 := by omega
  rw [e, List.replicate_succ', ← List.append_assoc]
  have hlen : ((cstr src).take n ++ List.replicate (n - ((cstr src).take n).length) 0).length
      = n := by
    rw [List.length_append, List.length_replicate]; omega
  generalize (cstr src).take n ++ List.replicate (n - ((cstr src).take n).length) 0 = pre at hlen
  subst hlen
  simp

theorem strncpy_set_padNul (dst t : List Nat) (n : Nat) (hd : dst.length = n + 1)
    (h : ∀ c ∈ t, c ≠ 0) (hl : t.length ≤ n) :
    (strncpy dst (padNul (n + 1) t) n).set n 0 = padNul (n + 1) t := by
  rw [strncpy_set dst _ n hd, cstr_padNul (n + 1) t h (by omega), List.take_of_length_le hl]

theorem cstr_take_nul (l : List Nat) (n : Nat) :
    cstr (l.take n ++ [0]) = (cstr l).take n := by
  induction l generalizing n with
  | nil => simp [cstr]
  | cons x xs ih =>
    cases n with
    | zero => simp [cstr]
    | succ n =>
      have := ih n
      simp only [cstr] at this ⊢
      by_cases hx : x = 0
      · simp [List.takeWhile_cons, hx]
      · simp [List.takeWhile_cons, hx, this]

theorem padNul_length (n : Nat) (t : List Nat) (hl : t.length ≤ n) :
    (padNul n t).length = n := by
  rw [padNul, List.length_append, List.length_replicate]; omega

theorem padNul_isChars (n : Nat) (t : List Nat) (hl : t.length ≤ n) (hb : ∀ c ∈ t, c < 256) :
    IsChars n (padNul n t) := by
  refine ⟨padNul_length n t hl, ?_⟩
  intro c hc
  rw [padNul, List.mem_append] at hc
  rcases hc with hc | hc
  · exact hb c hc
  · rw [List.eq_of_mem_replicate hc]; decide
/-! ## End to end: joining an idle server -/

/-- What a successful `StartServer()` leaves behind. -/
theorem StartServer_ok (nm : NetworkManager) (port : Nat) (sock : Option Nat) (bindOk : Bool)
    (h : (nm.StartServer port sock bindOk).2 = true) :
    (nm.StartServer port sock bindOk).1.m_impl.mode = Mode.Server
    ∧ (nm.StartServer port sock bindOk).1.m_impl.clients = List.replicate MAX_PLAYERS {}
    ∧ (nm.StartServer port sock bindOk).1.m_impl.nextId = 1
    ∧ (nm.StartServer port sock bindOk).1.m_impl.running = true
    ∧ (nm.StartServer port sock bindOk).1.m_impl.boundPort = port := by
  unfold NetworkManager.StartServer at h ⊢
  by_cases hr : nm.m_impl.running = true
  · simp [hr] at h
  · simp only [hr, if_false] at h ⊢
    cases sock with
    | none => simp [Impl.InitSocket] at h
    | some fd =>
      cases bindOk with
      | false => simp [Impl.InitSocket] at h
      | true => simp [Impl.InitSocket]

/-- A `Connect` from any address on a server none of whose slots is active
takes slot 0. -/
theorem Server_HandleConnect_idle (S : Impl) (pkt : ConnectPacket) (a : sockaddr_in)
    (nm : NetworkManager) (hcl : S.clients = List.replicate MAX_PLAYERS {}) :
    S.Server_HandleConnect pkt a nm
      = ({ S with
            clients := { addr := a, id := S.nextId, active := true
                         name := (strncpy (List.replicate 16 0) pkt.name 15).set 15 0 }
              :: List.replicate 15 {}
            nextId := (S.nextId + 1) % 256 },
          [Effect.send a (ConnectAckPacket.toBytes
              { header := { type := PacketType.CONNECT_ACK, playerId := S.nextId }
                assignedId := S.nextId })]
            ++ (if nm.OnPlayerJoined then
                  [Effect.playerJoined S.nextId
                    ((strncpy (List.replicate 16 0) pkt.name 15).set 15 0)] else [])) := by
  rw [Server_HandleConnect_fresh S pkt a nm 0 (by rw [hcl]; rfl) (by rw [hcl]; rfl)]
  simp only [hcl, Impl.Server_Broadcast]
  simp [List.replicate]

/-- C8: a server that `StartServer()` just started dispatches the `Connect`
datagram that a successful `Connect(host, port, name)` sent, and the client
dispatches the one datagram the server sent in reply. Then the server has
exactly one active slot; its name buffer holds the characters of the player
name up to its first NUL, at most 15 of them, padded with NUL, which as a
C string is the name cut to its first 15 bytes and NUL-terminated; and the
client's local id is non-zero and equal to that slot's id. -/
theorem C8_connect_end_to_end (GV : List Nat) (nmS nmC srv0 cli0 : NetworkManager)
    (port : Nat) (sockS sockC : Option Nat) (bindS bindC : Bool)
    (resolved : Option sockaddr_in) (addrCli : sockaddr_in) (name : List Nat) (t0 : Int)
    (hs : (srv0.StartServer port sockS bindS).2 = true)
    (hc : (cli0.Connect sockC bindC resolved name t0).2.1 = true)
    (hln : cli0.m_impl.localName.length = 16)
    (hname : ∀ c ∈ name, c < 256) :
    ∃ addrSrv connectBytes ackBytes slot,
      (cli0.Connect sockC bindC resolved name t0).2.2 = [Effect.send addrSrv connectBytes]
      ∧ ((srv0.StartServer port sockS bindS).1.m_impl.DispatchPacket GV
            (RawPacket.ofDatagram connectBytes addrCli) nmS).2.filter Effect.isSend
          = [Effect.send addrCli ackBytes]
      ∧ ((srv0.StartServer port sockS bindS).1.m_impl.DispatchPacket GV
            (RawPacket.ofDatagram connectBytes addrCli) nmS).1.clients.filter (fun s => s.active)
          = [slot]
      ∧ slot.name = padNul 16 ((cstr name).take 15)
      ∧ cstr slot.name = cstr (name.take 15 ++ [0])
      ∧ ((cli0.Connect sockC bindC resolved name t0).1.m_impl.DispatchPacket GV
            (RawPacket.ofDatagram ackBytes addrSrv) nmC).1.localId ≠ 0
      ∧ ((cli0.Connect sockC bindC resolved name t0).1.m_impl.DispatchPacket GV
            (RawPacket.ofDatagram ackBytes addrSrv) nmC).1.localId = slot.id := by
  obtain ⟨addr, _, c1, c2, _, _, _, _, _, _, c9⟩ :=
    Connect_ok cli0 sockC bindC resolved name t0 hc
  obtain ⟨s1, s2, s3, _, _⟩ := StartServer_ok srv0 port sockS bindS hs
  -- the name as the client stores and sends it
  have hT0 : ∀ c ∈ (cstr name).take 15, c ≠ 0 := cstr_take_no_nul name 15
  have hT1 : ((cstr name).take 15).length ≤ 15 := by
    rw [List.length_take]; exact Nat.min_le_left _ _
  have hT2 : ∀ c ∈ (cstr name).take 15, c < 256 := fun c hc =>
    hname c ((List.takeWhile_sublist _).subset (List.mem_of_mem_take hc))
  have hL : (strncpy cli0.m_impl.localName name 15).set 15 0
      = padNul 16 ((cstr name).take 15) := strncpy_set _ _ 15 hln
  have hN : (strncpy (List.replicate 16 0) (padNul 16 ((cstr name).take 15)) 15).set 15 0
      = padNul 16 ((cstr name).take 15) :=
    strncpy_set_padNul _ _ 15 (by simp) hT0 hT1
  have hbytes : connectDatagram (cli0.Connect sockC bindC resolved name t0).1.m_impl.localName
      = ConnectPacket.toBytes { header := { type := PacketType.CONNECT, playerId := 0 }
                                name := padNul 16 ((cstr name).take 15) } := by
    rw [c9, hL, connectDatagram, hN]
  obtain ⟨r1, r2⟩ := roundtrip_connect
    { header := { type := PacketType.CONNECT, playerId := 0 }
      name := padNul 16 ((cstr name).take 15) }
    ⟨by show PacketType.CONNECT < 256; decide, by show (0 : Nat) < 256; decide⟩
    (padNul_isChars 16 _ (by omega) hT2)
  have ht : getU8 (ConnectPacket.toBytes
      { header := { type := PacketType.CONNECT, playerId := 0 }
        name := padNul 16 ((cstr name).take 15) }) 0 = PacketType.CONNECT := rfl
  have hdisp : (srv0.StartServer port sockS bindS).1.m_impl.DispatchPacket GV
      (RawPacket.ofDatagram (ConnectPacket.toBytes
        { header := { type := PacketType.CONNECT, playerId := 0 }
          name := padNul 16 ((cstr name).take 15) }) addrCli) nmS
      = ({ (srv0.StartServer port sockS bindS).1.m_impl with
            clients := { addr := addrCli, id := 1, active := true
                         name := padNul 16 ((cstr name).take 15) }
              :: List.replicate 15 {}
            nextId := (1 + 1) % 256 },
          [Effect.send addrCli (ConnectAckPacket.toBytes
              { header := { type := PacketType.CONNECT_ACK, playerId := 1 }
                assignedId := 1 })]
            ++ (if nmS.OnPlayerJoined then
                  [Effect.playerJoined 1 (padNul 16 ((cstr name).take 15))] else [])) := by
    rw [ofDatagram_short _ _ (by rw [r1]; decide)]
    rw [DispatchPacket_server_connect GV _ _ nmS s1 ht (by simp only [r1]; decide)]
    simp only [r2]
    rw [Server_HandleConnect_idle _ _ _ _ s2, s3, hN]
  have hack : (cli0.Connect sockC bindC resolved name t0).1.m_impl.DispatchPacket GV
      (RawPacket.ofDatagram (ConnectAckPacket.toBytes
        { header := { type := PacketType.CONNECT_ACK, playerId := 1 }, assignedId := 1 })
        addr) nmC
      = (cli0.Connect sockC bindC resolved name t0).1.m_impl.Client_HandleConnectAck
          (ConnectAckPacket.ofBytes (ConnectAckPacket.toBytes
            { header := { type := PacketType.CONNECT_ACK, playerId := 1 }, assignedId := 1 }))
          nmC := by
    rw [ofDatagram_short _ _ (by decide)]
    rw [DispatchPacket_client_connectAck GV _ _ nmC c2 (by rfl) (Nat.le_refl _)]
  refine ⟨addr,
    ConnectPacket.toBytes { header := { type := PacketType.CONNECT, playerId := 0 }
                            name := padNul 16 ((cstr name).take 15) },
    ConnectAckPacket.toBytes
      { header := { type := PacketType.CONNECT_ACK, playerId := 1 }, assignedId := 1 },
    { addr := addrCli, id := 1, active := true, name := padNul 16 ((cstr name).take 15) },
    c1.trans (by rw [hbytes]), ?_, ?_, ?_, ?_, ?_, ?_⟩
  · rw [hdisp]
    cases nmS.OnPlayerJoined <;> simp [Effect.isSend, Effect.dest]
  · rw [hdisp]
    simp [List.replicate]
  · rfl
  · show cstr (padNul 16 ((cstr name).take 15)) = _
    rw [cstr_padNul 16 _ hT0 (by omega), cstr_take_nul]
  · rw [hack]
    simp [Impl.Client_HandleConnectAck, ConnectAckPacket.ofBytes, ConnectAckPacket.toBytes,
      PacketHeader.toBytes, putU8, getU8]
  · rw [hack]
    simp [Impl.Client_HandleConnectAck, ConnectAckPacket.ofBytes, ConnectAckPacket.toBytes,
      PacketHeader.toBytes, putU8, getU8]

theorem C8_connect_end_to_end_witness :
    ((({} : NetworkManager).StartServer DEFAULT_PORT (some 3) true).2 = true
      ∧ (({} : NetworkManager).Connect (some 4) true (some addrS) alice 0).2.1 = true
      ∧ ({} : NetworkManager).m_impl.localName.length = 16
      ∧ ∀ c ∈ alice, c < 256)
    ∧ ∃ addrSrv connectBytes ackBytes slot,
      (({} : NetworkManager).Connect (some 4) true (some addrS) alice 0).2.2 = [Effect.send addrSrv connectBytes]
      ∧ ((({} : NetworkManager).StartServer DEFAULT_PORT (some 3) true).1.m_impl.DispatchPacket []
            (RawPacket.ofDatagram connectBytes addrA) {}).2.filter Effect.isSend
          = [Effect.send addrA ackBytes]
      ∧ ((({} : NetworkManager).StartServer DEFAULT_PORT (some 3) true).1.m_impl.DispatchPacket []
            (RawPacket.ofDatagram connectBytes addrA) {}).1.clients.filter (fun s => s.active)
          = [slot]
      ∧ slot.name = padNul 16 ((cstr alice).take 15)
      ∧ cstr slot.name = cstr (alice.take 15 ++ [0])
      ∧ ((({} : NetworkManager).Connect (some 4) true (some addrS) alice 0).1.m_impl.DispatchPacket []
            (RawPacket.ofDatagram ackBytes addrSrv) {}).1.localId ≠ 0
      ∧ ((({} : NetworkManager).Connect (some 4) true (some addrS) alice 0).1.m_impl.DispatchPacket []
            (RawPacket.ofDatagram ackBytes addrSrv) {}).1.localId = slot.id :=
  ⟨⟨by decide, by decide, by decide, by decide⟩,
    C8_connect_end_to_end [] {} {} {} {} DEFAULT_PORT (some 3) (some 4) true true (some addrS)
      addrA alice 0 (by decide) (by decide) (by decide) (by decide)⟩
/-! ## End to end: a position update reaches the other client -/

theorem lookup_upsert (m : List (Nat × RemotePlayer)) (k : Nat) (f : RemotePlayer → RemotePlayer) :
    lookup (upsert m k f) k = some (f ((lookup m k).getD {})) := by
  induction m with
  | nil => simp [lookup, upsert]
  | cons e rest ih =>
    obtain ⟨k', v⟩ := e
    by_cases h : k' = k
    · simp [lookup, upsert, h]
    · simp only [lookup] at ih
      simp [lookup, upsert, h, ih]

theorem SendPlayerUpdate_client (nm : NetworkManager) (x y z yaw pitch : Nat)
    (hm : nm.m_impl.mode = Mode.Client) (hc : nm.m_impl.connected = true) :
    nm.SendPlayerUpdate x y z yaw pitch
      = (nm, [Effect.send nm.m_impl.serverAddr (PlayerUpdatePacket.toBytes
          { header := { type := PacketType.PLAYER_UPDATE, playerId := nm.m_impl.localId }
            posX := x, posY := y, posZ := z, rotX := yaw, rotY := pitch })]) := by
  simp [NetworkManager.SendPlayerUpdate, hm, hc]

theorem Server_HandlePlayerUpdate_accept (S : Impl) (data : List Nat) (a : sockaddr_in)
    (slot : ClientSlot) (hmem : slot ∈ S.clients) (hact : slot.active = true)
    (hid : slot.id = (PlayerUpdatePacket.ofBytes data).header.playerId)
    (hip : slot.addr.sin_addr = a.sin_addr) :
    (S.Server_HandlePlayerUpdate data a).2
      = S.Server_Broadcast (rawBytes data sizeof_PlayerUpdatePacket)
          (PlayerUpdatePacket.ofBytes data).header.playerId := by
  unfold Impl.Server_HandlePlayerUpdate
  cases hfind : S.clients.find? (fun slot => slot.active
      && slot.id == (PlayerUpdatePacket.ofBytes data).header.playerId
      && slot.addr.sin_addr == a.sin_addr) with
  | none =>
    have := List.find?_eq_none.mp hfind slot hmem
    simp [hact, hid, hip] at this
  | some s => simp only [hfind]

/-- A position update between two clients whose ids differ, which the server
does not guarantee (its one-byte id counter wraps): a server holds active
slots for two clients A and B whose local ids are the slot ids and differ. A,
connected, calls `SendPlayerUpdate(x, y, z, yaw, pitch)`; the server dispatches
the datagram A sent; it sends a datagram to B's address, and whichever datagram
it sent to B's address, once B dispatches it B's remote-player map has an
entry under A's id that holds exactly `x, y, z, yaw, pitch` (as 32-bit
patterns), A's id, and `active = true`. -/
theorem update_reaches_peer_of_distinct_ids (GV : List Nat) (nmS : NetworkManager) (S : Impl)
    (A B : NetworkManager) (slotA slotB : ClientSlot) (srcA srcS : sockaddr_in)
    (x y z yaw pitch : Nat)
    (hS : S.mode = Mode.Server)
    (hA : A.m_impl.mode = Mode.Client) (hAc : A.IsConnected = true)
    (hB : B.m_impl.mode = Mode.Client)
    (hsA : slotA ∈ S.clients) (hactA : slotA.active = true)
    (hidA : slotA.id = A.GetLocalId) (hipA : slotA.addr.sin_addr = srcA.sin_addr)
    (hsB : slotB ∈ S.clients) (hactB : slotB.active = true)
    (hidB : slotB.id = B.GetLocalId)
    (hne : A.GetLocalId ≠ B.GetLocalId) (hbyte : A.GetLocalId < 256)
    (hx : x < 2 ^ 32) (hy : y < 2 ^ 32) (hz : z < 2 ^ 32)
    (hyaw : yaw < 2 ^ 32) (hpitch : pitch < 2 ^ 32) :
    ∃ bytes,
      (A.SendPlayerUpdate x y z yaw pitch).2 = [Effect.send A.m_impl.serverAddr bytes]
      ∧ (∃ d, Effect.send slotB.addr d
          ∈ (S.DispatchPacket GV (RawPacket.ofDatagram bytes srcA) nmS).2)
      ∧ ∀ d, Effect.send slotB.addr d
            ∈ (S.DispatchPacket GV (RawPacket.ofDatagram bytes srcA) nmS).2 →
          ∃ rp, lookup (B.m_impl.DispatchPacket GV (RawPacket.ofDatagram d srcS) B).1.remotePlayers
                  A.GetLocalId = some rp
            ∧ rp.id = A.GetLocalId ∧ rp.posX = x ∧ rp.posY = y ∧ rp.posZ = z
            ∧ rp.rotX = yaw ∧ rp.rotY = pitch ∧ rp.active = true := by
  simp only [NetworkManager.GetLocalId, NetworkManager.IsConnected] at *
  obtain ⟨r1, r2⟩ := roundtrip_playerUpdate
    { header := { type := PacketType.PLAYER_UPDATE, playerId := A.m_impl.localId }
      posX := x, posY := y, posZ := z, rotX := yaw, rotY := pitch }
    ⟨by show PacketType.PLAYER_UPDATE < 256; decide, hbyte⟩ hx hy hz hyaw hpitch
  have ht : getU8 (PlayerUpdatePacket.toBytes
      { header := { type := PacketType.PLAYER_UPDATE, playerId := A.m_impl.localId }
        posX := x, posY := y, posZ := z, rotX := yaw, rotY := pitch }) 0
      = PacketType.PLAYER_UPDATE := rfl
  have hraw : rawBytes (PlayerUpdatePacket.toBytes
      { header := { type := PacketType.PLAYER_UPDATE, playerId := A.m_impl.localId }
        posX := x, posY := y, posZ := z, rotX := yaw, rotY := pitch })
      sizeof_PlayerUpdatePacket = PlayerUpdatePacket.toBytes
      { header := { type := PacketType.PLAYER_UPDATE, playerId := A.m_impl.localId }
        posX := x, posY := y, posZ := z, rotX := yaw, rotY := pitch } := by
    rw [← r1, rawBytes_of_bytes]
  have hsrv : (S.DispatchPacket GV (RawPacket.ofDatagram (PlayerUpdatePacket.toBytes
      { header := { type := PacketType.PLAYER_UPDATE, playerId := A.m_impl.localId }
        posX := x, posY := y, posZ := z, rotX := yaw, rotY := pitch }) srcA) nmS).2
      = S.Server_Broadcast (PlayerUpdatePacket.toBytes
          { header := { type := PacketType.PLAYER_UPDATE, playerId := A.m_impl.localId }
            posX := x, posY := y, posZ := z, rotX := yaw, rotY := pitch })
          A.m_impl.localId := by
    rw [ofDatagram_short _ _ (by rw [r1]; decide)]
    rw [DispatchPacket_server_playerUpdate GV _ _ nmS hS ht (by simp only [r1]; decide)]
    rw [Server_HandlePlayerUpdate_accept S _ srcA slotA hsA hactA (by simp only [r2, hidA]) hipA]
    simp only [r2, hraw]
  refine ⟨PlayerUpdatePacket.toBytes
      { header := { type := PacketType.PLAYER_UPDATE, playerId := A.m_impl.localId }
        posX := x, posY := y, posZ := z, rotX := yaw, rotY := pitch },
    by rw [SendPlayerUpdate_client A x y z yaw pitch hA hAc], ?_, ?_⟩
  · refine ⟨PlayerUpdatePacket.toBytes
      { header := { type := PacketType.PLAYER_UPDATE, playerId := A.m_impl.localId }
        posX := x, posY := y, posZ := z, rotX := yaw, rotY := pitch }, ?_⟩
    rw [hsrv, Impl.Server_Broadcast, List.mem_map]
    refine ⟨slotB, ?_, rfl⟩
    rw [List.mem_filter]
    refine ⟨hsB, ?_⟩
    simp only [hactB, Bool.true_and, bne_iff_ne, hidB]
    exact fun h => hne h.symm
  · intro d hd
    rw [hsrv, Impl.Server_Broadcast, List.mem_map] at hd
    obtain ⟨s, _, hs⟩ := hd
    have hd2 : d = PlayerUpdatePacket.toBytes
        { header := { type := PacketType.PLAYER_UPDATE, playerId := A.m_impl.localId }
          posX := x, posY := y, posZ := z, rotX := yaw, rotY := pitch } := by
      injection hs with _ h2
      exact h2.symm
    subst hd2
    rw [ofDatagram_short _ _ (by rw [r1]; decide)]
    rw [DispatchPacket_client_playerUpdate GV _ _ B hB ht (by simp only [r1]; decide)]
    simp only [r2, Impl.Client_HandlePlayerUpdate]
    have hne2 : (A.m_impl.localId == B.m_impl.localId) = false := by
      simpa using hne
    simp only [hne2, Bool.false_eq_true, if_false, lookup_upsert]
    exact ⟨_, rfl, rfl, rfl, rfl, rfl, rfl, rfl, rfl⟩
/-! ## Server-info requests -/

/-- C10: in server mode, dispatching a packet tagged `SERVER_INFO_REQ` leaves
the whole session state unchanged, invokes no callback and sends exactly one
server-info response, to the requester: header type `SERVER_INFO_RESP` with
sender id 0, `playerCount` the number of active slots, `maxPlayers` 16, `port`
the bound port, and `pakName` the stored pack name. When the stored name is
what `SetHostedPakName(name)` wrote, `pakName` holds the characters of `name`
up to its first NUL, at most 31 of them, padded with NUL, which as a C string
is `name` cut to its first 31 bytes and NUL-terminated. -/
theorem C10_server_info_reply (GV : List Nat) (s : Impl) (rp : RawPacket)
    (cb nm0 : NetworkManager) (name : List Nat)
    (hm : s.mode = Mode.Server)
    (ht : getU8 rp.data 0 = PacketType.SERVER_INFO_REQ)
    (hcl : s.clients.length = MAX_PLAYERS)
    (hlen : nm0.m_impl.hostedPakName.length = 32)
    (hset : s.hostedPakName = (nm0.SetHostedPakName (some name)).m_impl.hostedPakName) :
    ∃ resp, s.DispatchPacket GV rp cb = (s, [Effect.sendInfo rp.from_ resp GV])
      ∧ resp.header = { type := PacketType.SERVER_INFO_RESP, playerId := 0 }
      ∧ resp.playerCount = (s.clients.filter (fun c => c.active)).length
      ∧ resp.maxPlayers = MAX_PLAYERS
      ∧ resp.port = s.boundPort
      ∧ resp.pakName = s.hostedPakName
      ∧ resp.pakName = padNul 32 ((cstr name).take 31)
      ∧ cstr resp.pakName = cstr (name.take 31 ++ [0]) := by
  have hT0 : ∀ c ∈ (cstr name).take 31, c ≠ 0 := cstr_take_no_nul name 31
  have hT1 : ((cstr name).take 31).length ≤ 31 := by
    rw [List.length_take]; exact Nat.min_le_left _ _
  have hpak : s.hostedPakName = padNul 32 ((cstr name).take 31) := by
    rw [hset]
    exact strncpy_set _ _ 31 hlen
  have hraw : rawBytes s.hostedPakName 32 = s.hostedPakName := by
    have h32 : s.hostedPakName.length = 32 := by
      rw [hpak]; exact padNul_length 32 _ (by omega)
    have := rawBytes_of_bytes s.hostedPakName
    rwa [h32] at this
  have hcount : (s.clients.filter (fun c => c.active)).length % 256
      = (s.clients.filter (fun c => c.active)).length := by
    apply Nat.mod_eq_of_lt
    have := List.length_filter_le (fun c : ClientSlot => c.active) s.clients
    rw [hcl] at this
    simp only [MAX_PLAYERS] at this
    omega
  refine ⟨{ header := { type := PacketType.SERVER_INFO_RESP, playerId := 0 }
            playerCount := (s.clients.filter (fun c => c.active)).length
            maxPlayers := MAX_PLAYERS
            port := s.boundPort
            pakName := s.hostedPakName }, ?_, rfl, rfl, rfl, rfl, rfl, hpak, ?_⟩
  · rw [DispatchPacket_server_infoReq GV s rp cb hm ht]
    simp only [Impl.Server_HandleServerInfoReq, hraw, hcount]
  · show cstr s.hostedPakName = _
    rw [hpak, cstr_padNul 32 _ hT0 (by omega), cstr_take_nul]

theorem C10_server_info_reply_witness :
    ((serverAB.SetHostedPakName (some myPak)).m_impl.mode = Mode.Server
      ∧ getU8 (infoReqFrom addrC).data 0 = PacketType.SERVER_INFO_REQ
      ∧ (serverAB.SetHostedPakName (some myPak)).m_impl.clients.length = MAX_PLAYERS
      ∧ serverAB.m_impl.hostedPakName.length = 32)
    ∧ ∃ resp, (serverAB.SetHostedPakName (some myPak)).m_impl.DispatchPacket [] (infoReqFrom addrC)
          {}
        = ((serverAB.SetHostedPakName (some myPak)).m_impl,
            [Effect.sendInfo (infoReqFrom addrC).from_ resp []])
      ∧ resp.header = { type := PacketType.SERVER_INFO_RESP, playerId := 0 }
      ∧ resp.playerCount
          = ((serverAB.SetHostedPakName (some myPak)).m_impl.clients.filter
              (fun c => c.active)).length
      ∧ resp.maxPlayers = MAX_PLAYERS
      ∧ resp.port = (serverAB.SetHostedPakName (some myPak)).m_impl.boundPort
      ∧ resp.pakName = (serverAB.SetHostedPakName (some myPak)).m_impl.hostedPakName
      ∧ resp.pakName = padNul 32 ((cstr myPak).take 31)
      ∧ cstr resp.pakName = cstr (myPak.take 31 ++ [0]) :=
  ⟨⟨by decide, by decide, by decide, by decide⟩,
    C10_server_info_reply [] (serverAB.SetHostedPakName (some myPak)).m_impl (infoReqFrom addrC)
      {} serverAB myPak (by decide) (by decide) (by decide) (by decide) rfl⟩
/-! ## The host's own position updates -/

/-- C11 (the code breaks it): `Server_Broadcast` is called without an
`excludeId`, whose default `0xFF` is an id the counter does hand out. In the
server state reached from `StartServer` by A joining and B joining and leaving
253 times and joining again, B's slot is active with id 255, and the host's
`SendPlayerUpdate` sends one datagram, to A, and none to B. -/
theorem C11_host_update_skips_id_255 (GV : List Nat) (nm : NetworkManager) :
    ((freshServer.dispatchAll GV nm hostSkipTrace).1.clients.filter (fun s => s.active)).map
        (fun s => (s.addr, s.id)) = [(addrA, 1), (addrB, 255)]
    ∧ (freshServer.dispatchAll GV nm hostSkipTrace).1.mode = Mode.Server
    ∧ (({ m_impl := (freshServer.dispatchAll GV nm hostSkipTrace).1 } :
          NetworkManager).SendPlayerUpdate 7 8 9 10 11).2
        = [Effect.send addrA (PlayerUpdatePacket.toBytes
            { header := { type := PacketType.PLAYER_UPDATE, playerId := 0 }
              posX := 7, posY := 8, posZ := 9, rotX := 10, rotY := 11 })] := by
  have h : hostSkipTrace = ([connectFrom addrA] ++ churn (251 + 2)) ++ [connectFrom addrB] := rfl
  have e : (freshServer.dispatchAll GV nm hostSkipTrace).1 = churnMid 255 := by
    rw [h, dispatchAll_append_fst, freshServer_churn, dispatchAll_single, churnState_connectB]
  rw [e]
  exact ⟨by decide, rfl, by decide⟩

/-! ## A full server -/

/-- C12: in server mode, when every slot of the table is active and none is
bound to the source (IP address, port) of a full-size `Connect`, dispatching
it returns the state unchanged (slot table and id counter included) with no
effect at all: no datagram, no callback. -/
theorem C12_full_server_refuses (GV : List Nat) (s : Impl) (rp : RawPacket)
    (nm : NetworkManager) (hm : s.mode = Mode.Server)
    (ht : getU8 rp.data 0 = PacketType.CONNECT) (hl : sizeof_ConnectPacket ≤ rp.len)
    (hfull : ∀ slot ∈ s.clients, slot.active = true)
    (hnew : ∀ slot ∈ s.clients, slot.active = true →
      ¬ (slot.addr.sin_addr = rp.from_.sin_addr ∧ slot.addr.sin_port = rp.from_.sin_port)) :
    s.DispatchPacket GV rp nm = (s, []) := by
  rw [DispatchPacket_server_connect GV s rp nm hm ht hl]
  have h1 : s.clients.find? (fun slot => slot.active
      && slot.addr.sin_addr == rp.from_.sin_addr && slot.addr.sin_port == rp.from_.sin_port)
      = none := by
    rw [List.find?_eq_none]
    intro slot hmem
    have := hnew slot hmem (hfull slot hmem)
    simp only [Bool.and_eq_true, beq_iff_eq, hfull slot hmem, true_and]
    exact this
  have h2 : s.clients.findIdx? (fun s => !s.active) = none := by
    rw [List.findIdx?_eq_none_iff]
    intro slot hmem
    simp [hfull slot hmem]
  simp only [Impl.Server_HandleConnect, h1, h2]

theorem C12_full_server_refuses_witness :
    (fullServer.mode = Mode.Server
      ∧ getU8 (connectFrom addrC).data 0 = PacketType.CONNECT
      ∧ sizeof_ConnectPacket ≤ (connectFrom addrC).len
      ∧ (∀ slot ∈ fullServer.clients, slot.active = true)
      ∧ ∀ slot ∈ fullServer.clients, slot.active = true →
          ¬ (slot.addr.sin_addr = (connectFrom addrC).from_.sin_addr
            ∧ slot.addr.sin_port = (connectFrom addrC).from_.sin_port))
    ∧ fullServer.DispatchPacket [] (connectFrom addrC) {} = (fullServer, []) :=
  ⟨⟨rfl, by decide, by decide, by decide, by decide⟩,
    C12_full_server_refuses [] fullServer (connectFrom addrC) {} rfl (by decide) (by decide)
      (by decide) (by decide)⟩

/-! ## Undersized packets -/

/-- C13: in every mode, a queued packet of at least 2 bytes that is shorter
than the struct its type tag names is dropped: `DispatchPacket` returns the
session state unchanged and no effect (no datagram, no callback). -/
theorem C13_short_packet_dropped (GV : List Nat) (s : Impl) (rp : RawPacket)
    (nm : NetworkManager) (sz : Nat)
    (hsz : sizeofPacketType (getU8 rp.data 0) = some sz)
    (h2 : sizeof_PacketHeader ≤ rp.len) (hshort : rp.len < sz) :
    s.DispatchPacket GV rp nm = (s, []) := by
  simp only [sizeof_PacketHeader] at h2
  have hc : getU8 rp.data 0 = 1 → ¬ 18 ≤ rp.len := by
    intro h; rw [h] at hsz
    have e : sizeofPacketType 1 = some 18 := rfl
    rw [e] at hsz; injection hsz with hsz; omega
  have hca : getU8 rp.data 0 = 2 → ¬ 3 ≤ rp.len := by
    intro h; rw [h] at hsz
    have e : sizeofPacketType 2 = some 3 := rfl
    rw [e] at hsz; injection hsz with hsz; omega
  have hd : getU8 rp.data 0 ≠ 3 := by
    intro h; rw [h] at hsz
    have e : sizeofPacketType 3 = some 2 := rfl
    rw [e] at hsz; injection hsz with hsz; omega
  have hpu : getU8 rp.data 0 = 16 → ¬ 22 ≤ rp.len := by
    intro h; rw [h] at hsz
    have e : sizeofPacketType 16 = some 22 := rfl
    rw [e] at hsz; injection hsz with hsz; omega
  have hreq : getU8 rp.data 0 ≠ 48 := by
    intro h; rw [h] at hsz
    have e : sizeofPacketType 48 = some 2 := rfl
    rw [e] at hsz; injection hsz with hsz; omega
  unfold Impl.DispatchPacket
  simp only [PacketHeader.ofBytes, PacketType.SERVER_INFO_REQ, PacketType.CONNECT,
    PacketType.DISCONNECT, PacketType.PLAYER_UPDATE, PacketType.CONNECT_ACK, beq_iff_eq,
    sizeof_ConnectPacket, sizeof_DisconnectPacket, sizeof_PlayerUpdatePacket,
    sizeof_ConnectAckPacket, ge_iff_le]
  split_ifs <;> first | rfl | (exfalso; simp_all)

theorem C13_short_packet_dropped_witness :
    (sizeofPacketType (getU8 (shortConnectFrom addrC).data 0) = some sizeof_ConnectPacket
      ∧ sizeof_PacketHeader ≤ (shortConnectFrom addrC).len
      ∧ (shortConnectFrom addrC).len < sizeof_ConnectPacket)
    ∧ freshServer.DispatchPacket [] (shortConnectFrom addrC) {} = (freshServer, []) :=
  ⟨⟨by decide, by decide, by decide⟩,
    C13_short_packet_dropped [] freshServer (shortConnectFrom addrC) {} sizeof_ConnectPacket
      (by decide) (by decide) (by decide)⟩
/-! ## What dispatching never touches -/

theorem Server_HandleConnect_frame (s : Impl) (pkt : ConnectPacket) (a : sockaddr_in)
    (nm : NetworkManager) :
    (s.Server_HandleConnect pkt a nm).1.recvQueue = s.recvQueue
    ∧ (s.Server_HandleConnect pkt a nm).1.pingResults = s.pingResults
    ∧ (s.Server_HandleConnect pkt a nm).1.mode = s.mode
    ∧ (s.Server_HandleConnect pkt a nm).1.running = s.running
    ∧ (s.Server_HandleConnect pkt a nm).1.remotePlayers = s.remotePlayers
    ∧ (∀ r, Effect.serverInfo r ∉ (s.Server_HandleConnect pkt a nm).2) := by
  unfold Impl.Server_HandleConnect
  split
  · simp
  · split
    · simp
    · refine ⟨rfl, rfl, rfl, rfl, rfl, ?_⟩
      intro r
      simp only [Impl.Server_Broadcast, List.mem_append, List.mem_cons, List.mem_map,
        List.not_mem_nil, or_false, not_or]
      refine ⟨⟨by simp, by simp⟩, ?_⟩
      split_ifs <;> simp

theorem Server_HandleDisconnect_frame (s : Impl) (pkt : DisconnectPacket) (a : sockaddr_in)
    (nm : NetworkManager) :
    (s.Server_HandleDisconnect pkt a nm).1.recvQueue = s.recvQueue
    ∧ (s.Server_HandleDisconnect pkt a nm).1.pingResults = s.pingResults
    ∧ (s.Server_HandleDisconnect pkt a nm).1.mode = s.mode
    ∧ (s.Server_HandleDisconnect pkt a nm).1.running = s.running
    ∧ (s.Server_HandleDisconnect pkt a nm).1.remotePlayers = s.remotePlayers
    ∧ (∀ r, Effect.serverInfo r ∉ (s.Server_HandleDisconnect pkt a nm).2) := by
  unfold Impl.Server_HandleDisconnect
  split
  · simp
  · refine ⟨rfl, rfl, rfl, rfl, rfl, ?_⟩
    intro r
    simp only [Impl.Server_Broadcast, List.mem_append, List.mem_map, not_or]
    refine ⟨by simp, ?_⟩
    split_ifs <;> simp

theorem Server_HandlePlayerUpdate_frame (s : Impl) (data : List Nat) (a : sockaddr_in) :
    (s.Server_HandlePlayerUpdate data a).1.recvQueue = s.recvQueue
    ∧ (s.Server_HandlePlayerUpdate data a).1.pingResults = s.pingResults
    ∧ (s.Server_HandlePlayerUpdate data a).1.mode = s.mode
    ∧ (s.Server_HandlePlayerUpdate data a).1.running = s.running
    ∧ (s.Server_HandlePlayerUpdate data a).1.clients = s.clients
    ∧ (∀ r, Effect.serverInfo r ∉ (s.Server_HandlePlayerUpdate data a).2) := by
  unfold Impl.Server_HandlePlayerUpdate
  simp only
  split
  · refine ⟨rfl, rfl, rfl, rfl, rfl, ?_⟩
    intro r
    simp [Impl.Server_Broadcast]
  · simp

/-- Dispatching one packet leaves the inbound queue, the ping results, the
mode and the running flag alone, and never calls `OnServerInfo`. -/
theorem DispatchPacket_frame (GV : List Nat) (s : Impl) (rp : RawPacket) (nm : NetworkManager) :
    (s.DispatchPacket GV rp nm).1.recvQueue = s.recvQueue
    ∧ (s.DispatchPacket GV rp nm).1.pingResults = s.pingResults
    ∧ (s.DispatchPacket GV rp nm).1.mode = s.mode
    ∧ (s.DispatchPacket GV rp nm).1.running = s.running
    ∧ (∀ r, Effect.serverInfo r ∉ (s.DispatchPacket GV rp nm).2) := by
  obtain ⟨a1, a2, a3, a4, _, a6⟩ :=
    Server_HandleConnect_frame s (ConnectPacket.ofBytes rp.data) rp.from_ nm
  obtain ⟨b1, b2, b3, b4, _, b6⟩ :=
    Server_HandleDisconnect_frame s (DisconnectPacket.ofBytes rp.data) rp.from_ nm
  obtain ⟨c1, c2, c3, c4, _, c6⟩ := Server_HandlePlayerUpdate_frame s rp.data rp.from_
  unfold Impl.DispatchPacket
  simp only
  split_ifs
  · simp [Impl.Server_HandleServerInfoReq]
  · exact ⟨a1, a2, a3, a4, a6⟩
  · simp
  · exact ⟨b1, b2, b3, b4, b6⟩
  · simp
  · exact ⟨c1, c2, c3, c4, c6⟩
  · simp
  · simp
  · simp only [Impl.Client_HandleConnectAck]
    split_ifs <;> simp
  · simp
  · simp only [Impl.Client_HandleDisconnect]
    split_ifs <;> simp
  · simp
  · simp only [Impl.Client_HandlePlayerUpdate]
    split_ifs <;> simp
  · simp
  · simp
  · simp

/-! ## `Update()` -/

theorem dispatchAll_eq_foldDispatch_aux (GV : List Nat) (nm : NetworkManager)
    (q : List RawPacket) (s : Impl) (acc : List Effect) :
    q.foldl (fun a rp =>
        ((a.1.DispatchPacket GV rp nm).1, a.2 ++ (a.1.DispatchPacket GV rp nm).2)) (s, acc)
      = ((s.dispatchAll GV nm q).1, acc ++ (s.dispatchAll GV nm q).2) := by
  induction q generalizing s acc with
  | nil => simp [Impl.dispatchAll]
  | cons rp rest ih =>
    rw [List.foldl_cons, ih]
    simp [Impl.dispatchAll, List.append_assoc]

theorem dispatchAll_eq_foldDispatch (GV : List Nat) (nm : NetworkManager)
    (q : List RawPacket) (s : Impl) :
    s.dispatchAll GV nm q = foldDispatch GV nm s q := by
  rw [foldDispatch, dispatchAll_eq_foldDispatch_aux]
  simp

theorem dispatchAll_frame (GV : List Nat) (nm : NetworkManager) (q : List RawPacket) :
    ∀ s : Impl, (s.dispatchAll GV nm q).1.recvQueue = s.recvQueue
      ∧ (s.dispatchAll GV nm q).1.pingResults = s.pingResults
      ∧ (s.dispatchAll GV nm q).1.mode = s.mode
      ∧ (s.dispatchAll GV nm q).1.running = s.running
      ∧ (∀ r, Effect.serverInfo r ∉ (s.dispatchAll GV nm q).2) := by
  induction q with
  | nil => intro s; simp [Impl.dispatchAll]
  | cons rp rest ih =>
    intro s
    obtain ⟨d1, d2, d3, d4, d5⟩ := DispatchPacket_frame GV s rp nm
    obtain ⟨i1, i2, i3, i4, i5⟩ := ih (s.DispatchPacket GV rp nm).1
    simp only [Impl.dispatchAll]
    refine ⟨i1.trans d1, i2.trans d2, i3.trans d3, i4.trans d4, ?_⟩
    intro r hr
    rw [List.mem_append] at hr
    rcases hr with hr | hr
    · exact d5 r hr
    · exact i5 r hr

/-- C14: `Update()` takes the whole inbound queue and dispatches its packets
one by one in queue order: the session state it leaves is the left fold of
`DispatchPacket` over the queue contents, started from the state with the
queue emptied (the ping results, drained afterwards when `OnServerInfo` is
set, apart), the effects are those of the fold, in order, followed by the
`OnServerInfo` calls, and the inbound queue is empty afterwards. -/
theorem C14_update_dispatches_queue_in_order (GV : List Nat) (nm : NetworkManager) :
    (nm.Update GV).1.m_impl.recvQueue = []
    ∧ (nm.Update GV).1.m_impl
        = { (foldDispatch GV nm { nm.m_impl with recvQueue := [] } nm.m_impl.recvQueue).1 with
            pingResults := if nm.OnServerInfo then [] else nm.m_impl.pingResults }
    ∧ (nm.Update GV).2
        = (foldDispatch GV nm { nm.m_impl with recvQueue := [] } nm.m_impl.recvQueue).2
          ++ (if nm.OnServerInfo then nm.m_impl.pingResults.map Effect.serverInfo else [])
    ∧ (nm.Update GV).1.OnPlayerJoined = nm.OnPlayerJoined
    ∧ (nm.Update GV).1.OnPlayerLeft = nm.OnPlayerLeft
    ∧ (nm.Update GV).1.OnServerInfo = nm.OnServerInfo := by
  obtain ⟨f1, f2, _, _, _⟩ :=
    dispatchAll_frame GV nm nm.m_impl.recvQueue { nm.m_impl with recvQueue := [] }
  simp only at f1 f2
  rw [← dispatchAll_eq_foldDispatch]
  unfold NetworkManager.Update
  simp only
  split_ifs with h
  · refine ⟨f1, ?_, ?_, rfl, rfl, rfl⟩
    · rfl
    · simp only [f2]
  · have heta : ∀ (x : Impl) (p : List PingResult), x.pingResults = p →
        x = { x with pingResults := p } := by
      intro x p hp; subst hp; rfl
    exact ⟨f1, heta _ _ f2, by simp, rfl, rfl, rfl⟩
/-! ## Snapshots after a `Disconnect` -/

/-- C15 (the code breaks it): on a server, A joins (id 1), sends a
`PlayerUpdate` and then a `Disconnect` from its address. `Server_HandleDisconnect`
frees the slot but never erases the snapshot: the remote-player map still has
the entry for id 1. -/
theorem C15_server_keeps_snapshot_of_leaver :
    ((freshServer.dispatchAll [] {} [connectFrom addrA, updateAs1From addrA]).1.clients.filter
        (fun s => s.active)).map (fun s => (s.addr, s.id)) = [(addrA, 1)]
    ∧ (freshServer.dispatchAll [] {}
        [connectFrom addrA, updateAs1From addrA, disconnectFrom addrA]).1.clients.filter
          (fun s => s.active) = []
    ∧ lookup (({ m_impl := (freshServer.dispatchAll [] {}
          [connectFrom addrA, updateAs1From addrA, disconnectFrom addrA]).1 } :
          NetworkManager).GetRemotePlayers) 1
        = some { id := 1, posX := 7, posY := 8, posZ := 9, rotX := 10, rotY := 11
                 active := true } := by
  decide

/-! ## `StopServer()` on a client -/

/-- C16 (the code breaks it): a client connects, is acknowledged with id 1, and
the owner calls `StopServer()`, which stops the session without resetting
`connected` and `localId`. The next `Connect()` succeeds, and right after it,
with nothing queued and no `ConnectAck` dispatched since, `IsConnected()` is
true and `GetLocalId()` is 1. -/
theorem C16_connect_after_stop_starts_connected :
    stoppedClient.m_impl.running = false
    ∧ (stoppedClient.Connect (some 5) true (some addrS) alice 10).2.1 = true
    ∧ (stoppedClient.Connect (some 5) true (some addrS) alice 10).1.m_impl.recvQueue = []
    ∧ (stoppedClient.Connect (some 5) true (some addrS) alice 10).1.IsConnected = true
    ∧ (stoppedClient.Connect (some 5) true (some addrS) alice 10).1.GetLocalId = 1 := by
  decide
/-! ## After the retry cap -/

/-- C18: while the receive loop is running, `Disconnect()` sends one
`Disconnect` packet to the server, with the current local id as sender id, if
the client was connected, and nothing otherwise; afterwards the session is not
connected, the local id is 0, the remote-player map is empty, the mode is
`None` and the loop is stopped. When nothing is running, `Disconnect()` returns
the object unchanged and sends nothing. -/
theorem C18_disconnect (nm : NetworkManager) :
    (nm.m_impl.running = true →
      nm.Disconnect.2
          = (if nm.IsConnected then
              [Effect.send nm.m_impl.serverAddr (DisconnectPacket.toBytes
                { header := { type := PacketType.DISCONNECT, playerId := nm.GetLocalId } })]
             else [])
        ∧ nm.Disconnect.1.IsConnected = false
        ∧ nm.Disconnect.1.GetLocalId = 0
        ∧ nm.Disconnect.1.GetRemotePlayers = []
        ∧ nm.Disconnect.1.GetMode = Mode.None
        ∧ nm.Disconnect.1.m_impl.running = false)
    ∧ (nm.m_impl.running = false → nm.Disconnect = (nm, [])) := by
  constructor
  · intro hr
    simp [NetworkManager.Disconnect, hr, NetworkManager.IsConnected, NetworkManager.GetLocalId,
      NetworkManager.GetRemotePlayers, NetworkManager.GetMode, Impl.CloseSocket]
  · intro hr
    simp [NetworkManager.Disconnect, hr]

theorem C18_disconnect_witness :
    clientA.m_impl.running = true
    ∧ clientA.Disconnect.2 = [Effect.send addrS [3, 1]]
    ∧ clientA.Disconnect.1.IsConnected = false
    ∧ clientA.Disconnect.1.GetLocalId = 0
    ∧ clientA.Disconnect.1.GetRemotePlayers = []
    ∧ clientA.Disconnect.1.GetMode = Mode.None :=
  have h := (C18_disconnect clientA).1 rfl
  ⟨rfl, h.1.trans (by decide), h.2.1, h.2.2.1, h.2.2.2.1, h.2.2.2.2.1⟩

/-! ## Ping results in `Update()` -/

theorem filterMap_asServerInfo_nil (l : List Effect) (h : ∀ r, Effect.serverInfo r ∉ l) :
    l.filterMap Effect.asServerInfo = [] := by
  rw [List.filterMap_eq_nil_iff]
  intro e he
  cases e with
  | serverInfo r => exact absurd he (h r)
  | send a d => rfl
  | sendInfo a p g => rfl
  | playerJoined i nme => rfl
  | playerLeft i => rfl

theorem filterMap_asServerInfo_map (l : List PingResult) :
    (l.map Effect.serverInfo).filterMap Effect.asServerInfo = l := by
  induction l with
  | nil => rfl
  | cons x xs ih => simp [Effect.asServerInfo, List.filterMap_cons, ih]

/-- C19 as stated fails: with no `OnServerInfo` callback set, `Update()` leaves
the waiting ping result in the buffer and delivers nothing. -/
theorem C19_results_stay_without_callback :
    (pingWaiting.Update []).1.m_impl.pingResults = [pingOfS]
    ∧ (pingWaiting.Update []).2 = [] := by
  decide

/-- C19, amended: when `OnServerInfo` is set, after `Update()` the ping results
buffer is empty and the `OnServerInfo` calls made by that `Update()` are
exactly the results that were in the buffer, once each, in buffer order, after
all packet dispatching; when it is not set, `Update()` leaves the buffer as it
was and makes no `OnServerInfo` call. -/
theorem C19_update_drains_ping_results (GV : List Nat) (nm : NetworkManager) :
    (nm.OnServerInfo = true →
      (nm.Update GV).1.m_impl.pingResults = []
      ∧ (nm.Update GV).2.filterMap Effect.asServerInfo = nm.m_impl.pingResults
      ∧ (nm.Update GV).2
          = (foldDispatch GV nm { nm.m_impl with recvQueue := [] } nm.m_impl.recvQueue).2
            ++ nm.m_impl.pingResults.map Effect.serverInfo)
    ∧ (nm.OnServerInfo = false →
      (nm.Update GV).1.m_impl.pingResults = nm.m_impl.pingResults
      ∧ (nm.Update GV).2.filterMap Effect.asServerInfo = []) := by
  obtain ⟨_, f2, _, _, f5⟩ :=
    dispatchAll_frame GV nm nm.m_impl.recvQueue { nm.m_impl with recvQueue := [] }
  simp only at f2
  have hnil := filterMap_asServerInfo_nil _ f5
  rw [← dispatchAll_eq_foldDispatch]
  constructor
  · intro h
    simp only [NetworkManager.Update, h, if_true, f2, List.filterMap_append, hnil,
      List.nil_append, filterMap_asServerInfo_map, and_self]
  · intro h
    simp only [NetworkManager.Update, h, Bool.false_eq_true, if_false, f2, hnil, and_self]

theorem C19_update_drains_ping_results_witness :
    ({ pingWaiting with OnServerInfo := true } : NetworkManager).OnServerInfo = true
    ∧ (({ pingWaiting with OnServerInfo := true } : NetworkManager).Update []).1.m_impl.pingResults
        = []
    ∧ (({ pingWaiting with OnServerInfo := true } : NetworkManager).Update []).2.filterMap
          Effect.asServerInfo = pingWaiting.m_impl.pingResults :=
  have h := (C19_update_drains_ping_results [] { pingWaiting with OnServerInfo := true }).1 rfl
  ⟨rfl, h.1, h.2.1⟩
/-! ## Dispatching does not look at the inbound queue -/

theorem Server_HandleConnect_recvQueue (s : Impl) (pkt : ConnectPacket) (a : sockaddr_in)
    (nm : NetworkManager) (q : List RawPacket) :
    ({ s with recvQueue := q } : Impl).Server_HandleConnect pkt a nm
      = ({ (s.Server_HandleConnect pkt a nm).1 with recvQueue := q },
          (s.Server_HandleConnect pkt a nm).2) := by
  unfold Impl.Server_HandleConnect
  simp only
  split
  · rfl
  · split <;> rfl

theorem Server_HandleDisconnect_recvQueue (s : Impl) (pkt : DisconnectPacket)
    (a : sockaddr_in) (nm : NetworkManager) (q : List RawPacket) :
    ({ s with recvQueue := q } : Impl).Server_HandleDisconnect pkt a nm
      = ({ (s.Server_HandleDisconnect pkt a nm).1 with recvQueue := q },
          (s.Server_HandleDisconnect pkt a nm).2) := by
  unfold Impl.Server_HandleDisconnect
  simp only
  split <;> rfl

theorem Server_HandlePlayerUpdate_recvQueue (s : Impl) (data : List Nat) (a : sockaddr_in)
    (q : List RawPacket) :
    ({ s with recvQueue := q } : Impl).Server_HandlePlayerUpdate data a
      = ({ (s.Server_HandlePlayerUpdate data a).1 with recvQueue := q },
          (s.Server_HandlePlayerUpdate data a).2) := by
  unfold Impl.Server_HandlePlayerUpdate
  simp only
  split <;> rfl

theorem DispatchPacket_recvQueue (GV : List Nat) (s : Impl) (rp : RawPacket)
    (nm : NetworkManager) (q : List RawPacket) :
    ({ s with recvQueue := q } : Impl).DispatchPacket GV rp nm
      = ({ (s.DispatchPacket GV rp nm).1 with recvQueue := q },
          (s.DispatchPacket GV rp nm).2) := by
  unfold Impl.DispatchPacket
  simp only
  split_ifs
  · rfl
  · exact Server_HandleConnect_recvQueue s _ _ nm q
  · rfl
  · exact Server_HandleDisconnect_recvQueue s _ _ nm q
  · rfl
  · exact Server_HandlePlayerUpdate_recvQueue s _ _ q
  · rfl
  · rfl
  · rfl
  · rfl
  · simp only [Impl.Client_HandleDisconnect]
    split_ifs <;> rfl
  · rfl
  · simp only [Impl.Client_HandlePlayerUpdate]
    split_ifs <;> rfl
  · rfl
  · rfl
  · rfl

/-! ## Interleavings of the receive thread and `Update()` -/

theorem RecvLoop_recv_eq (s : Impl) (n : Int) (buf : List Nat) (a : sockaddr_in) :
    s.RecvLoop_recv n buf a
      = { s with recvQueue := s.recvQueue ++ (RawPacket.received n buf a).toList } := by
  unfold Impl.RecvLoop_recv RawPacket.received
  split_ifs <;> simp

theorem foldDispatch_snoc (GV : List Nat) (nm : NetworkManager) (s : Impl)
    (q : List RawPacket) (rp : RawPacket) :
    foldDispatch GV nm s (q ++ [rp])
      = (((foldDispatch GV nm s q).1.DispatchPacket GV rp nm).1,
          (foldDispatch GV nm s q).2 ++ ((foldDispatch GV nm s q).1.DispatchPacket GV rp nm).2) := by
  simp [foldDispatch, List.foldl_append]

/-- One step keeps the two invariants of the hand-over: nothing is lost,
duplicated or reordered, and the session state is the fold of `DispatchPacket`
over the packets dispatched so far. -/
theorem QueueSys_step_inv (GV : List Nat) (nm : NetworkManager) (base : Impl)
    (sys sys1 : QueueSys) (st : QueueStep) (pre : List RawPacket)
    (hstep : sys.step GV nm st = some sys1)
    (h1 : sys.dispatched ++ sys.local_ ++ sys.impl.recvQueue = pre)
    (h2 : (({ sys.impl with recvQueue := [] } : Impl), sys.effects)
      = foldDispatch GV nm base sys.dispatched) :
    sys1.dispatched ++ sys1.local_ ++ sys1.impl.recvQueue = pre ++ enqueuedBy [st]
    ∧ (({ sys1.impl with recvQueue := [] } : Impl), sys1.effects)
      = foldDispatch GV nm base sys1.dispatched := by
  cases st with
  | recv n buf a =>
    simp only [QueueSys.step, Option.some.injEq] at hstep
    subst hstep
    simp only [RecvLoop_recv_eq]
    refine ⟨?_, h2⟩
    rw [← h1]
    cases hr : RawPacket.received n buf a <;> simp [enqueuedBy, hr]
  | swap =>
    simp only [QueueSys.step] at hstep
    cases hl : sys.local_ with
    | nil =>
      rw [hl] at hstep
      simp only [Option.some.injEq] at hstep
      subst hstep
      rw [hl] at h1
      refine ⟨?_, h2⟩
      simpa [enqueuedBy] using h1
    | cons x xs =>
      rw [hl] at hstep
      simp at hstep
  | dispatchFront =>
    simp only [QueueSys.step] at hstep
    cases hl : sys.local_ with
    | nil =>
      rw [hl] at hstep
      simp at hstep
    | cons rp rest =>
      rw [hl] at hstep
      simp only [Option.some.injEq] at hstep
      subst hstep
      obtain ⟨f1, _⟩ := DispatchPacket_frame GV sys.impl rp nm
      rw [hl] at h1
      refine ⟨?_, ?_⟩
      · simp only [f1, enqueuedBy, List.append_nil]
        rw [← h1]
        simp
      · simp only
        rw [foldDispatch_snoc, ← h2]
        simp only
        rw [DispatchPacket_recvQueue GV sys.impl rp nm []]

theorem enqueuedBy_cons (st : QueueStep) (rest : List QueueStep) :
    enqueuedBy (st :: rest) = enqueuedBy [st] ++ enqueuedBy rest := by
  cases st with
  | recv n buf a =>
    cases hr : RawPacket.received n buf a <;> simp [enqueuedBy, hr]
  | swap => simp [enqueuedBy]
  | dispatchFront => simp [enqueuedBy]

theorem QueueSys_run_inv (GV : List Nat) (nm : NetworkManager) (base : Impl)
    (steps : List QueueStep) :
    ∀ (sys sys1 : QueueSys) (pre : List RawPacket),
      QueueSys.run GV nm sys steps = some sys1 →
      sys.dispatched ++ sys.local_ ++ sys.impl.recvQueue = pre →
      (({ sys.impl with recvQueue := [] } : Impl), sys.effects)
        = foldDispatch GV nm base sys.dispatched →
      sys1.dispatched ++ sys1.local_ ++ sys1.impl.recvQueue = pre ++ enqueuedBy steps
      ∧ (({ sys1.impl with recvQueue := [] } : Impl), sys1.effects)
        = foldDispatch GV nm base sys1.dispatched := by
  induction steps with
  | nil =>
    intro sys sys1 pre hrun h1 h2
    simp only [QueueSys.run, Option.some.injEq] at hrun
    subst hrun
    exact ⟨by simpa [enqueuedBy] using h1, h2⟩
  | cons st rest ih =>
    intro sys sys1 pre hrun h1 h2
    simp only [QueueSys.run] at hrun
    cases hs : sys.step GV nm st with
    | none => rw [hs] at hrun; simp at hrun
    | some mid =>
      rw [hs] at hrun
      obtain ⟨m1, m2⟩ := QueueSys_step_inv GV nm base sys mid st pre hs h1 h2
      obtain ⟨r1, r2⟩ := ih mid sys1 _ hrun m1 m2
      refine ⟨?_, r2⟩
      rw [r1, enqueuedBy_cons st rest, List.append_assoc]

/-- The loop of `Update()` run to its end with no push in between dispatches
the whole of `local`, in order, and leaves the shared queue alone. -/
theorem QueueSys_drain (GV : List Nat) (nm : NetworkManager) (l : List RawPacket) :
    ∀ sys : QueueSys, sys.local_ = l →
      ∃ sys2, QueueSys.run GV nm sys (List.replicate l.length QueueStep.dispatchFront) = some sys2
        ∧ sys2.local_ = [] ∧ sys2.impl.recvQueue = sys.impl.recvQueue
        ∧ sys2.dispatched = sys.dispatched ++ l := by
  induction l with
  | nil =>
    intro sys hl
    exact ⟨sys, rfl, hl, rfl, by simp⟩
  | cons rp rest ih =>
    intro sys hl
    obtain ⟨f1, _⟩ := DispatchPacket_frame GV sys.impl rp nm
    obtain ⟨sys2, e1, e2, e3, e4⟩ := ih
      { impl := (sys.impl.DispatchPacket GV rp nm).1
        local_ := rest
        dispatched := sys.dispatched ++ [rp]
        effects := sys.effects ++ (sys.impl.DispatchPacket GV rp nm).2 } rfl
    refine ⟨sys2, ?_, e2, e3.trans f1, ?_⟩
    · simp only [List.length_cons, List.replicate_succ, QueueSys.run, QueueSys.step, hl]
      exact e1
    · rw [e4]
      simp

/-- C20: the receive thread's pushes and the steps of the main thread's
`Update()` calls (the locked swap, then one dispatch per loop turn) are run in
any interleaving the program allows, from a state with inbound queue `q0`. At
every point the packets dispatched so far, followed by those still in
`local`, followed by those still in the shared queue, are exactly `q0`
followed by the packets pushed so far, in push order: none lost, none twice,
none out of order; the session state is the left fold of `DispatchPacket`
over the packets dispatched so far; and whenever `Update()` is not in progress,
one more `Update()` call dispatches everything still queued, so that the
packets dispatched are then exactly `q0` and all packets pushed. -/
theorem C20_queue_handover (GV : List Nat) (nm : NetworkManager) (s0 : Impl)
    (steps : List QueueStep) (sys : QueueSys)
    (hrun : QueueSys.run GV nm { impl := s0 } steps = some sys) :
    sys.dispatched ++ sys.local_ ++ sys.impl.recvQueue = s0.recvQueue ++ enqueuedBy steps
    ∧ (({ sys.impl with recvQueue := [] } : Impl), sys.effects)
        = foldDispatch GV nm { s0 with recvQueue := [] } sys.dispatched
    ∧ (sys.local_ = [] →
        ∃ sys2, QueueSys.run GV nm sys (updateSteps sys.impl.recvQueue.length) = some sys2
          ∧ sys2.local_ = [] ∧ sys2.impl.recvQueue = []
          ∧ sys2.dispatched = s0.recvQueue ++ enqueuedBy steps) := by
  obtain ⟨h1, h2⟩ := QueueSys_run_inv GV nm { s0 with recvQueue := [] } steps
    { impl := s0 } sys s0.recvQueue hrun (by simp) rfl
  refine ⟨h1, h2, ?_⟩
  intro hl
  obtain ⟨sys2, e1, e2, e3, e4⟩ := QueueSys_drain GV nm sys.impl.recvQueue
    { sys with local_ := sys.impl.recvQueue, impl := { sys.impl with recvQueue := [] } } rfl
  refine ⟨sys2, ?_, e2, e3, ?_⟩
  · simp only [updateSteps, QueueSys.run, QueueSys.step, hl]
    exact e1
  · rw [e4, ← h1, hl]
    simp

theorem C20_queue_handover_witness :
    QueueSys.run [] {} { impl := freshServer } sampleInterleaving
        = some ((QueueSys.run [] {} { impl := freshServer } sampleInterleaving).getD {})
    ∧ ((QueueSys.run [] {} { impl := freshServer } sampleInterleaving).getD {}).dispatched
        ++ ((QueueSys.run [] {} { impl := freshServer } sampleInterleaving).getD {}).local_
        ++ ((QueueSys.run [] {} { impl := freshServer } sampleInterleaving).getD {}).impl.recvQueue
      = freshServer.recvQueue ++ enqueuedBy sampleInterleaving :=
  ⟨by decide,
    (C20_queue_handover [] {} freshServer sampleInterleaving
      ((QueueSys.run [] {} { impl := freshServer } sampleInterleaving).getD {}) (by decide)).1⟩
/-! ## Server handlers when two active slots share an id -/

theorem wrappedTrace_state (GV : List Nat) (nm : NetworkManager) :
    (freshServer.dispatchAll GV nm wrappedTrace).1 = churnState 0 := by
  have h : wrappedTrace = [connectFrom addrA] ++ churn (253 + 2) := rfl
  rw [h, freshServer_churn]

theorem duplicateIdTrace_state (GV : List Nat) (nm : NetworkManager) :
    (freshServer.dispatchAll GV nm duplicateIdTrace).1 = churnMid 1 := by
  have h : duplicateIdTrace = ([connectFrom addrA] ++ churn (253 + 2)) ++ [connectFrom addrB] := rfl
  rw [h, dispatchAll_append_fst, freshServer_churn, dispatchAll_single, churnState_connectB]

/-- C21 (the code breaks it): in the server state reached from `StartServer`
by A joining and B joining and leaving 255 times, A is the one active slot
(id 1), slot 1 is free and the wrapped counter is at 1 again. A full-size
`Connect` from B, bound to no active slot, is acknowledged with id 1, and the
introductory `PlayerUpdate`, which is broadcast to the slots whose id differs
from the new id, goes to nobody: A, the other active slot, gets none. -/
theorem C21_no_intro_to_slot_with_same_id :
    ((freshServer.dispatchAll [] {} wrappedTrace).1.clients.map
        (fun s => (s.addr.sin_port, s.id, s.active))).take 3
      = [(1000, 1, true), (2000, 0, false), (0, 0, false)]
    ∧ (freshServer.dispatchAll [] {} wrappedTrace).1.nextId = 1
    ∧ ((freshServer.dispatchAll [] {} wrappedTrace).1.DispatchPacket []
          (connectFrom addrB) {}).2
        = [Effect.send addrB (ConnectAckPacket.toBytes
            { header := { type := PacketType.CONNECT_ACK, playerId := 1 }, assignedId := 1 })]
    ∧ (((freshServer.dispatchAll [] {} wrappedTrace).1.DispatchPacket []
          (connectFrom addrB) {}).1.clients.filter (fun s => s.active)).map
        (fun s => (s.addr.sin_port, s.id)) = [(1000, 1), (2000, 1)] := by
  rw [wrappedTrace_state]
  decide

/-- C22 (the code breaks it): in the server state reached from `StartServer`
by `duplicateIdTrace`, A and B are both active with id 1. A `Disconnect` from
B frees B's slot, and the `Disconnect` broadcast, which goes to the slots whose
id differs from the leaver's, goes to nobody: A, the remaining active slot, is
not told. -/
theorem C22_no_disconnect_to_slot_with_same_id :
    ((freshServer.dispatchAll [] {} duplicateIdTrace).1.clients.filter (fun s => s.active)).map
        (fun s => (s.addr.sin_port, s.id)) = [(1000, 1), (2000, 1)]
    ∧ ((freshServer.dispatchAll [] {} duplicateIdTrace).1.DispatchPacket []
          (disconnectFrom addrB) {}).2 = []
    ∧ (((freshServer.dispatchAll [] {} duplicateIdTrace).1.DispatchPacket []
          (disconnectFrom addrB) {}).1.clients.filter (fun s => s.active)).map
        (fun s => (s.addr.sin_port, s.id)) = [(1000, 1)] := by
  rw [duplicateIdTrace_state]
  decide

/-- C23 (the code breaks it): in the server state reached from `StartServer`
by `duplicateIdTrace`, A and B are both active with id 1. A full-size
`PlayerUpdate` from A's address with sender id 1, the id of A's slot, is
stored as the snapshot for id 1 but forwarded to nobody: B, an active slot
other than the sender's, gets no datagram. -/
theorem C23_no_forward_to_slot_with_same_id :
    ((freshServer.dispatchAll [] {} duplicateIdTrace).1.clients.filter (fun s => s.active)).map
        (fun s => (s.addr, s.id)) = [(addrA, 1), (addrB, 1)]
    ∧ (updateAs1From addrA).from_ = addrA
    ∧ (PlayerUpdatePacket.ofBytes (updateAs1From addrA).data).header.playerId = 1
    ∧ ((freshServer.dispatchAll [] {} duplicateIdTrace).1.DispatchPacket []
          (updateAs1From addrA) {}).2 = []
    ∧ lookup ((freshServer.dispatchAll [] {} duplicateIdTrace).1.DispatchPacket []
          (updateAs1From addrA) {}).1.remotePlayers 1
        = some { id := 1, posX := 7, posY := 8, posZ := 9, rotX := 10, rotY := 11
                 active := true } := by
  rw [duplicateIdTrace_state]
  decide

/-! ## A position update between two clients that share an id -/

/-- C9 (the code breaks it): in the server state reached from `StartServer` by
`duplicateIdTrace`, A (port 1000) and B (port 2000) are both active with id 1,
the `ConnectAck` B was sent grants id 1, and both clients are connected with
local id 1. A calls `SendPlayerUpdate(1, 2, 3, 0.1, 0.2)`; the server
dispatches the datagram, stores the snapshot, and forwards it to the slots
whose id differs from the sender id 1: to nobody. B is sent nothing, and after
its next `Update()` its remote-player map has no entry under A's id. Had the
datagram reached B, B would have dropped it as its own. -/
theorem C9_update_lost_between_clients_with_same_id :
    ((freshServer.dispatchAll [] {} duplicateIdTrace).1.clients.filter (fun s => s.active)).map
        (fun s => (s.addr, s.id)) = [(addrA, 1), (addrB, 1)]
    ∧ ((freshServer.dispatchAll [] {} wrappedTrace).1.DispatchPacket []
          (connectFrom addrB) {}).2 = [Effect.send addrB ack1]
    ∧ clientA.IsConnected = true ∧ clientA.GetLocalId = 1
    ∧ clientBAs1.IsConnected = true ∧ clientBAs1.GetLocalId = 1
    ∧ (clientA.SendPlayerUpdate f32_1 f32_2 f32_3 f32_0_1 f32_0_2).2
        = [Effect.send addrS updateOfA]
    ∧ ((freshServer.dispatchAll [] {} duplicateIdTrace).1.DispatchPacket []
          (RawPacket.ofDatagram updateOfA addrA) {}).2 = []
    ∧ (lookup ((freshServer.dispatchAll [] {} duplicateIdTrace).1.DispatchPacket []
          (RawPacket.ofDatagram updateOfA addrA) {}).1.remotePlayers 1).map
        (fun p => (p.posX, p.posY, p.posZ, p.rotX, p.rotY))
        = some (f32_1, f32_2, f32_3, f32_0_1, f32_0_2)
    ∧ lookup (clientBAs1.Update []).1.GetRemotePlayers clientA.GetLocalId = none
    ∧ lookup (clientBAs1.m_impl.DispatchPacket [] (RawPacket.ofDatagram updateOfA addrS)
          clientBAs1).1.remotePlayers clientA.GetLocalId = none := by
  rw [duplicateIdTrace_state, wrappedTrace_state]
  decide
/-! ## Client handlers -/

theorem DispatchPacket_client_disconnect (GV : List Nat) (s : Impl) (rp : RawPacket)
    (nm : NetworkManager) (hm : s.mode = Mode.Client)
    (ht : getU8 rp.data 0 = PacketType.DISCONNECT) (hl : sizeof_DisconnectPacket ≤ rp.len) :
    s.DispatchPacket GV rp nm
      = s.Client_HandleDisconnect (DisconnectPacket.ofBytes rp.data) nm := by
  simp [Impl.DispatchPacket, hm, PacketHeader.ofBytes, ht, hl]

theorem lookup_cons (k1 : Nat) (v : RemotePlayer) (rest : List (Nat × RemotePlayer)) (j : Nat) :
    lookup ((k1, v) :: rest) j = if k1 = j then some v else lookup rest j := by
  by_cases h : k1 = j
  · simp [lookup, List.find?_cons, h]
  · have hb : (k1 == j) = false := by simpa using h
    simp [lookup, List.find?_cons, h, hb]

theorem erase_cons (k1 : Nat) (v : RemotePlayer) (rest : List (Nat × RemotePlayer)) (k : Nat) :
    erase ((k1, v) :: rest) k = if k1 = k then erase rest k else (k1, v) :: erase rest k := by
  by_cases h : k1 = k
  · simp [erase, List.filter_cons, h]
  · simp [erase, List.filter_cons, h]

theorem upsert_cons (k1 : Nat) (v : RemotePlayer) (rest : List (Nat × RemotePlayer)) (k : Nat)
    (f : RemotePlayer → RemotePlayer) :
    upsert ((k1, v) :: rest) k f
      = if k1 = k then (k1, f v) :: rest else (k1, v) :: upsert rest k f := rfl

theorem lookup_erase_self (m : List (Nat × RemotePlayer)) (k : Nat) :
    lookup (erase m k) k = none := by
  induction m with
  | nil => rfl
  | cons e rest ih =>
    obtain ⟨k1, v⟩ := e
    rw [erase_cons]
    split_ifs with h
    · exact ih
    · rw [lookup_cons, if_neg h]
      exact ih

theorem lookup_erase_other (m : List (Nat × RemotePlayer)) (k j : Nat) (hj : j ≠ k) :
    lookup (erase m k) j = lookup m j := by
  induction m with
  | nil => rfl
  | cons e rest ih =>
    obtain ⟨k1, v⟩ := e
    rw [erase_cons, lookup_cons]
    split_ifs with h1 h2 h2
    · exact absurd (h2.symm.trans h1) hj
    · exact ih
    · rw [lookup_cons, if_pos h2]
    · rw [lookup_cons, if_neg h2]
      exact ih

theorem lookup_upsert_other (m : List (Nat × RemotePlayer)) (k j : Nat)
    (f : RemotePlayer → RemotePlayer) (hj : j ≠ k) :
    lookup (upsert m k f) j = lookup m j := by
  induction m with
  | nil =>
    show lookup [(k, f {})] j = lookup [] j
    rw [lookup_cons, if_neg (fun e => hj e.symm)]
  | cons e rest ih =>
    obtain ⟨k1, v⟩ := e
    rw [upsert_cons, lookup_cons]
    split_ifs with h1 h2 h2
    · exact absurd (h2.symm.trans h1) hj
    · rw [lookup_cons, if_neg h2]
    · rw [lookup_cons, if_pos h2]
    · rw [lookup_cons, if_neg h2]
      exact ih

/-- C24: in client mode, connected or not, dispatching a packet tagged
`CONNECT_ACK` of at least 3 bytes changes the state only by setting the local
id to the packet's `assignedId` and `connected` to true (the remote-player map
is as before), sends nothing, and its one effect is the call of
`OnPlayerJoined`, if set, with the new local id and the local name. -/
theorem C24_client_connect_ack (GV : List Nat) (s : Impl) (rp : RawPacket)
    (nm : NetworkManager) (hm : s.mode = Mode.Client)
    (ht : getU8 rp.data 0 = PacketType.CONNECT_ACK) (hl : sizeof_ConnectAckPacket ≤ rp.len) :
    s.DispatchPacket GV rp nm
      = ({ s with localId := (ConnectAckPacket.ofBytes rp.data).assignedId, connected := true },
          if nm.OnPlayerJoined then
            [Effect.playerJoined (ConnectAckPacket.ofBytes rp.data).assignedId s.localName]
          else [])
    ∧ (ConnectAckPacket.ofBytes rp.data).assignedId = getU8 rp.data 2
    ∧ (s.DispatchPacket GV rp nm).1.remotePlayers = s.remotePlayers
    ∧ (s.DispatchPacket GV rp nm).2.filter Effect.isSend = [] := by
  rw [DispatchPacket_client_connectAck GV s rp nm hm ht hl]
  refine ⟨rfl, rfl, rfl, ?_⟩
  simp only [Impl.Client_HandleConnectAck]
  split_ifs <;> simp [Effect.isSend, Effect.dest]

theorem C24_client_connect_ack_witness :
    (waitingClient.mode = Mode.Client
      ∧ getU8 ack1Packet.data 0 = PacketType.CONNECT_ACK
      ∧ sizeof_ConnectAckPacket ≤ ack1Packet.len)
    ∧ (waitingClient.DispatchPacket [] ack1Packet { OnPlayerJoined := true }).1.localId = 1
    ∧ (waitingClient.DispatchPacket [] ack1Packet { OnPlayerJoined := true }).1.connected = true
    ∧ (waitingClient.DispatchPacket [] ack1Packet { OnPlayerJoined := true }).2
        = [Effect.playerJoined 1 waitingClient.localName] :=
  have h := (C24_client_connect_ack [] waitingClient ack1Packet { OnPlayerJoined := true }
    (by decide) (by decide) (by decide)).1
  ⟨⟨by decide, by decide, by decide⟩, by rw [h]; decide, by rw [h], by rw [h]; decide⟩

theorem Client_HandleDisconnect_kick (GV : List Nat) (s : Impl) (rp : RawPacket)
    (nm : NetworkManager) (hm : s.mode = Mode.Client)
    (ht : getU8 rp.data 0 = PacketType.DISCONNECT) (hl : sizeof_DisconnectPacket ≤ rp.len) :
    getU8 rp.data 1 = s.localId →
      s.DispatchPacket GV rp nm
        = ({ s with connected := false, remotePlayers := [] },
            if nm.OnPlayerLeft then [Effect.playerLeft s.localId] else []) := by
  intro h
  rw [DispatchPacket_client_disconnect GV s rp nm hm ht hl]
  have hid : (DisconnectPacket.ofBytes rp.data).header.playerId = getU8 rp.data 1 := rfl
  simp only [Impl.Client_HandleDisconnect, hid, h, beq_self_eq_true, if_true]

/-- C25: in client mode, dispatching a `Disconnect`: when its sender id is the
local id, `connected` becomes false, the remote-player map becomes empty,
nothing else changes, and the one effect is `OnPlayerLeft` (if set) with the
local id; otherwise the state changes only in the remote-player map, which
loses the entry of that sender id and keeps every other entry as it was, and
the one effect is `OnPlayerLeft` (if set) with that sender id. -/
theorem C25_client_disconnect (GV : List Nat) (s : Impl) (rp : RawPacket)
    (nm : NetworkManager) (hm : s.mode = Mode.Client)
    (ht : getU8 rp.data 0 = PacketType.DISCONNECT) (hl : sizeof_DisconnectPacket ≤ rp.len) :
    (getU8 rp.data 1 = s.localId →
      s.DispatchPacket GV rp nm
        = ({ s with connected := false, remotePlayers := [] },
            if nm.OnPlayerLeft then [Effect.playerLeft s.localId] else []))
    ∧ (getU8 rp.data 1 ≠ s.localId →
      s.DispatchPacket GV rp nm
          = ({ s with remotePlayers := erase s.remotePlayers (getU8 rp.data 1) },
              if nm.OnPlayerLeft then [Effect.playerLeft (getU8 rp.data 1)] else [])
        ∧ lookup (s.DispatchPacket GV rp nm).1.remotePlayers (getU8 rp.data 1) = none
        ∧ (∀ j, j ≠ getU8 rp.data 1 →
            lookup (s.DispatchPacket GV rp nm).1.remotePlayers j = lookup s.remotePlayers j)
        ∧ (s.DispatchPacket GV rp nm).1.connected = s.connected) := by
  rw [DispatchPacket_client_disconnect GV s rp nm hm ht hl]
  have hid : (DisconnectPacket.ofBytes rp.data).header.playerId = getU8 rp.data 1 := rfl
  constructor
  · intro h
    simp only [Impl.Client_HandleDisconnect, hid, h, beq_self_eq_true, if_true]
  · intro h
    have hb : (getU8 rp.data 1 == s.localId) = false := by simpa using h
    simp only [Impl.Client_HandleDisconnect, hid, hb, Bool.false_eq_true, if_false, true_and]
    exact ⟨lookup_erase_self _ _, fun j hj => lookup_erase_other _ _ j hj, trivial⟩

theorem C25_client_disconnect_witness :
    (clientBWithPeers.mode = Mode.Client
      ∧ getU8 (disconnectOf 1).data 0 = PacketType.DISCONNECT
      ∧ sizeof_DisconnectPacket ≤ (disconnectOf 1).len
      ∧ getU8 (disconnectOf 1).data 1 ≠ clientBWithPeers.localId)
    ∧ (clientBWithPeers.DispatchPacket [] (disconnectOf 1) {}).1.remotePlayers
        = [(3, { id := 3, posX := 5, active := true })] :=
  have h := ((C25_client_disconnect [] clientBWithPeers (disconnectOf 1) {}
    (by decide) (by decide) (by decide)).2 (by decide)).1
  ⟨⟨by decide, by decide, by decide, by decide⟩, by rw [h]; decide⟩
/-! ## A `PlayerUpdate` on a client -/

/-- C26: in client mode, dispatching a full-size `PlayerUpdate`: when its
sender id is the local id, nothing changes and there is no effect; otherwise
there is no effect either (nothing sent, no callback), the state changes only
in the remote-player map, whose entry for the sender id now has that id, the
packet's position and rotation and `active = true` (its name is kept), while
every other entry, the connected flag and the local id are as before. -/
theorem C26_client_player_update (GV : List Nat) (s : Impl) (rp : RawPacket)
    (nm : NetworkManager) (hm : s.mode = Mode.Client)
    (ht : getU8 rp.data 0 = PacketType.PLAYER_UPDATE) (hl : sizeof_PlayerUpdatePacket ≤ rp.len) :
    ((PlayerUpdatePacket.ofBytes rp.data).header.playerId = s.localId →
      s.DispatchPacket GV rp nm = (s, []))
    ∧ ((PlayerUpdatePacket.ofBytes rp.data).header.playerId ≠ s.localId →
      (s.DispatchPacket GV rp nm).2 = []
      ∧ (∃ q, (s.DispatchPacket GV rp nm).1 = { s with remotePlayers := q })
      ∧ (∃ e, lookup (s.DispatchPacket GV rp nm).1.remotePlayers
            (PlayerUpdatePacket.ofBytes rp.data).header.playerId = some e
          ∧ e.id = (PlayerUpdatePacket.ofBytes rp.data).header.playerId
          ∧ e.posX = (PlayerUpdatePacket.ofBytes rp.data).posX
          ∧ e.posY = (PlayerUpdatePacket.ofBytes rp.data).posY
          ∧ e.posZ = (PlayerUpdatePacket.ofBytes rp.data).posZ
          ∧ e.rotX = (PlayerUpdatePacket.ofBytes rp.data).rotX
          ∧ e.rotY = (PlayerUpdatePacket.ofBytes rp.data).rotY
          ∧ e.active = true
          ∧ e.name = ((lookup s.remotePlayers
              (PlayerUpdatePacket.ofBytes rp.data).header.playerId).getD {}).name)
      ∧ (∀ j, j ≠ (PlayerUpdatePacket.ofBytes rp.data).header.playerId →
          lookup (s.DispatchPacket GV rp nm).1.remotePlayers j = lookup s.remotePlayers j)
      ∧ (s.DispatchPacket GV rp nm).1.connected = s.connected
      ∧ (s.DispatchPacket GV rp nm).1.localId = s.localId) := by
  rw [DispatchPacket_client_playerUpdate GV s rp nm hm ht hl]
  constructor
  · intro h
    simp only [Impl.Client_HandlePlayerUpdate, h, beq_self_eq_true, if_true]
  · intro h
    have hb : ((PlayerUpdatePacket.ofBytes rp.data).header.playerId == s.localId) = false := by
      simpa using h
    simp only [Impl.Client_HandlePlayerUpdate, hb, Bool.false_eq_true, if_false, true_and,
      lookup_upsert]
    exact ⟨⟨_, rfl⟩, ⟨_, rfl, rfl, rfl, rfl, rfl, rfl, rfl, rfl, rfl⟩,
      fun j hj => lookup_upsert_other _ _ j _ hj, trivial⟩

theorem C26_client_player_update_witness :
    (clientBWithPeers.mode = Mode.Client
      ∧ getU8 updateOf3.data 0 = PacketType.PLAYER_UPDATE
      ∧ sizeof_PlayerUpdatePacket ≤ updateOf3.len
      ∧ (PlayerUpdatePacket.ofBytes updateOf3.data).header.playerId ≠ clientBWithPeers.localId)
    ∧ (clientBWithPeers.DispatchPacket [] updateOf3 {}).2 = [] :=
  ⟨⟨by decide, by decide, by decide, by decide⟩,
    ((C26_client_player_update [] clientBWithPeers updateOf3 {} (by decide) (by decide)
      (by decide)).2 (by decide)).1⟩

/-! ## What the receive loop enqueues and what it leaves alone -/

theorem rawBytes_eq_take (buf : List Nat) (len : Nat) (h : len ≤ buf.length) :
    rawBytes buf len = buf.take len := by
  apply List.ext_getElem
  · simp [rawBytes, getChars, h]
  · intro i h1 h2
    have hi : i < buf.length := by
      rw [List.length_take] at h2
      omega
    simp only [rawBytes, getChars, List.getElem_map, List.getElem_range, Nat.zero_add,
      List.getElem_take]
    rw [List.getD_eq_getElem?_getD, List.getElem?_eq_getElem hi]
    rfl

theorem RecvLoop_retry_recvQueue (s : Impl) (now : Int) :
    (s.RecvLoop_retry now).1.recvQueue = s.recvQueue := by
  unfold Impl.RecvLoop_retry
  dsimp only
  split_ifs <;> rfl

/-- C27: one receive of the loop, with `recvfrom` returning `n` and the buffer
`buf`. When `n < 2` (timeout, error, or a datagram of fewer than 2 bytes)
the state, and so the queue, is unchanged. When `n ≥ 2` exactly one packet is
appended to the queue: its length is `n` cut to 512, so between 2 and 512, its
source is the datagram's source, and its data are the first `length` bytes of
the buffer. The whole loop iteration changes the queue in the same way. -/
theorem C27_enqueued_packet (s : Impl) (now n : Int) (buf : List Nat) (a : sockaddr_in) :
    (n < 2 → s.RecvLoop_recv n buf a = s
      ∧ (s.RecvLoop_iter now n buf a).1.recvQueue = s.recvQueue)
    ∧ (2 ≤ n → ∃ rp,
        s.RecvLoop_recv n buf a = { s with recvQueue := s.recvQueue ++ [rp] }
        ∧ (s.running = true → (s.RecvLoop_iter now n buf a).1.recvQueue = s.recvQueue ++ [rp])
        ∧ sizeof_PacketHeader ≤ rp.len ∧ rp.len ≤ 512
        ∧ (rp.len : Int) = min n 512
        ∧ rp.from_ = a
        ∧ rp.data = rawBytes buf rp.len
        ∧ (rp.len ≤ buf.length → rp.data = buf.take rp.len)) := by
  have hnone : n < 2 → RawPacket.received n buf a = none := by
    intro hn
    unfold RawPacket.received
    simp only [sizeof_PacketHeader]
    split_ifs with h1 h2
    · rfl
    · rfl
    · exact absurd hn (by push_cast at h2; omega)
  have hsome : 2 ≤ n → RawPacket.received n buf a
      = some { data := rawBytes buf (if n < 512 then n.toNat else 512)
               len := if n < 512 then n.toNat else 512, from_ := a } := by
    intro hn
    unfold RawPacket.received
    simp only [sizeof_PacketHeader]
    split_ifs with h1 h2 <;> first | rfl | (exfalso; push_cast at *; omega)
  have heta : ∀ t : Impl, ({ t with recvQueue := t.recvQueue ++ [] } : Impl) = t := by
    intro t; simp
  constructor
  · intro hn
    have h1 : ∀ t : Impl, t.RecvLoop_recv n buf a = t := by
      intro t
      rw [RecvLoop_recv_eq, hnone hn]
      exact heta t
    refine ⟨h1 s, ?_⟩
    unfold Impl.RecvLoop_iter
    split_ifs
    · simp only [h1, RecvLoop_retry_recvQueue]
    · rfl
  · intro hn
    have key : ∀ t : Impl, t.RecvLoop_recv n buf a
        = { t with recvQueue := t.recvQueue ++
            [{ data := rawBytes buf (if n < 512 then n.toNat else 512)
               len := if n < 512 then n.toNat else 512, from_ := a }] } := by
      intro t
      rw [RecvLoop_recv_eq, hsome hn]
      rfl
    refine ⟨{ data := rawBytes buf (if n < 512 then n.toNat else 512)
              len := if n < 512 then n.toNat else 512, from_ := a }, key s, ?_, ?_, ?_, ?_,
      rfl, rfl, fun h => rawBytes_eq_take buf _ h⟩
    · intro hr
      unfold Impl.RecvLoop_iter
      simp only [hr, if_true, key, RecvLoop_retry_recvQueue]
    · simp only [sizeof_PacketHeader]
      split_ifs <;> omega
    · simp only
      split_ifs <;> omega
    · simp only
      split_ifs <;> omega

theorem C27_enqueued_packet_witness :
    (2 : Int) ≤ 600
    ∧ ∃ rp, freshServer.RecvLoop_recv 600 longDatagram addrA
          = { freshServer with recvQueue := freshServer.recvQueue ++ [rp] }
        ∧ (freshServer.running = true →
            (freshServer.RecvLoop_iter 0 600 longDatagram addrA).1.recvQueue
              = freshServer.recvQueue ++ [rp])
        ∧ sizeof_PacketHeader ≤ rp.len ∧ rp.len ≤ 512
        ∧ (rp.len : Int) = min 600 512
        ∧ rp.from_ = addrA
        ∧ rp.data = rawBytes longDatagram rp.len
        ∧ (rp.len ≤ longDatagram.length → rp.data = longDatagram.take rp.len) :=
  ⟨by decide, (C27_enqueued_packet freshServer 0 600 longDatagram addrA).2 (by decide)⟩

/-- C28: one iteration of the receive loop returns the state it was given
with at most the inbound queue, the last-connect-attempt time and the
connect-attempt counter replaced; in particular the slot table, the id
counter, the remote-player map, the connected flag, the local id and the mode
are as before. -/
theorem C28_recv_loop_frame (s : Impl) (now n : Int) (buf : List Nat) (a : sockaddr_in) :
    (∃ q t c, (s.RecvLoop_iter now n buf a).1
        = { s with recvQueue := q, lastConnectAttempt := t, connectAttempts := c })
    ∧ (s.RecvLoop_iter now n buf a).1.clients = s.clients
    ∧ (s.RecvLoop_iter now n buf a).1.nextId = s.nextId
    ∧ (s.RecvLoop_iter now n buf a).1.remotePlayers = s.remotePlayers
    ∧ (s.RecvLoop_iter now n buf a).1.connected = s.connected
    ∧ (s.RecvLoop_iter now n buf a).1.localId = s.localId
    ∧ (s.RecvLoop_iter now n buf a).1.mode = s.mode := by
  have hretry : ∃ t c, (s.RecvLoop_retry now).1
      = { s with lastConnectAttempt := t, connectAttempts := c } := by
    unfold Impl.RecvLoop_retry
    dsimp only
    split_ifs
    · exact ⟨now, s.connectAttempts + 1, rfl⟩
    · exact ⟨s.lastConnectAttempt, s.connectAttempts, rfl⟩
    · exact ⟨s.lastConnectAttempt, s.connectAttempts, rfl⟩
  have h : ∃ q t c, (s.RecvLoop_iter now n buf a).1
      = { s with recvQueue := q, lastConnectAttempt := t, connectAttempts := c } := by
    obtain ⟨t, c, e⟩ := hretry
    unfold Impl.RecvLoop_iter
    split_ifs
    · dsimp only
      rw [RecvLoop_recv_eq, e]
      exact ⟨_, t, c, rfl⟩
    · exact ⟨s.recvQueue, s.lastConnectAttempt, s.connectAttempts, rfl⟩
  obtain ⟨q, t, c, e⟩ := h
  refine ⟨⟨q, t, c, e⟩, ?_, ?_, ?_, ?_, ?_, ?_⟩ <;> rw [e]
/-! ## No two active slots on one endpoint -/

theorem pairwise_set {R : ClientSlot → ClientSlot → Prop} (l : List ClientSlot) (y : ClientSlot)
    (hl : l.Pairwise R) (hy : ∀ x ∈ l, R x y ∧ R y x) :
    ∀ i : Nat, (l.set i y).Pairwise R := by
  induction l with
  | nil => intro i; simp
  | cons a rest ih =>
    intro i
    rw [List.pairwise_cons] at hl
    have hrest : ∀ x ∈ rest, R x y ∧ R y x := fun x hx => hy x (List.mem_cons_of_mem _ hx)
    cases i with
    | zero =>
      rw [List.set_cons_zero, List.pairwise_cons]
      exact ⟨fun x hx => (hrest x hx).2, hl.2⟩
    | succ i =>
      rw [List.set_cons_succ, List.pairwise_cons]
      refine ⟨?_, ih hl.2 hrest i⟩
      intro x hx
      rcases List.mem_or_eq_of_mem_set hx with h | h
      · exact hl.1 x h
      · rw [h]; exact (hy a (List.mem_cons_self _ _)).1

theorem Server_HandleConnect_inv (s : Impl) (pkt : ConnectPacket) (a : sockaddr_in)
    (nm : NetworkManager) (h1 : s.clients.length = MAX_PLAYERS)
    (h2 : s.clients.Pairwise NoSharedEndpoint) :
    (s.Server_HandleConnect pkt a nm).1.clients.length = MAX_PLAYERS
    ∧ (s.Server_HandleConnect pkt a nm).1.clients.Pairwise NoSharedEndpoint := by
  unfold Impl.Server_HandleConnect
  cases hfind : s.clients.find? (fun slot => slot.active
      && slot.addr.sin_addr == a.sin_addr && slot.addr.sin_port == a.sin_port) with
  | some slot => exact ⟨h1, h2⟩
  | none =>
    cases hidx : s.clients.findIdx? (fun s => !s.active) with
    | none => exact ⟨h1, h2⟩
    | some i =>
      dsimp only
      refine ⟨by rw [List.length_set]; exact h1, ?_⟩
      apply pairwise_set _ _ h2
      intro x hx
      have hx2 := List.find?_eq_none.mp hfind x hx
      simp only [Bool.and_eq_true, beq_iff_eq, not_and, Bool.not_eq_true] at hx2
      constructor
      · intro hc
        exact hx2 ⟨hc.1, hc.2.2.1⟩ hc.2.2.2
      · intro hc
        exact hx2 ⟨hc.2.1, hc.2.2.1.symm⟩ hc.2.2.2.symm

theorem Server_HandleDisconnect_inv (s : Impl) (pkt : DisconnectPacket) (a : sockaddr_in)
    (nm : NetworkManager) (h1 : s.clients.length = MAX_PLAYERS)
    (h2 : s.clients.Pairwise NoSharedEndpoint) :
    (s.Server_HandleDisconnect pkt a nm).1.clients.length = MAX_PLAYERS
    ∧ (s.Server_HandleDisconnect pkt a nm).1.clients.Pairwise NoSharedEndpoint := by
  unfold Impl.Server_HandleDisconnect
  cases hidx : s.clients.findIdx? (fun slot => slot.active
      && slot.addr.sin_addr == a.sin_addr && slot.addr.sin_port == a.sin_port) with
  | none => exact ⟨h1, h2⟩
  | some i =>
    dsimp only
    refine ⟨by rw [List.length_set]; exact h1, ?_⟩
    apply pairwise_set _ _ h2
    intro x _
    constructor
    · intro hc
      simp at hc
    · intro hc
      simp at hc

/-- Dispatching one packet, in any mode, keeps the table at 16 slots with no
two active slots on one endpoint. -/
theorem DispatchPacket_inv (GV : List Nat) (s : Impl) (rp : RawPacket) (nm : NetworkManager)
    (h1 : s.clients.length = MAX_PLAYERS) (h2 : s.clients.Pairwise NoSharedEndpoint) :
    (s.DispatchPacket GV rp nm).1.clients.length = MAX_PLAYERS
    ∧ (s.DispatchPacket GV rp nm).1.clients.Pairwise NoSharedEndpoint := by
  have a := Server_HandleConnect_inv s (ConnectPacket.ofBytes rp.data) rp.from_ nm h1 h2
  have b := Server_HandleDisconnect_inv s (DisconnectPacket.ofBytes rp.data) rp.from_ nm h1 h2
  obtain ⟨_, _, _, _, c5, _⟩ := Server_HandlePlayerUpdate_frame s rp.data rp.from_
  unfold Impl.DispatchPacket
  dsimp only
  split_ifs
  · exact ⟨h1, h2⟩
  · exact a
  · exact ⟨h1, h2⟩
  · exact b
  · exact ⟨h1, h2⟩
  · rw [c5]; exact ⟨h1, h2⟩
  · exact ⟨h1, h2⟩
  · exact ⟨h1, h2⟩
  · exact ⟨h1, h2⟩
  · exact ⟨h1, h2⟩
  · simp only [Impl.Client_HandleDisconnect]
    split_ifs <;> exact ⟨h1, h2⟩
  · exact ⟨h1, h2⟩
  · simp only [Impl.Client_HandlePlayerUpdate]
    split_ifs <;> exact ⟨h1, h2⟩
  · exact ⟨h1, h2⟩
  · exact ⟨h1, h2⟩
  · exact ⟨h1, h2⟩

theorem dispatchAll_inv (GV : List Nat) (nm : NetworkManager) (pkts : List RawPacket) :
    ∀ s : Impl, s.clients.length = MAX_PLAYERS → s.clients.Pairwise NoSharedEndpoint →
      (s.dispatchAll GV nm pkts).1.clients.length = MAX_PLAYERS
      ∧ (s.dispatchAll GV nm pkts).1.clients.Pairwise NoSharedEndpoint := by
  induction pkts with
  | nil => intro s h1 h2; exact ⟨h1, h2⟩
  | cons rp rest ih =>
    intro s h1 h2
    obtain ⟨d1, d2⟩ := DispatchPacket_inv GV s rp nm h1 h2
    exact ih _ d1 d2

/-- C29: in every state reached from a successful `StartServer()` by
dispatching any sequence of packets, the slot table has its 16 slots, no two
slots at different positions are both active and bound to the same
(IP address, port), and the number of active slots is at most 16. -/
theorem C29_active_slots_distinct_endpoints (GV : List Nat) (nm nm0 : NetworkManager)
    (port : Nat) (sock : Option Nat) (bindOk : Bool) (pkts : List RawPacket)
    (hs : (nm0.StartServer port sock bindOk).2 = true) :
    ((nm0.StartServer port sock bindOk).1.m_impl.dispatchAll GV nm pkts).1.clients.Pairwise
        NoSharedEndpoint
    ∧ (((nm0.StartServer port sock bindOk).1.m_impl.dispatchAll GV nm pkts).1.clients.filter
        (fun s => s.active)).length ≤ MAX_PLAYERS
    ∧ ((nm0.StartServer port sock bindOk).1.m_impl.dispatchAll GV nm pkts).1.clients.length
        = MAX_PLAYERS := by
  obtain ⟨_, s2, _, _, _⟩ := StartServer_ok nm0 port sock bindOk hs
  have h1 : (nm0.StartServer port sock bindOk).1.m_impl.clients.length = MAX_PLAYERS := by
    rw [s2, List.length_replicate]
  have h2 : (nm0.StartServer port sock bindOk).1.m_impl.clients.Pairwise NoSharedEndpoint := by
    rw [s2, List.pairwise_replicate]
    right
    intro hc
    simp at hc
  obtain ⟨d1, d2⟩ := dispatchAll_inv GV nm pkts _ h1 h2
  refine ⟨d2, ?_, d1⟩
  rw [← d1]
  exact List.length_filter_le _ _

theorem C29_active_slots_distinct_endpoints_witness :
    (({} : NetworkManager).StartServer DEFAULT_PORT (some 3) true).2 = true
    ∧ ((({} : NetworkManager).StartServer DEFAULT_PORT (some 3) true).1.m_impl.dispatchAll [] {}
          duplicateIdTrace).1.clients.Pairwise NoSharedEndpoint :=
  ⟨rfl, (C29_active_slots_distinct_endpoints [] {} {} DEFAULT_PORT (some 3) true duplicateIdTrace
    rfl).1⟩
/-! ## A kicked client rejoins on its own -/

/-- Iterations that each observe less than 500 ms since the last attempt send
nothing and leave the retry state alone. -/
theorem early_iters_keep (GV : List Nat) (nm : NetworkManager) (evs : List ClientEvent) :
    ∀ s : Impl, s.running = true →
      (∀ e ∈ evs, e.isEarlyIter s.lastConnectAttempt = true) →
      (s.clientRun GV nm evs).2 = []
      ∧ (s.clientRun GV nm evs).1.mode = s.mode
      ∧ (s.clientRun GV nm evs).1.connected = s.connected
      ∧ (s.clientRun GV nm evs).1.running = true
      ∧ (s.clientRun GV nm evs).1.serverAddr = s.serverAddr
      ∧ (s.clientRun GV nm evs).1.localName = s.localName
      ∧ (s.clientRun GV nm evs).1.connectAttempts = s.connectAttempts
      ∧ (s.clientRun GV nm evs).1.lastConnectAttempt = s.lastConnectAttempt := by
  induction evs with
  | nil => intro s hr _; exact ⟨rfl, rfl, rfl, hr, rfl, rfl, rfl, rfl⟩
  | cons e rest ih =>
    intro s hr hev
    have he := hev e (List.mem_cons_self _ _)
    cases e with
    | dispatch rp => simp [ClientEvent.isEarlyIter] at he
    | iter now n buf a =>
      simp only [ClientEvent.isEarlyIter, decide_eq_true_eq] at he
      have hstep := RecvLoop_iter_idle s now n buf a hr (fun h => absurd h.2 (not_le.mpr he))
      obtain ⟨r1, r2, r3, r4, r5, r6, r7⟩ := RecvLoop_recv_keeps s n buf a
      obtain ⟨i1, i2, i3, i4, i5, i6, i7, i8⟩ := ih (s.RecvLoop_recv n buf a) (r3.trans hr)
        (fun x hx => by rw [r7]; exact hev x (List.mem_cons_of_mem _ hx))
      simp only [Impl.clientRun, Impl.clientStep, hstep, List.nil_append]
      exact ⟨i1, i2.trans r1, i3.trans r2, i4, i5.trans r4, i6.trans r5, i7.trans r6,
        i8.trans r7⟩

/-- C30: a running client with fewer than 15 attempts counted dispatches a
`Disconnect` whose sender id is its local id. It is then not connected, and
after any number of receive-loop iterations that observe less than 500 ms
since the last connect attempt (none of which sends anything), the iteration
that observes at least 500 ms sends the `Connect` packet to the server again
and counts one more attempt, without any call of `Connect()`. -/
theorem C30_kicked_client_retries (GV : List Nat) (s : Impl) (rp : RawPacket)
    (nm : NetworkManager) (early : List ClientEvent) (now n : Int) (buf : List Nat)
    (a : sockaddr_in)
    (hm : s.mode = Mode.Client) (hr : s.running = true)
    (hcap : s.connectAttempts < MAX_CONNECT_ATTEMPTS)
    (ht : getU8 rp.data 0 = PacketType.DISCONNECT) (hl : sizeof_DisconnectPacket ≤ rp.len)
    (hid : getU8 rp.data 1 = s.localId)
    (hearly : ∀ e ∈ early, e.isEarlyIter s.lastConnectAttempt = true)
    (hel : CONNECT_RETRY_MS ≤ Int.tdiv (now - s.lastConnectAttempt) TICKS_PER_MS) :
    (s.DispatchPacket GV rp nm).1.connected = false
    ∧ ((s.DispatchPacket GV rp nm).1.clientRun GV nm early).2 = []
    ∧ ((((s.DispatchPacket GV rp nm).1.clientRun GV nm early).1.RecvLoop_iter now n buf a).2
        = [Effect.send s.serverAddr (connectDatagram s.localName)])
    ∧ (((s.DispatchPacket GV rp nm).1.clientRun GV nm early).1.RecvLoop_iter
        now n buf a).1.connectAttempts = s.connectAttempts + 1
    ∧ (((s.DispatchPacket GV rp nm).1.clientRun GV nm early).1.RecvLoop_iter
        now n buf a).1.connected = false := by
  have hkick : s.DispatchPacket GV rp nm
      = ({ s with connected := false, remotePlayers := [] },
          if nm.OnPlayerLeft then [Effect.playerLeft s.localId] else []) :=
    (Client_HandleDisconnect_kick GV s rp nm hm ht hl) hid
  rw [hkick]
  obtain ⟨e1, e2, e3, e4, e5, e6, e7, e8⟩ := early_iters_keep GV nm early
    ({ s with connected := false, remotePlayers := [] } : Impl) hr hearly
  have hsend := RecvLoop_iter_send
    ((({ s with connected := false, remotePlayers := [] } : Impl).clientRun GV nm early).1)
    now n buf a (e2.trans hm) e3 e4 (by rw [e7]; exact hcap) (by rw [e8]; exact hel)
  obtain ⟨_, r2, _, _, _, r6, _⟩ := RecvLoop_recv_keeps
    ({ (({ s with connected := false, remotePlayers := [] } : Impl).clientRun GV nm early).1 with
        lastConnectAttempt := now
        connectAttempts :=
          (({ s with connected := false, remotePlayers := [] } : Impl).clientRun
            GV nm early).1.connectAttempts + 1 } : Impl) n buf a
  refine ⟨rfl, e1, ?_, ?_, ?_⟩
  · rw [hsend, e5, e6]
  · rw [hsend, r6]
    simp only [e7]
  · rw [hsend, r2]
    exact e3

theorem C30_kicked_client_retries_witness :
    (clientA.m_impl.mode = Mode.Client ∧ clientA.m_impl.running = true
      ∧ clientA.m_impl.connectAttempts < MAX_CONNECT_ATTEMPTS
      ∧ getU8 (disconnectOf 1).data 0 = PacketType.DISCONNECT
      ∧ sizeof_DisconnectPacket ≤ (disconnectOf 1).len
      ∧ getU8 (disconnectOf 1).data 1 = clientA.m_impl.localId
      ∧ (∀ e ∈ earlyIters, e.isEarlyIter clientA.m_impl.lastConnectAttempt = true)
      ∧ CONNECT_RETRY_MS
          ≤ Int.tdiv (600000000 - clientA.m_impl.lastConnectAttempt) TICKS_PER_MS)
    ∧ ((((clientA.m_impl.DispatchPacket [] (disconnectOf 1) {}).1.clientRun [] {}
          earlyIters).1.RecvLoop_iter 600000000 (-1) [] {}).2
        = [Effect.send clientA.m_impl.serverAddr (connectDatagram clientA.m_impl.localName)])
    ∧ (((clientA.m_impl.DispatchPacket [] (disconnectOf 1) {}).1.clientRun [] {}
          earlyIters).1.RecvLoop_iter 600000000 (-1) [] {}).1.connectAttempts = 2 :=
  have h := C30_kicked_client_retries [] clientA.m_impl (disconnectOf 1) {} earlyIters
    600000000 (-1) [] {} rfl rfl (by decide) (by decide) (by decide) rfl (by decide) (by decide)
  ⟨⟨rfl, rfl, by decide, by decide, by decide, rfl, by decide, by decide⟩, h.2.2.1, h.2.2.2.1⟩

end Hotones.Net
